import Mathlib

/-!
# DEM-Engine, dynamic thread (dT): scheduling loop and mailbox operations

A shallow embedding of `src/granular/dT.cpp`.

* The managed vectors of `DEMDynamicThread` and the raw views `granData->...`
  alias the same storage; each pair is one list here.
* `float`/`double` payloads are carried as rationals: the operations embedded
  below only copy them.
* `workerThread` is a step function over a program counter, one step per
  access to state shared with the kinematic thread (kT) or the driver; what kT
  and the driver do is an explicit list of environment events interleaved with
  the steps of dT.
* A step that makes GPU calls either completes or leaves the loop at a failing
  call; what the failed operation was writing is then indeterminate and is a
  parameter of the device.
* Unsigned integer types are naturals reduced modulo a power of two where the
  source can wrap; the widths of the typedefs declared in headers are parameters.
-/

namespace sgps

/-! ## Element types

The typedefs of `GranularDefines.h`, a header included by `dT.cpp`: unsigned integers are
naturals, floating-point values are rationals. -/

abbrev voxelID_t := Nat
abbrev subVoxelPos_t := Nat
abbrev oriQ_t := ℚ
abbrev bodyID_t := Nat
abbrev float3 := ℚ × ℚ × ℚ

/-- The call `cudaMemcpy(dst, src, n * sizeof(T), ...)`: the first `n` elements of `dst`
become the first `n` elements of `src`, the rest of `dst` is untouched. The C call is defined
only when both regions hold `n` elements: into a `dst` that holds fewer the source call writes
past the end of the buffer, which shows here as a list longer than `dst`. That a copy stays
inside its destination is therefore a property of the state the copy is made in, not of its
result. -/
def cudaMemcpy {α : Type} (dst src : List α) (n : Nat) : List α :=
  src.take n ++ dst.drop n

/-- Modelled from the spec: the resize done by TRACKED_QUICK_VECTOR_RESIZE (the macro is
declared in a header, outside `dT.cpp`). The contact storage "grows
via reallocation": the elements already present are kept and the vector is extended with
value-initialised elements up to the new size, as `std::vector::resize` does. -/
def vectorResize {α : Type} (dflt : α) (v : List α) (n : Nat) : List α :=
  v.take n ++ List.replicate (n - v.length) dflt

/-! ## Data model -/

/-- The part of `DEMSimParams` that `dT.cpp` reads or writes (the struct is declared in a
header; the fields are those `dT.cpp` accesses): the population counts stored by
`allocateManagedArrays` and the geometry, gravity and step size stored by `setSimParams`
(l. 85-108). -/
structure DEMSimParams where
  nClumpBodies : Nat
  nSpheresGM : Nat
  nDistinctClumpBodyTopologies : Nat := 0
  nDistinctClumpComponents : Nat := 0
  nMatTuples : Nat := 0
  nvXp2 : Nat := 0
  nvYp2 : Nat := 0
  nvZp2 : Nat := 0
  l : ℚ := 1
  voxelSize : ℚ := 1
  LBFX : ℚ := 0
  LBFY : ℚ := 0
  LBFZ : ℚ := 0
  Gx : ℚ := 0
  Gy : ℚ := 0
  Gz : ℚ := 0
  h : ℚ := 1
  deriving DecidableEq, Repr

/-- The arrays of `DEMDataDT` (`granData`) together with the vectors they view, as
`packDataPointers` (l. 24-58) pairs them. The `pKTOwnedBuffer_*` fields stand for the storage
inside kT that `packTransferPointers` (l. 73-83) makes them point to
(`kT->granData->voxelID_buffer` and so on). -/
structure DEMDataDT where
  -- clump state, one entry per clump body
  voxelID : List voxelID_t
  locX : List subVoxelPos_t
  locY : List subVoxelPos_t
  locZ : List subVoxelPos_t
  oriQ0 : List oriQ_t
  oriQ1 : List oriQ_t
  oriQ2 : List oriQ_t
  oriQ3 : List oriQ_t
  hvX : List ℚ
  hvY : List ℚ
  hvZ : List ℚ
  hOmgBarX : List ℚ
  hOmgBarY : List ℚ
  hOmgBarZ : List ℚ
  h2aX : List ℚ
  h2aY : List ℚ
  h2aZ : List ℚ
  h2AlphaX : List ℚ
  h2AlphaY : List ℚ
  h2AlphaZ : List ℚ
  -- contact events
  idGeometryA : List bodyID_t
  idGeometryB : List bodyID_t
  contactForces : List float3
  contactPointGeometryA : List float3
  contactPointGeometryB : List float3
  -- dT-owned transfer buffer, written by kT
  nContactPairs_buffer : Nat
  idGeometryA_buffer : List bodyID_t
  idGeometryB_buffer : List bodyID_t
  -- kT-owned transfer buffer, written by dT
  pKTOwnedBuffer_voxelID : List voxelID_t
  pKTOwnedBuffer_locX : List subVoxelPos_t
  pKTOwnedBuffer_locY : List subVoxelPos_t
  pKTOwnedBuffer_locZ : List subVoxelPos_t
  pKTOwnedBuffer_oriQ0 : List oriQ_t
  pKTOwnedBuffer_oriQ1 : List oriQ_t
  pKTOwnedBuffer_oriQ2 : List oriQ_t
  pKTOwnedBuffer_oriQ3 : List oriQ_t
  -- per-clump offsets and tags
  inertiaPropOffsets : List Nat := []
  familyID : List Nat := []
  -- per-sphere offsets that index into the template arrays
  ownerClumpBody : List bodyID_t := []
  clumpComponentOffset : List Nat := []
  materialTupleOffset : List Nat := []
  deriving DecidableEq, Repr

/-- The template arrays viewed by `granTemplates` (l. 60-71): per clump type the mass and the
principal moments of inertia, per template component sphere the radius and the relative
position, and the three material-pair tables. -/
structure DEMTemplate where
  radiiSphere : List ℚ := []
  relPosSphereX : List ℚ := []
  relPosSphereY : List ℚ := []
  relPosSphereZ : List ℚ := []
  massClumpBody : List ℚ := []
  mmiXX : List ℚ := []
  mmiYY : List ℚ := []
  mmiZZ : List ℚ := []
  EProxy : List ℚ := []
  GProxy : List ℚ := []
  CoRProxy : List ℚ := []
  deriving DecidableEq, Repr

/-- Modelled from the spec: the shared scheduling object `pSchedSupport`, whose class is
declared in a header, outside `dT.cpp`. The first nine fields are
those `workerThread`, `startThread` and `resetUserCallStat` read or write (the two counters
are the members of `schedulingStats`; the two stamps are signed, `resetUserCallStat` stores
`-1`). The last three are what `dynamicShouldWait` reads according to the spec: the
configured maximum drift, the last stamp completed by kT and the configured look-ahead
bound. -/
structure SchedSupport where
  dynamicShouldJoin : Bool
  dynamicStarted : Bool
  dynamicDone : Bool
  kinematicOwned_Cons2ProdBuffer_isFresh : Bool
  dynamicOwned_Prod2ConsBuffer_isFresh : Bool
  stampLastUpdateOfDynamic : Int
  currentStampOfDynamic : Int
  nKinematicUpdates : Nat
  nTimesDynamicHeldBack : Nat
  dynamicMaxFutureDrift : Int
  stampOfKinematic : Int
  dynamicMaxLookAhead : Int
  deriving DecidableEq, Repr

/-- Modelled from the spec: `dynamicShouldWait` (a member of the scheduling object, defined
outside `dT.cpp`). "dT must block (`dynamicShouldWait()` returns true) once
`currentStamp - lastKinematicUpdateStamp` exceeds a configured maximum drift, or once
`currentStamp` exceeds kT's last completed stamp by more than a configured look-ahead
bound". -/
def SchedSupport.dynamicShouldWait (p : SchedSupport) : Bool :=
  decide (p.currentStampOfDynamic - p.stampLastUpdateOfDynamic > p.dynamicMaxFutureDrift)
    || decide (p.currentStampOfDynamic - p.stampOfKinematic > p.dynamicMaxLookAhead)

/-- The four operations `workerThread` invokes; the log of a user call lists them in the
order they were invoked. -/
inductive Call where
  | sendToTheirBuffer
  | unpackMyBuffer
  | calculateForces
  | integrateClumpMotions
  deriving DecidableEq, Repr

/-- Program points of `workerThread` (line numbers of `dT.cpp`). -/
inductive PC where
  | loopHead        -- 479  while (!dynamicShouldJoin)
  | startCheck      -- 482  while (!dynamicStarted)
  | startSleep      -- 483  cv_DynamicStartLock.wait(lock)
  | startClear      -- 486  dynamicStarted = false
  | joinCheck       -- 487  if (dynamicShouldJoin) break
  | bootSend        -- 495  lock; sendToTheirBuffer(); unlock
  | bootFlag        -- 498  kinematicOwned_Cons2ProdBuffer_isFresh = true
  | bootMark        -- 499  contactPairArr_isFresh = true; nKinematicUpdates++; notify_all
  | dataCheck       -- 506  while (!dynamicOwned_Prod2ConsBuffer_isFresh)
  | dataSleep       -- 508  cv_DynamicCanProceed.wait(lock)
  | cycleHead       -- 512  cycle < nDynamicCycles
  | consumeCheck    -- 514  if (dynamicOwned_Prod2ConsBuffer_isFresh)
  | unpack          -- 517  lock; unpackMyBuffer(); contactPairArr_isFresh = true; unlock
  | consumeClear    -- 523  dynamicOwned_Prod2ConsBuffer_isFresh = false
  | consumeStamp    -- 524  stampLastUpdateOfDynamic = cycle
  | calc            -- 527  calculateForces()
  | integ           -- 529  integrateClumpMotions(); contactPairArr_isFresh = false
  | doneCheck       -- 537  if (cycle == nDynamicCycles - 1) dynamicDone = true
  | republishCheck  -- 541  if (!kinematicOwned_Cons2ProdBuffer_isFresh)
  | repSend         -- 544  lock; sendToTheirBuffer(); unlock
  | repFlag         -- 547  kinematicOwned_Cons2ProdBuffer_isFresh = true
  | repCount        -- 548  nKinematicUpdates++; notify_all
  | stampInc        -- 557  currentStampOfDynamic++
  | driftCheck      -- 561  if (dynamicShouldWait()) nTimesDynamicHeldBack++
  | driftWaitCheck  -- 566  while (!dynamicOwned_Prod2ConsBuffer_isFresh)
  | driftSleep      -- 568  cv_DynamicCanProceed.wait(lock)
  | cycleInc        -- 512  cycle++
  | callDone        -- 574  userCallDone = true
  | exited          -- 576  workerThread has returned
  | faulted         --      a GPU call reported an error: the loop was left at that call
  deriving DecidableEq, Repr

/-- The dynamic thread: its own members, the objects it points to, and the control state of
`workerThread` (`pc`, the loop variable `cycle`, and `callLog`, the operations invoked so far
in the current user call). -/
structure DEMDynamicThread where
  simParams : DEMSimParams
  granData : DEMDataDT
  pSchedSupport : SchedSupport
  numContacts : Nat
  nDynamicCycles : Nat
  userCallDone : Bool
  contactPairArr_isFresh : Bool
  pc : PC
  cycle : Nat
  callLog : List Call
  granTemplates : DEMTemplate := {}
  deriving DecidableEq, Repr

/-- The eight arrays of a position/orientation snapshot. -/
structure Snapshot where
  voxelID : List voxelID_t
  locX : List subVoxelPos_t
  locY : List subVoxelPos_t
  locZ : List subVoxelPos_t
  oriQ0 : List oriQ_t
  oriQ1 : List oriQ_t
  oriQ2 : List oriQ_t
  oriQ3 : List oriQ_t
  deriving DecidableEq, Repr

/-- The clump positions and orientations held by dT. -/
def DEMDataDT.clumpState (d : DEMDataDT) : Snapshot :=
  { voxelID := d.voxelID, locX := d.locX, locY := d.locY, locZ := d.locZ,
    oriQ0 := d.oriQ0, oriQ1 := d.oriQ1, oriQ2 := d.oriQ2, oriQ3 := d.oriQ3 }

/-- The content of the kT-owned transfer buffer. -/
def DEMDataDT.kTOwnedBuffer (d : DEMDataDT) : Snapshot :=
  { voxelID := d.pKTOwnedBuffer_voxelID, locX := d.pKTOwnedBuffer_locX,
    locY := d.pKTOwnedBuffer_locY, locZ := d.pKTOwnedBuffer_locZ,
    oriQ0 := d.pKTOwnedBuffer_oriQ0, oriQ1 := d.pKTOwnedBuffer_oriQ1,
    oriQ2 := d.pKTOwnedBuffer_oriQ2, oriQ3 := d.pKTOwnedBuffer_oriQ3 }

/-- Every array of the snapshot holds at least `n` entries. -/
def Snapshot.holds (a : Snapshot) (n : Nat) : Prop :=
  n ≤ a.voxelID.length ∧ n ≤ a.locX.length ∧ n ≤ a.locY.length ∧ n ≤ a.locZ.length ∧
  n ≤ a.oriQ0.length ∧ n ≤ a.oriQ1.length ∧ n ≤ a.oriQ2.length ∧ n ≤ a.oriQ3.length

instance (a : Snapshot) (n : Nat) : Decidable (a.holds n) := by
  unfold Snapshot.holds; infer_instance

/-- Entry `i` of all eight arrays is the same in both snapshots. -/
def Snapshot.sameAt (a b : Snapshot) (i : Nat) : Prop :=
  a.voxelID[i]? = b.voxelID[i]? ∧ a.locX[i]? = b.locX[i]? ∧ a.locY[i]? = b.locY[i]? ∧
  a.locZ[i]? = b.locZ[i]? ∧ a.oriQ0[i]? = b.oriQ0[i]? ∧ a.oriQ1[i]? = b.oriQ1[i]? ∧
  a.oriQ2[i]? = b.oriQ2[i]? ∧ a.oriQ3[i]? = b.oriQ3[i]?

/-- Puts back the kT-owned transfer buffer `b` into the device arrays `d`. -/
def DEMDataDT.withKTOwnedBuffer (d : DEMDataDT) (b : Snapshot) : DEMDataDT :=
  { d with
    pKTOwnedBuffer_voxelID := b.voxelID, pKTOwnedBuffer_locX := b.locX,
    pKTOwnedBuffer_locY := b.locY, pKTOwnedBuffer_locZ := b.locZ,
    pKTOwnedBuffer_oriQ0 := b.oriQ0, pKTOwnedBuffer_oriQ1 := b.oriQ1,
    pKTOwnedBuffer_oriQ2 := b.oriQ2, pKTOwnedBuffer_oriQ3 := b.oriQ3 }

/-- Writing the first `n` entries of every array of `src` over those of `dst`. -/
def Snapshot.write (dst src : Snapshot) (n : Nat) : Snapshot :=
  { voxelID := cudaMemcpy dst.voxelID src.voxelID n
    locX := cudaMemcpy dst.locX src.locX n
    locY := cudaMemcpy dst.locY src.locY n
    locZ := cudaMemcpy dst.locZ src.locZ n
    oriQ0 := cudaMemcpy dst.oriQ0 src.oriQ0 n
    oriQ1 := cudaMemcpy dst.oriQ1 src.oriQ1 n
    oriQ2 := cudaMemcpy dst.oriQ2 src.oriQ2 n
    oriQ3 := cudaMemcpy dst.oriQ3 src.oriQ3 n }

/-! ## Primitives of scene loading and output -/

/-- Modelled from the spec: the resize done by TRACKED_VECTOR_RESIZE(vec, n, name, val) (the
macro is declared in a header, outside `dT.cpp`): the vector gets `n` elements, those already
present are kept and the new ones are copies of `val`, as `std::vector::resize(n, val)`
does. -/
def trackedVectorResize {α : Type} (v : List α) (n : Nat) (val : α) : List α :=
  v.take n ++ List.replicate (n - v.length) val

/-- The checked write `vec.at(i) = v`: `none` stands for the `std::out_of_range` it throws. -/
def setAt {α : Type} (vec : List α) (i : Nat) (v : α) : Option (List α) :=
  if i < vec.length then some (vec.set i v) else none

/-- The loop `for (i = start; i < start + count; i++) body(i)` over a state, stopping at the
first exception. -/
def forRange {σ : Type} (body : Nat → σ → Option σ) : Nat → Nat → σ → Option σ
  | _, 0, st => some st
  | i, m + 1, st => (body i st).bind (forRange body (i + 1) m)

/-- The loop `for (auto v : vals) { vec.at(k) = v; k++; }`. -/
def fillFrom {α : Type} : List α → List α → Nat → Option (List α × Nat)
  | [], vec, k => some (vec, k)
  | v :: vs, vec, k => (setAt vec k v).bind fun vec1 => fillFrom vs vec1 (k + 1)

/-- The arguments of `populateManagedArrays` (l. 185-196). -/
structure PopulateInputs where
  input_clump_types : List Nat
  input_clump_xyz : List float3
  input_clump_vel : List float3
  input_clump_family : List Nat
  input_clumps_sp_mat_ids : List (List Nat)
  clumps_mass_types : List ℚ
  clumps_moi_types : List float3
  clumps_sp_radii_types : List (List ℚ)
  clumps_sp_location_types : List (List float3)
  mat_k : List ℚ
  mat_g : List ℚ
  mat_CoR : List ℚ
  deriving DecidableEq, Repr

/-- The conversion of a floating-point value to an unsigned integer type of `bits` bits, as in
`voxelID_t voxelNumX = (double)... / ...` (l. 267): the fractional part is discarded
(truncation towards zero). For a value the type cannot hold (`x <= -1` or `x >= 2^bits`) the
C++ conversion is undefined; the value taken here is the truncated one reduced modulo
`2^bits`, which is what the conversion through a wider integer register leaves. -/
def toUnsigned (bits : Nat) (x : ℚ) : Nat :=
  ((if 0 ≤ x then ⌊x⌋ else ⌈x⌉) % (2 : ℤ) ^ bits).toNat

/-- The voxel number of a coordinate `c` measured from the domain origin (l. 267-269):
`(double)c / voxelSize` converted to `voxelID_t`, an unsigned type of `w` bits (the typedef is
in a header, so the width is a parameter). -/
def voxelNum (w : Nat) (voxelSize c : ℚ) : Nat :=
  toUnsigned w (c / voxelSize)

/-- The sub-voxel position of a coordinate (l. 270-272):
`((double)c - (double)voxelNum * voxelSize) / l` converted to `subVoxelPos_t`, an unsigned
type of `ws` bits (the typedef is in a header, so the width is a parameter). -/
def subVoxelPos (w ws : Nat) (voxelSize l c : ℚ) : Nat :=
  toUnsigned ws ((c - (voxelNum w voxelSize c : ℚ) * voxelSize) / l)

/-- The count a shift of a `w`-bit operand is made with. A count below `w` is taken as it is.
For a count of `w` or more the C++ shift is undefined; the value taken here is the one the
shift instructions of x86-64 use for an operand of 32 or 64 bits, the count modulo the
width. -/
def shiftCount (w n : Nat) : Nat :=
  n % w

/-- The expression `x << n` in the arithmetic of `voxelID_t`, an unsigned type of `w` bits. -/
def voxelShl (w x n : Nat) : Nat :=
  (x <<< shiftCount w n) % 2 ^ w

/-- The expression `x >> n` in the arithmetic of `voxelID_t`. -/
def voxelShr (w x n : Nat) : Nat :=
  x >>> shiftCount w n

/-- The three statements `voxelID.at(i) += ...` (l. 275-277) on a slot holding `old`, in the
arithmetic of `voxelID_t`, an unsigned type of `w` bits. -/
def voxelIDAdd (w nvXp2 nvYp2 : Nat) (old voxelNumX voxelNumY voxelNumZ : Nat) : Nat :=
  let v1 := (old + voxelNumX) % 2 ^ w
  let v2 := (v1 + voxelShl w voxelNumY nvXp2) % 2 ^ w
  (v2 + voxelShl w voxelNumZ (nvXp2 + nvYp2)) % 2 ^ w

/-- The mask `((voxelID_t)1 << n) - 1` in the arithmetic of `voxelID_t`. -/
def voxelMask (w n : Nat) : Nat :=
  (voxelShl w 1 n + 2 ^ w - 1) % 2 ^ w

/-- The decoding of a voxel index by `WriteCsvAsSpheres` (l. 300-303). -/
def voxelIDX (w nvXp2 : Nat) (id : Nat) : Nat :=
  id &&& voxelMask w nvXp2

/-- The second component of the decoding (l. 302). -/
def voxelIDY (w nvXp2 nvYp2 : Nat) (id : Nat) : Nat :=
  voxelShr w id nvXp2 &&& voxelMask w nvYp2

/-- The third component of the decoding (l. 303). -/
def voxelIDZ (w nvXp2 nvYp2 : Nat) (id : Nat) : Nat :=
  voxelShr w id (nvXp2 + nvYp2)

/-- The position rebuilt by `WriteCsvAsSpheres` (l. 317-322) from a voxel number and a
sub-voxel position, before the sphere's offset and the domain origin are added. -/
def rebuiltCoord (voxelSize l : ℚ) (voxel loc : Nat) : ℚ :=
  (voxel : ℚ) * voxelSize + (loc : ℚ) * l


/-- A device kernel whose thread `i < n` writes `val` to entry `i` of an array holding at
least `n` entries. -/
def deviceFill {α : Type} (v : List α) (val : α) (n : Nat) : List α :=
  List.replicate (min n v.length) val ++ v.drop n

/-- The statement `v[i] += x` of a device kernel, for an index inside the array. -/
def addAt (v : List ℚ) (i : Nat) (x : ℚ) : List ℚ :=
  match v[i]? with
  | some y => v.set i (y + x)
  | none => v

/-- The accumulation of `x` on the entry of an owner, when the owner is known. -/
def scatter (v : List ℚ) (owner : Option Nat) (x : ℚ) : List ℚ :=
  match owner with
  | some i => addAt v i x
  | none => v

/-- The number of component spheres of the templates before template `t`. -/
def componentsBefore {α : Type} (L : List (List α)) (t : Nat) : Nat :=
  ((L.take t).map List.length).sum

/-- The expression `(x + NUM_BODIES_PER_BLOCK - 1) / NUM_BODIES_PER_BLOCK` in the arithmetic
of `size_t` (64 bits): the sum and the difference wrap around. The macro
NUM_BODIES_PER_BLOCK is declared in a header, outside `dT.cpp`, so its value `P` is a
parameter. -/
def blocksNeeded (P x : Nat) : Nat :=
  (((x + P) % 2 ^ 64 + 2 ^ 64 - 1) % 2 ^ 64) / P

/-- The x-dimension of the grid `dim3(blocks)` handed to a kernel launch (l. 392, 421, 466).
The type `dim3` is declared in the CUDA headers, outside `dT.cpp`; its constructor takes
`unsigned int` arguments, so the `size_t` block count is converted: reduced modulo 2^32. -/
def dim3 (blocks : Nat) : Nat :=
  blocks % 2 ^ 32

namespace DEMDynamicThread

/-! ## Mailbox operations -/

/-- Source `contactEventArraysResize` (l. 330-343). -/
def contactEventArraysResize (s : DEMDynamicThread) (nContactPairs : Nat) : DEMDynamicThread :=
  { s with granData := { s.granData with
      idGeometryA := vectorResize 0 s.granData.idGeometryA nContactPairs
      idGeometryB := vectorResize 0 s.granData.idGeometryB nContactPairs
      contactForces := vectorResize (0, 0, 0) s.granData.contactForces nContactPairs
      contactPointGeometryA := vectorResize (0, 0, 0) s.granData.contactPointGeometryA nContactPairs
      contactPointGeometryB := vectorResize (0, 0, 0) s.granData.contactPointGeometryB nContactPairs } }

/-- Source `unpackMyBuffer` (l. 345-358). -/
def unpackMyBuffer (s : DEMDynamicThread) : DEMDynamicThread :=
  let s1 := { s with numContacts := s.granData.nContactPairs_buffer }
  let s2 := if s1.numContacts > s1.granData.idGeometryA.length then
      contactEventArraysResize s1 s1.numContacts else s1
  { s2 with granData := { s2.granData with
      idGeometryA := cudaMemcpy s2.granData.idGeometryA s2.granData.idGeometryA_buffer s2.numContacts
      idGeometryB := cudaMemcpy s2.granData.idGeometryB s2.granData.idGeometryB_buffer s2.numContacts } }

/-- The first GPU call of `unpackMyBuffer` (l. 346-347): the contact count of the solver
becomes the count announced in the dT-owned buffer. -/
def unpackCount (s : DEMDynamicThread) : DEMDynamicThread :=
  { s with numContacts := s.granData.nContactPairs_buffer }

/-- The resize of `unpackMyBuffer` (l. 350-352), made when the count exceeds
`idGeometryA.size()`. -/
def unpackResize (s : DEMDynamicThread) : DEMDynamicThread :=
  if s.numContacts > s.granData.idGeometryA.length then contactEventArraysResize s s.numContacts
  else s

/-- The second GPU call of `unpackMyBuffer` (l. 354-355): the copy into `idGeometryA`. -/
def unpackCopyA (s : DEMDynamicThread) : DEMDynamicThread :=
  { s with granData := { s.granData with
      idGeometryA := cudaMemcpy s.granData.idGeometryA s.granData.idGeometryA_buffer s.numContacts } }

/-- The third GPU call of `unpackMyBuffer` (l. 356-357): the copy into `idGeometryB`. -/
def unpackCopyB (s : DEMDynamicThread) : DEMDynamicThread :=
  { s with granData := { s.granData with
      idGeometryB := cudaMemcpy s.granData.idGeometryB s.granData.idGeometryB_buffer s.numContacts } }

/-- Source `sendToTheirBuffer` (l. 360-377). -/
def sendToTheirBuffer (s : DEMDynamicThread) : DEMDynamicThread :=
  let n := s.simParams.nClumpBodies
  { s with granData := { s.granData with
      pKTOwnedBuffer_voxelID := cudaMemcpy s.granData.pKTOwnedBuffer_voxelID s.granData.voxelID n
      pKTOwnedBuffer_locX := cudaMemcpy s.granData.pKTOwnedBuffer_locX s.granData.locX n
      pKTOwnedBuffer_locY := cudaMemcpy s.granData.pKTOwnedBuffer_locY s.granData.locY n
      pKTOwnedBuffer_locZ := cudaMemcpy s.granData.pKTOwnedBuffer_locZ s.granData.locZ n
      pKTOwnedBuffer_oriQ0 := cudaMemcpy s.granData.pKTOwnedBuffer_oriQ0 s.granData.oriQ0 n
      pKTOwnedBuffer_oriQ1 := cudaMemcpy s.granData.pKTOwnedBuffer_oriQ1 s.granData.oriQ1 n
      pKTOwnedBuffer_oriQ2 := cudaMemcpy s.granData.pKTOwnedBuffer_oriQ2 s.granData.oriQ2 n
      pKTOwnedBuffer_oriQ3 := cudaMemcpy s.granData.pKTOwnedBuffer_oriQ3 s.granData.oriQ3 n } }

/-- The device. The kernels launched by `calculateForces` and `integrateClumpMotions` have
their bodies compiled at run time from kernel files, so they are parameters: each maps the
device arrays to the device arrays. `afterFailure` is what the device arrays and the contact
count hold when a GPU call of an operation started in the given state reports an error; the
spec calls the physical state after a device failure indeterminate, so it is a parameter
too. -/
structure Kernels where
  prepareForceArrays : DEMSimParams → DEMDataDT → Nat → DEMDataDT
  calculateNormalContactForces : DEMSimParams → DEMDataDT → Nat → DEMDataDT
  cubCollectForces : DEMSimParams → DEMDataDT → Nat → Bool → DEMDataDT
  integrateClumps : DEMSimParams → DEMDataDT → DEMDataDT
  afterFailure : DEMDynamicThread → DEMDataDT × Nat := fun s => (s.granData, s.numContacts)

/-- Source `calculateForces` (l. 379-457): the three launches in order. -/
def calculateForces (K : Kernels) (s : DEMDynamicThread) : DEMDynamicThread :=
  let d1 := K.prepareForceArrays s.simParams s.granData s.numContacts
  let d2 := K.calculateNormalContactForces s.simParams d1 s.numContacts
  { s with granData := K.cubCollectForces s.simParams d2 s.numContacts s.contactPairArr_isFresh }

/-- Source `integrateClumpMotions` (l. 459-469). -/
def integrateClumpMotions (K : Kernels) (s : DEMDynamicThread) : DEMDynamicThread :=
  { s with granData := K.integrateClumps s.simParams s.granData }

/-! ## The launch grids -/

/-- Source `calculateForces` (l. 381-383): `threads_needed_for_prep`. -/
def threads_needed_for_prep (s : DEMDynamicThread) : Nat :=
  if s.simParams.nClumpBodies > s.numContacts then s.simParams.nClumpBodies else s.numContacts

/-- Source `calculateForces` (l. 384): `blocks_needed_for_prep`. -/
def blocks_needed_for_prep (P : Nat) (s : DEMDynamicThread) : Nat :=
  blocksNeeded P (threads_needed_for_prep s)

/-- Source `calculateForces` (l. 412-413): `blocks_needed_for_contacts`. -/
def blocks_needed_for_contacts (P : Nat) (s : DEMDynamicThread) : Nat :=
  blocksNeeded P s.numContacts

/-- Source `integrateClumpMotions` (l. 460): `blocks_needed_for_clumps`. -/
def blocks_needed_for_clumps (P : Nat) (s : DEMDynamicThread) : Nat :=
  blocksNeeded P s.simParams.nClumpBodies

/-! ## The force kernels as the spec describes them -/

/-- Modelled from the spec: "the external contact-force computation over the current pair
list" and what a pair contributes to its two owners (the kernels are in
`DEMFrictionlessForceKernels.cu` and behind `cubCollectForces`, outside `dT.cpp`). The force
law is a parameter: per pair, the contact force and the two contact points, and the linear and
angular acceleration each of the two owners receives from it. -/
structure ContactModel where
  pairForce : DEMSimParams → DEMDataDT → Nat → float3 × float3 × float3
  linearShareA : DEMSimParams → DEMDataDT → Nat → float3
  linearShareB : DEMSimParams → DEMDataDT → Nat → float3
  angularShareA : DEMSimParams → DEMDataDT → Nat → float3
  angularShareB : DEMSimParams → DEMDataDT → Nat → float3

/-- Modelled from the spec: the kernel `prepareForceArrays` (in `DEMPrepForceKernels.cu`,
outside `dT.cpp`), which "resets per-step force/acceleration accumulators, applies gravity".
The values are those of the host code it replaced, kept as a comment in `calculateForces`
(l. 396-410): zero contact forces for the current pairs, zero angular accumulators and
`h * h * G / l` linear accumulators for the clumps. -/
def prepareForceArrays (p : DEMSimParams) (d : DEMDataDT) (nContacts : Nat) : DEMDataDT :=
  { d with
    contactForces := deviceFill d.contactForces (0, 0, 0) nContacts
    h2AlphaX := deviceFill d.h2AlphaX 0 p.nClumpBodies
    h2AlphaY := deviceFill d.h2AlphaY 0 p.nClumpBodies
    h2AlphaZ := deviceFill d.h2AlphaZ 0 p.nClumpBodies
    h2aX := deviceFill d.h2aX (p.h * p.h * p.Gx / p.l) p.nClumpBodies
    h2aY := deviceFill d.h2aY (p.h * p.h * p.Gy / p.l) p.nClumpBodies
    h2aZ := deviceFill d.h2aZ (p.h * p.h * p.Gz / p.l) p.nClumpBodies }

/-- Modelled from the spec: the kernel `calculateNormalContactForces`, "the external
contact-force computation over the current pair list": it writes the force and the contact
points of each of the `nContacts` pairs. -/
def calculateNormalContactForces (C : ContactModel) (p : DEMSimParams) (d : DEMDataDT)
    (nContacts : Nat) : DEMDataDT :=
  { d with
    contactForces :=
      cudaMemcpy d.contactForces ((List.range nContacts).map fun k => (C.pairForce p d k).1)
        nContacts
    contactPointGeometryA :=
      cudaMemcpy d.contactPointGeometryA
        ((List.range nContacts).map fun k => (C.pairForce p d k).2.1) nContacts
    contactPointGeometryB :=
      cudaMemcpy d.contactPointGeometryB
        ((List.range nContacts).map fun k => (C.pairForce p d k).2.2) nContacts }

/-- The owner clump of the body listed at position `k` of a contact-pair array. -/
def ownerOf (d : DEMDataDT) (ids : List bodyID_t) (k : Nat) : Option Nat :=
  ids[k]?.bind fun body => d.ownerClumpBody[body]?

/-- Modelled from the spec: what the reduction does with pair `k`: the shares of the pair are
added to the accumulators of the owner of body A and of the owner of body B. `d` is the state
the reduction started from, `acc` the accumulators so far. -/
def collectPair (C : ContactModel) (p : DEMSimParams) (d : DEMDataDT) (acc : DEMDataDT)
    (k : Nat) : DEMDataDT :=
  let a := ownerOf d d.idGeometryA k
  let b := ownerOf d d.idGeometryB k
  { acc with
    h2aX := scatter (scatter acc.h2aX a (C.linearShareA p d k).1) b (C.linearShareB p d k).1
    h2aY := scatter (scatter acc.h2aY a (C.linearShareA p d k).2.1) b (C.linearShareB p d k).2.1
    h2aZ := scatter (scatter acc.h2aZ a (C.linearShareA p d k).2.2) b (C.linearShareB p d k).2.2
    h2AlphaX :=
      scatter (scatter acc.h2AlphaX a (C.angularShareA p d k).1) b (C.angularShareB p d k).1
    h2AlphaY :=
      scatter (scatter acc.h2AlphaY a (C.angularShareA p d k).2.1) b (C.angularShareB p d k).2.1
    h2AlphaZ :=
      scatter (scatter acc.h2AlphaZ a (C.angularShareA p d k).2.2) b
        (C.angularShareB p d k).2.2 }

/-- Modelled from the spec: `cubCollectForces` (declared outside `dT.cpp`), which "reduces
per-pair forces/torques onto their owner clumps (a scatter-reduce keyed by owner index)" over
the `nContacts` pairs. -/
def cubCollectForces (C : ContactModel) (p : DEMSimParams) (d : DEMDataDT) (nContacts : Nat)
    (_contactPairArr_isFresh : Bool) : DEMDataDT :=
  (List.range nContacts).foldl (collectPair C p d) d

/-- The kernels of `calculateForces` as the spec describes them, for a contact model `C`; the
integration kernel `I` stays a parameter. -/
def specKernels (C : ContactModel) (I : DEMSimParams → DEMDataDT → DEMDataDT) : Kernels where
  prepareForceArrays := prepareForceArrays
  calculateNormalContactForces := calculateNormalContactForces C
  cubCollectForces := cubCollectForces C
  integrateClumps := I

/-! ## Operations called by the driver -/

/-- Source `startThread` (l. 578-582): sets `dynamicStarted` and notifies the start condition
variable, which moves a dT blocked in the start-wait back to the test of its predicate. -/
def startThread (s : DEMDynamicThread) : DEMDynamicThread :=
  { s with
    pSchedSupport := { s.pSchedSupport with dynamicStarted := true }
    pc := if s.pc = PC.startSleep then PC.startCheck else s.pc }

/-- Source `isUserCallDone` (l. 584-587). -/
def isUserCallDone (s : DEMDynamicThread) : Bool :=
  s.userCallDone

/-- What `dT.cpp` lets the driver read of a user call in progress: the value returned by
`isUserCallDone` and the shared scheduling object. -/
def driverView (s : DEMDynamicThread) : Bool × SchedSupport :=
  (isUserCallDone s, s.pSchedSupport)

/-- Source `resetUserCallStat` (l. 589-598). -/
def resetUserCallStat (s : DEMDynamicThread) : DEMDynamicThread :=
  { s with
    userCallDone := false
    pSchedSupport := { s.pSchedSupport with
      stampLastUpdateOfDynamic := -1
      currentStampOfDynamic := 0
      dynamicDone := false
      dynamicOwned_Prod2ConsBuffer_isFresh := false }
    contactPairArr_isFresh := true }

/-! ## The worker loop -/

/-- Records one invocation in the log of the current user call. -/
def logCall (c : Call) (s : DEMDynamicThread) : DEMDynamicThread :=
  { s with callLog := s.callLog ++ [c] }

/-- Moves the program counter. -/
def goto (p : PC) (s : DEMDynamicThread) : DEMDynamicThread :=
  { s with pc := p }

/-- Modelled from the spec: what `sendToTheirBuffer` (l. 360-377) leaves when one of its eight
GPU calls reports an error. The copies that precede the failing one have been made and the
failing one may have written part of its destination, so the content of the kT-owned buffer is
the indeterminate one of `K.afterFailure`; the operation writes nothing else. -/
@[simp]
def sendToTheirBuffer_failed (K : Kernels) (s : DEMDynamicThread) : DEMDynamicThread :=
  { s with granData := s.granData.withKTOwnedBuffer (K.afterFailure s).1.kTOwnedBuffer }

/-- Modelled from the spec: what `unpackMyBuffer` (l. 345-358) leaves when one of its three
GPU calls reports an error. Whatever precedes the failing call has taken effect (the count
overwritten, the arrays resized, the first copy made) and the failing call may have written
part of its destination, so the contact count and the five contact-event arrays are the
indeterminate ones of `K.afterFailure`; the operation writes nothing else. -/
@[simp]
def unpackMyBuffer_failed (K : Kernels) (s : DEMDynamicThread) : DEMDynamicThread :=
  { s with
    numContacts := (K.afterFailure s).2
    granData := { s.granData with
      idGeometryA := (K.afterFailure s).1.idGeometryA
      idGeometryB := (K.afterFailure s).1.idGeometryB
      contactForces := (K.afterFailure s).1.contactForces
      contactPointGeometryA := (K.afterFailure s).1.contactPointGeometryA
      contactPointGeometryB := (K.afterFailure s).1.contactPointGeometryB } }

/-- Modelled from the spec: what `calculateForces` (l. 379-457) leaves when one of the two
`cudaStreamSynchronize` calls after its kernel launches reports an error. The kernels receive
the pointer `granData`, and "physical state is indeterminate": the device arrays are those of
`K.afterFailure`. -/
@[simp]
def calculateForces_failed (K : Kernels) (s : DEMDynamicThread) : DEMDynamicThread :=
  { s with granData := (K.afterFailure s).1 }

/-- Modelled from the spec: what `integrateClumpMotions` (l. 459-469) leaves when the
`cudaStreamSynchronize` call after its kernel launch reports an error: the device arrays are
those of `K.afterFailure`. -/
@[simp]
def integrateClumpMotions_failed (K : Kernels) (s : DEMDynamicThread) : DEMDynamicThread :=
  { s with granData := (K.afterFailure s).1 }

/-- Modelled from the spec: the effect of a failing `GPU_CALL` (the macro is declared in a
header, outside `dT.cpp`). A "device-execution error ... is fatal to
the run (no local recovery)": when a GPU call of the operation reports an error the worker
loop is left at that call, in the state `failed` the operation has reached; no statement of
`dT.cpp` stores the error. Otherwise the step continues with `ok`. -/
def GPU_CALL (fault : Bool) (failed ok : DEMDynamicThread) : DEMDynamicThread :=
  if fault then goto .faulted failed else ok

/-- One step of source `workerThread` (l. 479-576) from the program point `s.pc`. `fault`
says whether a GPU call made by this step, if it makes one, reports an error. The log of
calls is emptied when a user call begins. In the test `cycle == nDynamicCycles - 1` the
subtraction cannot wrap: the loop body runs only with `cycle < nDynamicCycles`. -/
def workerThreadStep (K : Kernels) (fault : Bool) (s : DEMDynamicThread) : DEMDynamicThread :=
  match s.pc with
  | .loopHead =>
      if s.pSchedSupport.dynamicShouldJoin then goto .exited s else goto .startCheck s
  | .startCheck =>
      if s.pSchedSupport.dynamicStarted then goto .startClear s else goto .startSleep s
  | .startSleep => s
  | .startClear =>
      goto .joinCheck { s with pSchedSupport := { s.pSchedSupport with dynamicStarted := false } }
  | .joinCheck =>
      if s.pSchedSupport.dynamicShouldJoin then goto .exited s
      else goto .bootSend { s with callLog := [] }
  | .bootSend =>
      GPU_CALL fault (sendToTheirBuffer_failed K s)
        (goto .bootFlag (logCall .sendToTheirBuffer (sendToTheirBuffer s)))
  | .bootFlag =>
      goto .bootMark { s with pSchedSupport :=
        { s.pSchedSupport with kinematicOwned_Cons2ProdBuffer_isFresh := true } }
  | .bootMark =>
      goto .dataCheck { s with
        contactPairArr_isFresh := true
        pSchedSupport := { s.pSchedSupport with
          nKinematicUpdates := s.pSchedSupport.nKinematicUpdates + 1 } }
  | .dataCheck =>
      if s.pSchedSupport.dynamicOwned_Prod2ConsBuffer_isFresh then
        goto .cycleHead { s with cycle := 0 }
      else goto .dataSleep s
  | .dataSleep => s
  | .cycleHead =>
      if s.cycle < s.nDynamicCycles then goto .consumeCheck s else goto .callDone s
  | .consumeCheck =>
      if s.pSchedSupport.dynamicOwned_Prod2ConsBuffer_isFresh then goto .unpack s
      else goto .calc s
  | .unpack =>
      GPU_CALL fault (unpackMyBuffer_failed K s) (goto .consumeClear
        { logCall .unpackMyBuffer (unpackMyBuffer s) with contactPairArr_isFresh := true })
  | .consumeClear =>
      goto .consumeStamp { s with pSchedSupport :=
        { s.pSchedSupport with dynamicOwned_Prod2ConsBuffer_isFresh := false } }
  | .consumeStamp =>
      goto .calc { s with pSchedSupport :=
        { s.pSchedSupport with stampLastUpdateOfDynamic := (s.cycle : Int) } }
  | .calc =>
      GPU_CALL fault (calculateForces_failed K s)
        (goto .integ (logCall .calculateForces (calculateForces K s)))
  | .integ =>
      GPU_CALL fault (integrateClumpMotions_failed K s) (goto .doneCheck
        { logCall .integrateClumpMotions (integrateClumpMotions K s) with
          contactPairArr_isFresh := false })
  | .doneCheck =>
      if s.cycle = s.nDynamicCycles - 1 then
        goto .republishCheck { s with pSchedSupport :=
          { s.pSchedSupport with dynamicDone := true } }
      else goto .republishCheck s
  | .republishCheck =>
      if !s.pSchedSupport.kinematicOwned_Cons2ProdBuffer_isFresh then goto .repSend s
      else goto .stampInc s
  | .repSend =>
      GPU_CALL fault (sendToTheirBuffer_failed K s)
        (goto .repFlag (logCall .sendToTheirBuffer (sendToTheirBuffer s)))
  | .repFlag =>
      goto .repCount { s with pSchedSupport :=
        { s.pSchedSupport with kinematicOwned_Cons2ProdBuffer_isFresh := true } }
  | .repCount =>
      goto .stampInc { s with pSchedSupport :=
        { s.pSchedSupport with nKinematicUpdates := s.pSchedSupport.nKinematicUpdates + 1 } }
  | .stampInc =>
      goto .driftCheck { s with pSchedSupport :=
        { s.pSchedSupport with
          currentStampOfDynamic := s.pSchedSupport.currentStampOfDynamic + 1 } }
  | .driftCheck =>
      if s.pSchedSupport.dynamicShouldWait then
        goto .driftWaitCheck { s with pSchedSupport :=
          { s.pSchedSupport with
            nTimesDynamicHeldBack := s.pSchedSupport.nTimesDynamicHeldBack + 1 } }
      else goto .cycleInc s
  | .driftWaitCheck =>
      if s.pSchedSupport.dynamicOwned_Prod2ConsBuffer_isFresh then goto .cycleInc s
      else goto .driftSleep s
  | .driftSleep => s
  | .cycleInc => goto .cycleHead { s with cycle := s.cycle + 1 }
  | .callDone => goto .loopHead { s with userCallDone := true }
  | .exited => s
  | .faulted => s

/-! ## The environment of dT: the driver and the kinematic thread -/

/-- Modelled from the spec: what the other threads can do to the state dT reads (`kT.cpp` and
the driver are outside `dT.cpp`; `startThread` is the source function of
that name). The driver sets `dynamicShouldJoin`. kT drains its mailbox by clearing the flag
dT set (`kTDrain`); it writes "the candidate contact-pair list and its count" into the
dT-owned buffer (`kTWrite`) and only then sets the freshness flag (`kTFresh`); it advances
its stamp (`kTStamp`). `notify` is a wakeup of the condition variable dT blocks on, whether a
notification or a spurious one. -/
inductive EnvEvent where
  | startThread
  | shouldJoin
  | notify
  | kTDrain
  | kTWrite (n : Nat) (idA idB : List bodyID_t)
  | kTFresh
  | kTStamp (v : Int)
  deriving DecidableEq, Repr

/-- A wakeup sends a blocked dT back to the test of the predicate it waits for. -/
def wake (s : DEMDynamicThread) : DEMDynamicThread :=
  match s.pc with
  | .startSleep => goto .startCheck s
  | .dataSleep => goto .dataCheck s
  | .driftSleep => goto .driftWaitCheck s
  | _ => s

/-- The effect of an environment event. -/
def envStep (e : EnvEvent) (s : DEMDynamicThread) : DEMDynamicThread :=
  match e with
  | .startThread => startThread s
  | .shouldJoin => { s with pSchedSupport := { s.pSchedSupport with dynamicShouldJoin := true } }
  | .notify => wake s
  | .kTDrain =>
      { s with pSchedSupport :=
        { s.pSchedSupport with kinematicOwned_Cons2ProdBuffer_isFresh := false } }
  | .kTWrite n idA idB =>
      { s with granData := { s.granData with
          nContactPairs_buffer := n
          idGeometryA_buffer := idA
          idGeometryB_buffer := idB } }
  | .kTFresh =>
      { s with pSchedSupport :=
        { s.pSchedSupport with dynamicOwned_Prod2ConsBuffer_isFresh := true } }
  | .kTStamp v => { s with pSchedSupport := { s.pSchedSupport with stampOfKinematic := v } }

/-- An event of a schedule: a step of dT or an event of its environment. -/
inductive Event where
  | dT (fault : Bool)
  | env (e : EnvEvent)
  deriving DecidableEq, Repr

/-- One event of a schedule. -/
def step (K : Kernels) (ev : Event) (s : DEMDynamicThread) : DEMDynamicThread :=
  match ev with
  | .dT fault => workerThreadStep K fault s
  | .env e => envStep e s

/-- Runs a schedule from `s`. -/
def exec (K : Kernels) : List Event → DEMDynamicThread → DEMDynamicThread
  | [], s => s
  | ev :: rest, s => exec K rest (step K ev s)

/-- Runs environment events only. -/
def envs : List EnvEvent → DEMDynamicThread → DEMDynamicThread
  | [], s => s
  | e :: rest, s => envs rest (envStep e s)

/-- The kernels that leave the device arrays alone, used to run the loop on concrete
inputs. -/
def idKernels : Kernels where
  prepareForceArrays := fun _ d _ => d
  calculateNormalContactForces := fun _ d _ => d
  cubCollectForces := fun _ d _ _ => d
  integrateClumps := fun _ d => d

/-- A dynamic thread with no clumps, entering `workerThread`, with the statistics as
`resetUserCallStat` leaves them; `drift` is the configured maximum drift and `n` the cycle
budget. -/
def idle (drift : Int) (n : Nat) : DEMDynamicThread where
  simParams := { nClumpBodies := 0, nSpheresGM := 0 }
  granData :=
    { voxelID := [], locX := [], locY := [], locZ := [], oriQ0 := [], oriQ1 := [], oriQ2 := [],
      oriQ3 := [], hvX := [], hvY := [], hvZ := [], hOmgBarX := [], hOmgBarY := [],
      hOmgBarZ := [], h2aX := [], h2aY := [], h2aZ := [], h2AlphaX := [], h2AlphaY := [],
      h2AlphaZ := [], idGeometryA := [], idGeometryB := [], contactForces := [],
      contactPointGeometryA := [], contactPointGeometryB := [], nContactPairs_buffer := 0,
      idGeometryA_buffer := [], idGeometryB_buffer := [], pKTOwnedBuffer_voxelID := [],
      pKTOwnedBuffer_locX := [], pKTOwnedBuffer_locY := [], pKTOwnedBuffer_locZ := [],
      pKTOwnedBuffer_oriQ0 := [], pKTOwnedBuffer_oriQ1 := [], pKTOwnedBuffer_oriQ2 := [],
      pKTOwnedBuffer_oriQ3 := [] }
  pSchedSupport :=
    { dynamicShouldJoin := false, dynamicStarted := false, dynamicDone := false,
      kinematicOwned_Cons2ProdBuffer_isFresh := false,
      dynamicOwned_Prod2ConsBuffer_isFresh := false,
      stampLastUpdateOfDynamic := -1, currentStampOfDynamic := 0,
      nKinematicUpdates := 0, nTimesDynamicHeldBack := 0,
      dynamicMaxFutureDrift := drift, stampOfKinematic := 0, dynamicMaxLookAhead := 1000000 }
  numContacts := 0
  nDynamicCycles := n
  userCallDone := false
  contactPairArr_isFresh := true
  pc := .loopHead
  cycle := 0
  callLog := []

/-! ## Scene loading and output -/

/-- Source `allocateManagedArrays` (l. 115-183). The two products are taken in the type of
their operands: `(1 + nMatTuples) * nMatTuples / 2` in `unsigned int`, `nClumpBodies * 4` in
`size_t`. -/
def allocateManagedArrays (s : DEMDynamicThread)
    (nClumpBodies nSpheresGM nClumpTopo nClumpComponents nMatTuples : Nat) : DEMDynamicThread :=
  let nPairs := ((1 + nMatTuples) * nMatTuples % 2 ^ 32) / 2
  let nEvents := nClumpBodies * 4 % 2 ^ 64
  let d := s.granData
  let g := s.granTemplates
  { s with
    simParams := { s.simParams with
      nSpheresGM := nSpheresGM
      nClumpBodies := nClumpBodies
      nDistinctClumpBodyTopologies := nClumpTopo
      nDistinctClumpComponents := nClumpComponents
      nMatTuples := nMatTuples }
    granData := { d with
      inertiaPropOffsets := trackedVectorResize d.inertiaPropOffsets nClumpBodies 0
      familyID := trackedVectorResize d.familyID nClumpBodies 0
      voxelID := trackedVectorResize d.voxelID nClumpBodies 0
      locX := trackedVectorResize d.locX nClumpBodies 0
      locY := trackedVectorResize d.locY nClumpBodies 0
      locZ := trackedVectorResize d.locZ nClumpBodies 0
      oriQ0 := trackedVectorResize d.oriQ0 nClumpBodies 1
      oriQ1 := trackedVectorResize d.oriQ1 nClumpBodies 0
      oriQ2 := trackedVectorResize d.oriQ2 nClumpBodies 0
      oriQ3 := trackedVectorResize d.oriQ3 nClumpBodies 0
      hvX := trackedVectorResize d.hvX nClumpBodies 0
      hvY := trackedVectorResize d.hvY nClumpBodies 0
      hvZ := trackedVectorResize d.hvZ nClumpBodies 0
      hOmgBarX := trackedVectorResize d.hOmgBarX nClumpBodies 0
      hOmgBarY := trackedVectorResize d.hOmgBarY nClumpBodies 0
      hOmgBarZ := trackedVectorResize d.hOmgBarZ nClumpBodies 0
      h2aX := trackedVectorResize d.h2aX nClumpBodies 0
      h2aY := trackedVectorResize d.h2aY nClumpBodies 0
      h2aZ := trackedVectorResize d.h2aZ nClumpBodies 0
      h2AlphaX := trackedVectorResize d.h2AlphaX nClumpBodies 0
      h2AlphaY := trackedVectorResize d.h2AlphaY nClumpBodies 0
      h2AlphaZ := trackedVectorResize d.h2AlphaZ nClumpBodies 0
      ownerClumpBody := trackedVectorResize d.ownerClumpBody nSpheresGM 0
      clumpComponentOffset := trackedVectorResize d.clumpComponentOffset nSpheresGM 0
      materialTupleOffset := trackedVectorResize d.materialTupleOffset nSpheresGM 0
      idGeometryA := trackedVectorResize d.idGeometryA nEvents 0
      idGeometryB := trackedVectorResize d.idGeometryB nEvents 0
      contactForces := trackedVectorResize d.contactForces nEvents (0, 0, 0)
      contactPointGeometryA := trackedVectorResize d.contactPointGeometryA nEvents (0, 0, 0)
      contactPointGeometryB := trackedVectorResize d.contactPointGeometryB nEvents (0, 0, 0)
      idGeometryA_buffer := trackedVectorResize d.idGeometryA_buffer nEvents 0
      idGeometryB_buffer := trackedVectorResize d.idGeometryB_buffer nEvents 0 }
    granTemplates := { g with
      massClumpBody := trackedVectorResize g.massClumpBody nClumpTopo 0
      mmiXX := trackedVectorResize g.mmiXX nClumpTopo 0
      mmiYY := trackedVectorResize g.mmiYY nClumpTopo 0
      mmiZZ := trackedVectorResize g.mmiZZ nClumpTopo 0
      radiiSphere := trackedVectorResize g.radiiSphere nClumpComponents 0
      relPosSphereX := trackedVectorResize g.relPosSphereX nClumpComponents 0
      relPosSphereY := trackedVectorResize g.relPosSphereY nClumpComponents 0
      relPosSphereZ := trackedVectorResize g.relPosSphereZ nClumpComponents 0
      EProxy := trackedVectorResize g.EProxy nPairs 0
      GProxy := trackedVectorResize g.GProxy nPairs 0
      CoRProxy := trackedVectorResize g.CoRProxy nPairs 0 } }

/-- The body of the first loop of `populateManagedArrays` (l. 200-204): the material
tables. -/
def loadMaterial (inp : PopulateInputs) (i : Nat) (g : DEMTemplate) : Option DEMTemplate := do
  let e ← setAt g.EProxy i (← inp.mat_k[i]?)
  let gp ← setAt g.GProxy i (← inp.mat_g[i]?)
  let c ← setAt g.CoRProxy i (← inp.mat_CoR[i]?)
  pure { g with EProxy := e, GProxy := gp, CoRProxy := c }

/-- The body of the second loop (l. 208-214): mass and moments of inertia per clump type. -/
def loadMassMOI (inp : PopulateInputs) (i : Nat) (g : DEMTemplate) : Option DEMTemplate := do
  let m ← setAt g.massClumpBody i (← inp.clumps_mass_types[i]?)
  let this_moi ← inp.clumps_moi_types[i]?
  let xx ← setAt g.mmiXX i this_moi.1
  let yy ← setAt g.mmiYY i this_moi.2.1
  let zz ← setAt g.mmiZZ i this_moi.2.2
  pure { g with massClumpBody := m, mmiXX := xx, mmiYY := yy, mmiZZ := zz }

/-- The loop over the template radii (l. 223-229): it writes the radii one after the other
from index `k` on and pushes the running count, an `unsigned int`, onto `prescans` after each
template. -/
def loadRadii : List (List ℚ) → List ℚ → Nat → List Nat → Option (List ℚ × Nat × List Nat)
  | [], radiiSphere, k, prescans => some (radiiSphere, k, prescans)
  | elem :: rest, radiiSphere, k, prescans =>
      (fillFrom elem radiiSphere k).bind fun r =>
        loadRadii rest r.1 r.2 (prescans ++ [r.2 % 2 ^ 32])

/-- The inner loop over the relative positions of one template (l. 234-239). -/
def fillRelPos : List float3 → List ℚ → List ℚ → List ℚ → Nat →
    Option (List ℚ × List ℚ × List ℚ × Nat)
  | [], X, Y, Z, k => some (X, Y, Z, k)
  | loc :: rest, X, Y, Z, k =>
      (setAt X k loc.1).bind fun X1 =>
      (setAt Y k loc.2.1).bind fun Y1 =>
      (setAt Z k loc.2.2).bind fun Z1 =>
        fillRelPos rest X1 Y1 Z1 (k + 1)

/-- The loop over the template sphere locations (l. 233-241). -/
def loadRelPos : List (List float3) → List ℚ → List ℚ → List ℚ → Nat →
    Option (List ℚ × List ℚ × List ℚ × Nat)
  | [], X, Y, Z, k => some (X, Y, Z, k)
  | elem :: rest, X, Y, Z, k =>
      (fillRelPos elem X Y Z k).bind fun r => loadRelPos rest r.1 r.2.1 r.2.2.1 r.2.2.2

/-- The three per-sphere arrays written by the loop over the components of a clump. -/
structure SphereOffsets where
  materialTupleOffset : List Nat
  clumpComponentOffset : List Nat
  ownerClumpBody : List bodyID_t
  k : Nat
  deriving DecidableEq, Repr

/-- The body of the loop over the components of clump `i` (l. 259-265). -/
def fillSphere (mat_ids prescans : List Nat) (type_of_this_clump i : Nat) (j : Nat)
    (a : SphereOffsets) : Option SphereOffsets := do
  let m ← setAt a.materialTupleOffset a.k (← mat_ids[j]?)
  let c ← setAt a.clumpComponentOffset a.k ((← prescans[type_of_this_clump]?) + j)
  let o ← setAt a.ownerClumpBody a.k i
  pure { materialTupleOffset := m, clumpComponentOffset := c, ownerClumpBody := o, k := a.k + 1 }

/-- The statements of the clump loop that record where clump `i` is (l. 267-277): the
sub-voxel position and the voxel index of the centre of mass `c`, measured from the domain
origin. `w` is the width in bits of `voxelID_t`, `ws` that of `subVoxelPos_t`. -/
def loadClumpPosition (w ws : Nat) (p : DEMSimParams) (i : Nat) (c : float3) (d : DEMDataDT) :
    Option DEMDataDT := do
  let voxelNumX := voxelNum w p.voxelSize c.1
  let voxelNumY := voxelNum w p.voxelSize c.2.1
  let voxelNumZ := voxelNum w p.voxelSize c.2.2
  let locX ← setAt d.locX i (subVoxelPos w ws p.voxelSize p.l c.1)
  let locY ← setAt d.locY i (subVoxelPos w ws p.voxelSize p.l c.2.1)
  let locZ ← setAt d.locZ i (subVoxelPos w ws p.voxelSize p.l c.2.2)
  let old ← d.voxelID[i]?
  let voxelID ← setAt d.voxelID i (voxelIDAdd w p.nvXp2 p.nvYp2 old voxelNumX voxelNumY voxelNumZ)
  pure { d with locX := locX, locY := locY, locZ := locZ, voxelID := voxelID }

/-- The statements of the clump loop that set the initial velocity and the family code of
clump `i` (l. 281-287). The quotient is the exact one: the rounding of the `float` result is
not modelled. -/
def loadClumpVelocity (p : DEMSimParams) (inp : PopulateInputs) (i : Nat) (d : DEMDataDT) :
    Option DEMDataDT := do
  let vel_of_this_clump ← inp.input_clump_vel[i]?
  let hvX ← setAt d.hvX i (vel_of_this_clump.1 * p.h / p.l)
  let hvY ← setAt d.hvY i (vel_of_this_clump.2.1 * p.h / p.l)
  let hvZ ← setAt d.hvZ i (vel_of_this_clump.2.2 * p.h / p.l)
  let fam ← inp.input_clump_family[i]?
  let familyID ← setAt d.familyID i fam
  pure { d with hvX := hvX, hvY := hvY, hvZ := hvZ, familyID := familyID }

/-- The statements of the clump loop that record what clump `i`, of type
`type_of_this_clump`, is made of (l. 255-265): for each of its component spheres the material,
the template component and the owner; `k` is the running sphere count. -/
def loadClumpSpheres (inp : PopulateInputs) (prescans : List Nat) (i type_of_this_clump k : Nat)
    (d : DEMDataDT) : Option (Nat × DEMDataDT) := do
  let this_clump_no_sp_radii ← inp.clumps_sp_radii_types[type_of_this_clump]?
  let _this_clump_no_sp_relPos ← inp.clumps_sp_location_types[type_of_this_clump]?
  let this_clump_no_sp_mat_ids ← inp.input_clumps_sp_mat_ids[type_of_this_clump]?
  let a ← forRange (fillSphere this_clump_no_sp_mat_ids prescans type_of_this_clump i) 0
    this_clump_no_sp_radii.length
    { materialTupleOffset := d.materialTupleOffset
      clumpComponentOffset := d.clumpComponentOffset
      ownerClumpBody := d.ownerClumpBody, k := k }
  pure (a.k, { d with
    materialTupleOffset := a.materialTupleOffset
    clumpComponentOffset := a.clumpComponentOffset
    ownerClumpBody := a.ownerClumpBody })

/-- The body of the loop over the input clumps (l. 245-288) for clump `i`, with the running
sphere count in the first component of the state. `w` is the width in bits of `voxelID_t`,
`ws` that of `subVoxelPos_t`. -/
def loadClump (w ws : Nat) (inp : PopulateInputs) (prescans : List Nat) (i : Nat)
    (st : Nat × DEMDynamicThread) : Option (Nat × DEMDynamicThread) := do
  let p := st.2.simParams
  let type_of_this_clump ← inp.input_clump_types[i]?
  let inertiaPropOffsets ← setAt st.2.granData.inertiaPropOffsets i type_of_this_clump
  let xyz ← inp.input_clump_xyz[i]?
  let r ← loadClumpSpheres inp prescans i type_of_this_clump st.1
    { st.2.granData with inertiaPropOffsets := inertiaPropOffsets }
  let d2 ← loadClumpPosition w ws p i (xyz.1 - p.LBFX, xyz.2.1 - p.LBFY, xyz.2.2 - p.LBFZ) r.2
  let d3 ← loadClumpVelocity p inp i d2
  pure (r.1, { st.2 with granData := d3 })

/-- Source `populateManagedArrays` (l. 185-289). `none` stands for the `std::out_of_range`
thrown by a failing `.at()`. `w` is the width in bits of `voxelID_t`, `ws` that of
`subVoxelPos_t`. -/
def populateManagedArrays (w ws : Nat) (s : DEMDynamicThread) (inp : PopulateInputs) :
    Option DEMDynamicThread := do
  let g1 ← forRange (loadMaterial inp) 0 inp.mat_k.length s.granTemplates
  let g2 ← forRange (loadMassMOI inp) 0 inp.clumps_mass_types.length g1
  let r ← loadRadii inp.clumps_sp_radii_types g2.radiiSphere 0 [0]
  let prescans := r.2.2.dropLast
  let q ← loadRelPos inp.clumps_sp_location_types g2.relPosSphereX g2.relPosSphereY
    g2.relPosSphereZ 0
  let g3 := { g2 with
    radiiSphere := r.1, relPosSphereX := q.1, relPosSphereY := q.2.1, relPosSphereZ := q.2.2.1 }
  let st ← forRange (loadClump w ws inp prescans) 0 inp.input_clump_types.length
    (0, { s with granTemplates := g3 })
  pure st.2

/-- Modelled from the spec: `hostApplyOriQ2Vector3`, a helper of `HostSideHelpers.cpp` (quaternion
math, outside `dT.cpp`): it rotates a vector by a quaternion. Only its signature is used, so it
is a parameter. -/
structure HostHelpers where
  hostApplyOriQ2Vector3 : float3 → oriQ_t → oriQ_t → oriQ_t → oriQ_t → float3

/-- The body of the loop of `WriteCsvAsSpheres` (l. 298-326) for sphere `i`: its position and
its radius. `w` is the width in bits of `voxelID_t`. -/
def sphereRecord (w : Nat) (H : HostHelpers) (s : DEMDynamicThread) (i : Nat) :
    Option (float3 × ℚ) := do
  let d := s.granData
  let p := s.simParams
  let g := s.granTemplates
  let this_owner ← d.ownerClumpBody[i]?
  let id ← d.voxelID[this_owner]?
  let voxelIDX := voxelIDX w p.nvXp2 id
  let voxelIDY := voxelIDY w p.nvXp2 p.nvYp2 id
  let voxelIDZ := voxelIDZ w p.nvXp2 p.nvYp2 id
  let off ← d.clumpComponentOffset[i]?
  let dev : float3 := (← g.relPosSphereX[off]?, ← g.relPosSphereY[off]?, ← g.relPosSphereZ[off]?)
  let rot := H.hostApplyOriQ2Vector3 dev (← d.oriQ0[this_owner]?) (← d.oriQ1[this_owner]?)
    (← d.oriQ2[this_owner]?) (← d.oriQ3[this_owner]?)
  let posX := rebuiltCoord p.voxelSize p.l voxelIDX (← d.locX[this_owner]?) + rot.1 + p.LBFX
  let posY := rebuiltCoord p.voxelSize p.l voxelIDY (← d.locY[this_owner]?) + rot.2.1 + p.LBFY
  let posZ := rebuiltCoord p.voxelSize p.l voxelIDZ (← d.locZ[this_owner]?) + rot.2.2 + p.LBFZ
  let spRadii ← g.radiiSphere[off]?
  pure ((posX, posY, posZ), spRadii)

/-- Source `WriteCsvAsSpheres` (l. 291-328): the positions and radii handed to the particle
writer, one record per sphere. -/
def WriteCsvAsSpheres (w : Nat) (H : HostHelpers) (s : DEMDynamicThread) :
    Option (List (float3 × ℚ)) :=
  (List.range s.simParams.nSpheresGM).mapM (sphereRecord w H s)

/-! ## Predicates used by the properties -/

/-- The program points where dT is blocked inside a condition-variable wait. -/
def PC.isSleep : PC → Bool
  | .startSleep => true
  | .dataSleep => true
  | .driftSleep => true
  | _ => false

/-- The device arrays without the dT-owned transfer buffer, the only part of them kT writes. -/
def dTOwned (d : DEMDataDT) : DEMDataDT :=
  { d with nContactPairs_buffer := 0, idGeometryA_buffer := [], idGeometryB_buffer := [] }

/-- What no run of environment events changes: everything of dT except the dT-owned transfer
buffer, the program point of a dT that is not blocked, and the flags in the direction the
environment never writes them. -/
structure EnvFrame (s t : DEMDynamicThread) : Prop where
  simParams : t.simParams = s.simParams
  data : dTOwned t.granData = dTOwned s.granData
  numContacts : t.numContacts = s.numContacts
  nDynamicCycles : t.nDynamicCycles = s.nDynamicCycles
  userCallDone : t.userCallDone = s.userCallDone
  contactPairArr : t.contactPairArr_isFresh = s.contactPairArr_isFresh
  cycle : t.cycle = s.cycle
  callLog : t.callLog = s.callLog
  pc : PC.isSleep s.pc = false → t.pc = s.pc
  stampLast : t.pSchedSupport.stampLastUpdateOfDynamic = s.pSchedSupport.stampLastUpdateOfDynamic
  stampCur : t.pSchedSupport.currentStampOfDynamic = s.pSchedSupport.currentStampOfDynamic
  nKU : t.pSchedSupport.nKinematicUpdates = s.pSchedSupport.nKinematicUpdates
  nHeld : t.pSchedSupport.nTimesDynamicHeldBack = s.pSchedSupport.nTimesDynamicHeldBack
  done : t.pSchedSupport.dynamicDone = s.pSchedSupport.dynamicDone
  drift : t.pSchedSupport.dynamicMaxFutureDrift = s.pSchedSupport.dynamicMaxFutureDrift
  dynFresh : s.pSchedSupport.dynamicOwned_Prod2ConsBuffer_isFresh = true →
    t.pSchedSupport.dynamicOwned_Prod2ConsBuffer_isFresh = true
  kinFresh : s.pSchedSupport.kinematicOwned_Cons2ProdBuffer_isFresh = false →
    t.pSchedSupport.kinematicOwned_Cons2ProdBuffer_isFresh = false
  started : s.pSchedSupport.dynamicStarted = true → t.pSchedSupport.dynamicStarted = true
  join : s.pSchedSupport.dynamicShouldJoin = true → t.pSchedSupport.dynamicShouldJoin = true

/-- The three waits of `workerThread`. -/
inductive Wait where
  | start
  | data
  | drift
  deriving DecidableEq, Repr

/-- The test of the wait's predicate (the `while` condition). -/
def Wait.check : Wait → PC
  | .start => .startCheck
  | .data => .dataCheck
  | .drift => .driftWaitCheck

/-- The `wait(lock)` call of the wait. -/
def Wait.sleep : Wait → PC
  | .start => .startSleep
  | .data => .dataSleep
  | .drift => .driftSleep

/-- The first program point after the wait. -/
def Wait.past : Wait → PC
  | .start => .startClear
  | .data => .cycleHead
  | .drift => .cycleInc

/-- The predicate the wait loops on. -/
def Wait.predicate : Wait → DEMDynamicThread → Bool
  | .start, s => s.pSchedSupport.dynamicStarted
  | .data, s => s.pSchedSupport.dynamicOwned_Prod2ConsBuffer_isFresh
  | .drift, s => s.pSchedSupport.dynamicOwned_Prod2ConsBuffer_isFresh

/-- dT is inside the wait: testing its predicate or blocked. -/
def inWait (w : Wait) (s : DEMDynamicThread) : Prop :=
  s.pc = w.check ∨ s.pc = w.sleep

instance (w : Wait) (s : DEMDynamicThread) : Decidable (inWait w s) := by
  unfold inWait; infer_instance

/-- The force and integration calls among the operations. -/
def Call.isKernel : Call → Bool
  | .calculateForces => true
  | .integrateClumpMotions => true
  | _ => false

/-- The force and integration calls of a log, in order. -/
def kernelCalls (log : List Call) : List Call :=
  log.filter Call.isKernel

/-- The log of `k` cycles: force then integration, `k` times. -/
def cyclesLog : Nat → List Call
  | 0 => []
  | k + 1 => cyclesLog k ++ [Call.calculateForces, Call.integrateClumpMotions]

/-- Progress of one user call that began with `currentStampOfDynamic = c0`,
`userCallDone = u0` and a budget of `N` cycles, by program point: the kernel calls logged, the
stamp, and `userCallDone`. The start signal is not given again during the call. -/
def CallInv (c0 : Int) (u0 : Bool) (N : Nat) (s : DEMDynamicThread) : Prop :=
  s.nDynamicCycles = N ∧ s.pSchedSupport.dynamicStarted = false ∧
  match s.pc with
  | .bootSend | .bootFlag | .bootMark | .dataCheck | .dataSleep =>
      kernelCalls s.callLog = [] ∧ s.pSchedSupport.currentStampOfDynamic = c0 ∧
      s.userCallDone = u0
  | .cycleHead =>
      s.cycle ≤ N ∧ kernelCalls s.callLog = cyclesLog s.cycle ∧
      s.pSchedSupport.currentStampOfDynamic = c0 + s.cycle ∧ s.userCallDone = u0
  | .consumeCheck | .unpack | .consumeClear | .consumeStamp | .calc =>
      s.cycle < N ∧ kernelCalls s.callLog = cyclesLog s.cycle ∧
      s.pSchedSupport.currentStampOfDynamic = c0 + s.cycle ∧ s.userCallDone = u0
  | .integ =>
      s.cycle < N ∧ kernelCalls s.callLog = cyclesLog s.cycle ++ [Call.calculateForces] ∧
      s.pSchedSupport.currentStampOfDynamic = c0 + s.cycle ∧ s.userCallDone = u0
  | .doneCheck | .republishCheck | .repSend | .repFlag | .repCount | .stampInc =>
      s.cycle < N ∧ kernelCalls s.callLog = cyclesLog (s.cycle + 1) ∧
      s.pSchedSupport.currentStampOfDynamic = c0 + s.cycle ∧ s.userCallDone = u0
  | .driftCheck | .driftWaitCheck | .driftSleep | .cycleInc =>
      s.cycle < N ∧ kernelCalls s.callLog = cyclesLog (s.cycle + 1) ∧
      s.pSchedSupport.currentStampOfDynamic = c0 + s.cycle + 1 ∧ s.userCallDone = u0
  | .callDone =>
      kernelCalls s.callLog = cyclesLog N ∧
      s.pSchedSupport.currentStampOfDynamic = c0 + N ∧ s.userCallDone = u0
  | .loopHead | .startCheck | .startSleep | .exited =>
      kernelCalls s.callLog = cyclesLog N ∧
      s.pSchedSupport.currentStampOfDynamic = c0 + N ∧ s.userCallDone = true
  | .startClear | .joinCheck => False
  | .faulted => kernelCalls s.callLog <+: cyclesLog N ∧ s.userCallDone = u0

/-- The drift of dT: `currentStampOfDynamic - stampLastUpdateOfDynamic`. -/
def drift (s : DEMDynamicThread) : Int :=
  s.pSchedSupport.currentStampOfDynamic - s.pSchedSupport.stampLastUpdateOfDynamic

/-- The drift during one user call that began with `currentStampOfDynamic = 0`, by program
point, for a maximum drift `D ≥ 0`: the stamp follows the loop variable, the drift is at most
`D` from the force computation to the stamp increment and at most `D + 1` elsewhere, and a
cycle is entered either within `D` or with fresh data waiting to be consumed. -/
def DriftInv (D : Int) (s : DEMDynamicThread) : Prop :=
  0 ≤ D ∧ s.pSchedSupport.dynamicMaxFutureDrift = D ∧ s.pSchedSupport.dynamicStarted = false ∧
  match s.pc with
  | .bootSend | .bootFlag | .bootMark | .dataCheck | .dataSleep =>
      s.pSchedSupport.currentStampOfDynamic = 0 ∧ drift s ≤ D + 1
  | .cycleHead | .consumeCheck =>
      s.pSchedSupport.currentStampOfDynamic = s.cycle ∧ drift s ≤ D + 1 ∧
      (s.pSchedSupport.dynamicOwned_Prod2ConsBuffer_isFresh = true ∨ drift s ≤ D)
  | .unpack | .consumeClear | .consumeStamp =>
      s.pSchedSupport.currentStampOfDynamic = s.cycle ∧ drift s ≤ D + 1
  | .calc | .integ | .doneCheck | .republishCheck | .repSend | .repFlag | .repCount
  | .stampInc =>
      s.pSchedSupport.currentStampOfDynamic = s.cycle ∧ drift s ≤ D
  | .driftCheck | .driftWaitCheck | .driftSleep =>
      s.pSchedSupport.currentStampOfDynamic = s.cycle + 1 ∧ drift s ≤ D + 1
  | .cycleInc =>
      s.pSchedSupport.currentStampOfDynamic = s.cycle + 1 ∧ drift s ≤ D + 1 ∧
      (s.pSchedSupport.dynamicOwned_Prod2ConsBuffer_isFresh = true ∨ drift s ≤ D)
  | .startClear | .joinCheck => False
  | _ => True

/-- One round of the schedule in which kT always has fresh data for dT: kT marks the dT-owned
buffer fresh and notifies, then dT makes a step without a device fault. -/
def fairRound : List Event :=
  [Event.env EnvEvent.kTFresh, Event.env EnvEvent.notify, Event.dT false]

/-- The schedule of `k` such rounds. -/
def fairSchedule : Nat → List Event
  | 0 => []
  | k + 1 => fairRound ++ fairSchedule k

/-- The program points of a user call in progress. -/
def PC.inCall : PC → Bool
  | .loopHead | .startCheck | .startSleep | .startClear | .joinCheck | .exited | .faulted => false
  | _ => true

/-- An upper bound on the rounds of `fairSchedule` a user call still needs. -/
def roundsLeft (s : DEMDynamicThread) : Nat :=
  match s.pc with
  | .bootSend => 16 * s.nDynamicCycles + 30
  | .bootFlag => 16 * s.nDynamicCycles + 29
  | .bootMark => 16 * s.nDynamicCycles + 28
  | .dataCheck | .dataSleep => 16 * s.nDynamicCycles + 27
  | .cycleHead => 16 * (s.nDynamicCycles - s.cycle) + 17
  | .consumeCheck => 16 * (s.nDynamicCycles - s.cycle) + 16
  | .unpack => 16 * (s.nDynamicCycles - s.cycle) + 15
  | .consumeClear => 16 * (s.nDynamicCycles - s.cycle) + 14
  | .consumeStamp => 16 * (s.nDynamicCycles - s.cycle) + 13
  | .calc => 16 * (s.nDynamicCycles - s.cycle) + 12
  | .integ => 16 * (s.nDynamicCycles - s.cycle) + 11
  | .doneCheck => 16 * (s.nDynamicCycles - s.cycle) + 10
  | .republishCheck => 16 * (s.nDynamicCycles - s.cycle) + 9
  | .repSend => 16 * (s.nDynamicCycles - s.cycle) + 8
  | .repFlag => 16 * (s.nDynamicCycles - s.cycle) + 7
  | .repCount => 16 * (s.nDynamicCycles - s.cycle) + 6
  | .stampInc => 16 * (s.nDynamicCycles - s.cycle) + 5
  | .driftCheck => 16 * (s.nDynamicCycles - s.cycle) + 4
  | .driftWaitCheck | .driftSleep => 16 * (s.nDynamicCycles - s.cycle) + 3
  | .cycleInc => 16 * (s.nDynamicCycles - s.cycle) + 2
  | .callDone => 1
  | _ => 0

/-- The program points at which `workerThread` makes a GPU call. -/
def PC.isGPUCall : PC → Bool
  | .bootSend | .unpack | .calc | .integ | .repSend => true
  | _ => false

/-- The events of kT and the wakeups: every environment event except the two of the
driver. -/
def EnvEvent.isKT : EnvEvent → Bool
  | .startThread | .shouldJoin => false
  | _ => true

/-- The stamp of the last update during one user call: it is at most the loop variable, and
at most 0 before the cycle loop. The start signal is not given again during the call. -/
def StampInv (s : DEMDynamicThread) : Prop :=
  s.pSchedSupport.dynamicStarted = false ∧
  match s.pc with
  | .bootSend | .bootFlag | .bootMark | .dataCheck | .dataSleep =>
      s.pSchedSupport.stampLastUpdateOfDynamic ≤ 0
  | .cycleHead | .consumeCheck | .unpack | .consumeClear | .consumeStamp | .calc | .integ
  | .doneCheck | .republishCheck | .repSend | .repFlag | .repCount | .stampInc | .driftCheck
  | .driftWaitCheck | .driftSleep | .cycleInc =>
      s.pSchedSupport.stampLastUpdateOfDynamic ≤ s.cycle
  | .startClear | .joinCheck => False
  | _ => True

/-- The look-ahead bound of `dynamicShouldWait` is not exceeded in `s`. -/
def withinLookAhead (s : DEMDynamicThread) : Prop :=
  s.pSchedSupport.currentStampOfDynamic - s.pSchedSupport.stampOfKinematic ≤
    s.pSchedSupport.dynamicMaxLookAhead

instance (s : DEMDynamicThread) : Decidable (withinLookAhead s) := by
  unfold withinLookAhead; infer_instance

/-- The times dT was held back during one user call that began with
`currentStampOfDynamic = 0` and `nTimesDynamicHeldBack = h0`, under maximum drift 1, by
program point: twice the growth of the counter is at most the number of cycles begun, and a
cycle that may still be held back has consumed nothing and leaves room for one more. -/
def HeldInv (h0 N : Nat) (s : DEMDynamicThread) : Prop :=
  s.pSchedSupport.dynamicMaxFutureDrift = 1 ∧ s.nDynamicCycles = N ∧
  s.pSchedSupport.dynamicStarted = false ∧
  match s.pc with
  | .bootSend | .bootFlag | .bootMark | .dataCheck | .dataSleep =>
      s.pSchedSupport.currentStampOfDynamic = 0 ∧ s.pSchedSupport.nTimesDynamicHeldBack = h0
  | .cycleHead =>
      s.pSchedSupport.currentStampOfDynamic = s.cycle ∧ s.cycle ≤ N ∧
      2 * (s.pSchedSupport.nTimesDynamicHeldBack - h0) ≤ s.cycle ∧
      h0 ≤ s.pSchedSupport.nTimesDynamicHeldBack ∧
      (s.pSchedSupport.dynamicOwned_Prod2ConsBuffer_isFresh = true ∨
        2 * (s.pSchedSupport.nTimesDynamicHeldBack - h0) + 1 ≤ s.cycle)
  | .consumeCheck =>
      s.pSchedSupport.currentStampOfDynamic = s.cycle ∧ s.cycle < N ∧
      2 * (s.pSchedSupport.nTimesDynamicHeldBack - h0) ≤ s.cycle ∧
      h0 ≤ s.pSchedSupport.nTimesDynamicHeldBack ∧
      (s.pSchedSupport.dynamicOwned_Prod2ConsBuffer_isFresh = true ∨
        2 * (s.pSchedSupport.nTimesDynamicHeldBack - h0) + 1 ≤ s.cycle)
  | .unpack | .consumeClear | .consumeStamp =>
      s.pSchedSupport.currentStampOfDynamic = s.cycle ∧ s.cycle < N ∧
      2 * (s.pSchedSupport.nTimesDynamicHeldBack - h0) ≤ s.cycle ∧
      h0 ≤ s.pSchedSupport.nTimesDynamicHeldBack
  | .calc | .integ | .doneCheck | .republishCheck | .repSend | .repFlag | .repCount
  | .stampInc =>
      s.pSchedSupport.currentStampOfDynamic = s.cycle ∧ s.cycle < N ∧
      2 * (s.pSchedSupport.nTimesDynamicHeldBack - h0) ≤ s.cycle ∧
      h0 ≤ s.pSchedSupport.nTimesDynamicHeldBack ∧
      (s.pSchedSupport.stampLastUpdateOfDynamic = s.cycle ∨
        2 * (s.pSchedSupport.nTimesDynamicHeldBack - h0) + 1 ≤ s.cycle)
  | .driftCheck =>
      s.pSchedSupport.currentStampOfDynamic = s.cycle + 1 ∧ s.cycle < N ∧
      2 * (s.pSchedSupport.nTimesDynamicHeldBack - h0) ≤ s.cycle ∧
      h0 ≤ s.pSchedSupport.nTimesDynamicHeldBack ∧
      (s.pSchedSupport.stampLastUpdateOfDynamic = s.cycle ∨
        2 * (s.pSchedSupport.nTimesDynamicHeldBack - h0) + 1 ≤ s.cycle)
  | .driftWaitCheck | .driftSleep =>
      s.pSchedSupport.currentStampOfDynamic = s.cycle + 1 ∧ s.cycle < N ∧
      2 * (s.pSchedSupport.nTimesDynamicHeldBack - h0) ≤ s.cycle + 1 ∧
      h0 ≤ s.pSchedSupport.nTimesDynamicHeldBack
  | .cycleInc =>
      s.pSchedSupport.currentStampOfDynamic = s.cycle + 1 ∧ s.cycle < N ∧
      2 * (s.pSchedSupport.nTimesDynamicHeldBack - h0) ≤ s.cycle + 1 ∧
      h0 ≤ s.pSchedSupport.nTimesDynamicHeldBack ∧
      (s.pSchedSupport.dynamicOwned_Prod2ConsBuffer_isFresh = true ∨
        2 * (s.pSchedSupport.nTimesDynamicHeldBack - h0) ≤ s.cycle)
  | .callDone | .loopHead | .startCheck | .startSleep | .exited =>
      2 * (s.pSchedSupport.nTimesDynamicHeldBack - h0) ≤ N ∧
      h0 ≤ s.pSchedSupport.nTimesDynamicHeldBack
  | .startClear | .joinCheck => False
  | .faulted => True

/-- The five contact-event arrays have the same length. -/
def contactArraysAligned (d : DEMDataDT) : Prop :=
  d.idGeometryB.length = d.idGeometryA.length ∧
  d.contactForces.length = d.idGeometryA.length ∧
  d.contactPointGeometryA.length = d.idGeometryA.length ∧
  d.contactPointGeometryB.length = d.idGeometryA.length

instance (d : DEMDataDT) : Decidable (contactArraysAligned d) := by
  unfold contactArraysAligned; infer_instance

/-- The dT-owned transfer buffer holds the pairs it announces. -/
def bufferHoldsPairs (d : DEMDataDT) : Prop :=
  d.nContactPairs_buffer ≤ d.idGeometryA_buffer.length ∧
  d.nContactPairs_buffer ≤ d.idGeometryB_buffer.length

instance (d : DEMDataDT) : Decidable (bufferHoldsPairs d) := by
  unfold bufferHoldsPairs; infer_instance

/-- A sequence of deliveries: kT writes `n` pairs into the dT-owned buffer, dT unpacks them,
and so on. -/
def unpackAll : List (Nat × List bodyID_t × List bodyID_t) → DEMDynamicThread → DEMDynamicThread
  | [], s => s
  | (n, idA, idB) :: rest, s =>
      unpackAll rest (unpackMyBuffer (envStep (EnvEvent.kTWrite n idA idB) s))

/-- Every delivery of a sequence fits the buffer it is written to. -/
def deliveriesHold (ds : List (Nat × List bodyID_t × List bodyID_t)) : Prop :=
  ∀ d ∈ ds, d.1 ≤ d.2.1.length ∧ d.1 ≤ d.2.2.length

/-- The lengths of the arrays written by the loop over the input clumps. -/
def clumpArrayLengths (d : DEMDataDT) : List Nat :=
  [d.inertiaPropOffsets.length, d.locX.length, d.locY.length, d.locZ.length, d.voxelID.length,
   d.hvX.length, d.hvY.length, d.hvZ.length, d.familyID.length,
   d.materialTupleOffset.length, d.clumpComponentOffset.length, d.ownerClumpBody.length]

/-- The number of component spheres of input clump `i`. -/
def clumpSize (inp : PopulateInputs) (i : Nat) : Nat :=
  match inp.input_clump_types[i]? with
  | some t => (inp.clumps_sp_radii_types.getD t []).length
  | none => 0

/-- The number of spheres of the input clumps before clump `i`. -/
def spheresBefore (inp : PopulateInputs) (i : Nat) : Nat :=
  ((List.range i).map (clumpSize inp)).sum

/-- The shape of the inputs of `populateManagedArrays`: locations and materials are listed per
template as the radii are, every clump type names a template, and the per-clump and
per-material lists are as long as the list that drives their loop. -/
def wellShaped (inp : PopulateInputs) : Prop :=
  inp.clumps_sp_location_types.map List.length = inp.clumps_sp_radii_types.map List.length ∧
  inp.input_clumps_sp_mat_ids.map List.length = inp.clumps_sp_radii_types.map List.length ∧
  (∀ t ∈ inp.input_clump_types, t < inp.clumps_sp_radii_types.length) ∧
  inp.input_clump_types.length ≤ inp.input_clump_xyz.length ∧
  inp.input_clump_types.length ≤ inp.input_clump_vel.length ∧
  inp.input_clump_types.length ≤ inp.input_clump_family.length ∧
  inp.mat_k.length ≤ inp.mat_g.length ∧
  inp.mat_k.length ≤ inp.mat_CoR.length ∧
  inp.clumps_mass_types.length ≤ inp.clumps_moi_types.length

instance (inp : PopulateInputs) : Decidable (wellShaped inp) := by
  unfold wellShaped; infer_instance

/-- The arrays of `s` are allocated for the totals of `inp`: the material tables hold the
material entries, the per-template arrays the templates, the per-component arrays all template
components (a count that fits `unsigned int`, the type of the argument `nClumpComponents` of
`allocateManagedArrays`), the per-clump arrays the clumps and the per-sphere arrays the
spheres. -/
def allocatedFor (s : DEMDynamicThread) (inp : PopulateInputs) : Prop :=
  inp.mat_k.length ≤ s.granTemplates.EProxy.length ∧
  inp.mat_k.length ≤ s.granTemplates.GProxy.length ∧
  inp.mat_k.length ≤ s.granTemplates.CoRProxy.length ∧
  inp.clumps_mass_types.length ≤ s.granTemplates.massClumpBody.length ∧
  inp.clumps_mass_types.length ≤ s.granTemplates.mmiXX.length ∧
  inp.clumps_mass_types.length ≤ s.granTemplates.mmiYY.length ∧
  inp.clumps_mass_types.length ≤ s.granTemplates.mmiZZ.length ∧
  componentsBefore inp.clumps_sp_radii_types inp.clumps_sp_radii_types.length ≤
    s.granTemplates.radiiSphere.length ∧
  componentsBefore inp.clumps_sp_radii_types inp.clumps_sp_radii_types.length ≤
    s.granTemplates.relPosSphereX.length ∧
  componentsBefore inp.clumps_sp_radii_types inp.clumps_sp_radii_types.length ≤
    s.granTemplates.relPosSphereY.length ∧
  componentsBefore inp.clumps_sp_radii_types inp.clumps_sp_radii_types.length ≤
    s.granTemplates.relPosSphereZ.length ∧
  componentsBefore inp.clumps_sp_radii_types inp.clumps_sp_radii_types.length < 2 ^ 32 ∧
  (∀ x ∈ (clumpArrayLengths s.granData).take 9, inp.input_clump_types.length ≤ x) ∧
  (∀ x ∈ (clumpArrayLengths s.granData).drop 9,
    spheresBefore inp inp.input_clump_types.length ≤ x)

instance (s : DEMDynamicThread) (inp : PopulateInputs) : Decidable (allocatedFor s inp) := by
  unfold allocatedFor; infer_instance

/-- What the loop over the input clumps has established when it is about to treat clump
`i`. -/
def ClumpInv (inp : PopulateInputs) (s0 : DEMDynamicThread) (i : Nat)
    (st : Nat × DEMDynamicThread) : Prop :=
  st.1 = spheresBefore inp i ∧
  st.2.granTemplates = s0.granTemplates ∧
  clumpArrayLengths st.2.granData = clumpArrayLengths s0.granData ∧
  ∀ i1 t R M, i1 < i → inp.input_clump_types[i1]? = some t →
    inp.clumps_sp_radii_types[t]? = some R → inp.input_clumps_sp_mat_ids[t]? = some M →
    ∀ j, j < R.length →
      st.2.granData.materialTupleOffset[spheresBefore inp i1 + j]? = M[j]? ∧
      st.2.granData.clumpComponentOffset[spheresBefore inp i1 + j]? =
        some (componentsBefore inp.clumps_sp_radii_types t % 2 ^ 32 + j) ∧
      st.2.granData.ownerClumpBody[spheresBefore inp i1 + j]? = some i1

/-- Clump `c` owns neither body of any of the first `n` contact pairs. -/
def inNoContactPair (d : DEMDataDT) (n c : Nat) : Prop :=
  ∀ k, k < n → ownerOf d d.idGeometryA k ≠ some c ∧ ownerOf d d.idGeometryB k ≠ some c

instance (d : DEMDataDT) (n c : Nat) : Decidable (inNoContactPair d n c) := by
  unfold inNoContactPair; infer_instance

/-- The six acceleration accumulators of clump `c`. -/
def accelerationOf (d : DEMDataDT) (c : Nat) : List (Option ℚ) :=
  [d.h2aX[c]?, d.h2aY[c]?, d.h2aZ[c]?, d.h2AlphaX[c]?, d.h2AlphaY[c]?, d.h2AlphaZ[c]?]

/-- The accumulators hold an entry for each clump. -/
def accumulatorsHold (d : DEMDataDT) (n : Nat) : Prop :=
  n ≤ d.h2aX.length ∧ n ≤ d.h2aY.length ∧ n ≤ d.h2aZ.length ∧
  n ≤ d.h2AlphaX.length ∧ n ≤ d.h2AlphaY.length ∧ n ≤ d.h2AlphaZ.length

instance (d : DEMDataDT) (n : Nat) : Decidable (accumulatorsHold d n) := by
  unfold accumulatorsHold; infer_instance

/-- A shutdown in progress at the start-wait, relative to the state `s0` in which dT passed the
test of `dynamicStarted`: `dynamicShouldJoin` is set, dT is between that test and the return
of `workerThread`, and what dT owns is as it was in `s0`. -/
def ShutdownInv (s0 s : DEMDynamicThread) : Prop :=
  s.pSchedSupport.dynamicShouldJoin = true ∧
  (s.callLog = s0.callLog ∧ s.cycle = s0.cycle ∧ s.userCallDone = s0.userCallDone ∧
    s.numContacts = s0.numContacts ∧ s.contactPairArr_isFresh = s0.contactPairArr_isFresh ∧
    dTOwned s.granData = dTOwned s0.granData ∧
    s.pSchedSupport.nKinematicUpdates = s0.pSchedSupport.nKinematicUpdates ∧
    s.pSchedSupport.nTimesDynamicHeldBack = s0.pSchedSupport.nTimesDynamicHeldBack ∧
    s.pSchedSupport.stampLastUpdateOfDynamic = s0.pSchedSupport.stampLastUpdateOfDynamic ∧
    s.pSchedSupport.currentStampOfDynamic = s0.pSchedSupport.currentStampOfDynamic ∧
    s.pSchedSupport.dynamicDone = s0.pSchedSupport.dynamicDone ∧
    (s0.pSchedSupport.kinematicOwned_Cons2ProdBuffer_isFresh = false →
      s.pSchedSupport.kinematicOwned_Cons2ProdBuffer_isFresh = false)) ∧
  match s.pc with
  | .startCheck => s.pSchedSupport.dynamicStarted = true
  | .startClear | .joinCheck | .exited => True
  | _ => False

/-- The flag `dynamicDone` during one user call with a budget of `N` cycles that began with
the flag false, by program point: it is false up to the test at l. 537 of each cycle, after
that test it is true exactly in cycle `N - 1`, and once the loop is left it is true exactly
if a cycle was run. The start signal is not given again during the call. -/
def DoneInv (N : Nat) (s : DEMDynamicThread) : Prop :=
  s.nDynamicCycles = N ∧ s.pSchedSupport.dynamicStarted = false ∧
  match s.pc with
  | .bootSend | .bootFlag | .bootMark | .dataCheck | .dataSleep =>
      s.pSchedSupport.dynamicDone = false
  | .cycleHead =>
      s.cycle ≤ N ∧ (s.cycle < N → s.pSchedSupport.dynamicDone = false) ∧
      (s.cycle = N → (s.pSchedSupport.dynamicDone = true ↔ 0 < N))
  | .consumeCheck | .unpack | .consumeClear | .consumeStamp | .calc | .integ | .doneCheck =>
      s.cycle < N ∧ s.pSchedSupport.dynamicDone = false
  | .republishCheck | .repSend | .repFlag | .repCount | .stampInc | .driftCheck
  | .driftWaitCheck | .driftSleep | .cycleInc =>
      s.cycle < N ∧ (s.pSchedSupport.dynamicDone = true ↔ s.cycle + 1 = N)
  | .callDone | .loopHead | .startCheck | .startSleep | .exited =>
      (s.pSchedSupport.dynamicDone = true ↔ 0 < N)
  | .startClear | .joinCheck => False
  | .faulted => True

/-- The program points of a cycle up to the test at l. 537. -/
def PC.uptoDoneCheck : PC → Bool
  | .consumeCheck | .unpack | .consumeClear | .consumeStamp | .calc | .integ | .doneCheck => true
  | _ => false

/-- The program points of a cycle after the test at l. 537. -/
def PC.pastDoneCheck : PC → Bool
  | .republishCheck | .repSend | .repFlag | .repCount | .stampInc | .driftCheck
  | .driftWaitCheck | .driftSleep | .cycleInc => true
  | _ => false

/-- Whether the event is a step of dT that makes the test of l. 541 and finds kT's mailbox not
fresh (1) or not (0). -/
def foundNotFresh (ev : Event) (s : DEMDynamicThread) : Nat :=
  match ev with
  | .dT _ =>
      if s.pc = PC.republishCheck ∧ s.pSchedSupport.kinematicOwned_Cons2ProdBuffer_isFresh = false
      then 1 else 0
  | .env _ => 0

/-- The number of times dT, along a schedule run from `s`, finds kT's mailbox not fresh at the
test of l. 541. -/
def republishCount (K : Kernels) : List Event → DEMDynamicThread → Nat
  | [], _ => 0
  | ev :: rest, s => foundNotFresh ev s + republishCount K rest (step K ev s)

/-- Whether the event is a step of dT that evaluates `dynamicShouldWait()` at l. 561 with the
result true (1) or not (0). -/
def foundShouldWait (ev : Event) (s : DEMDynamicThread) : Nat :=
  match ev with
  | .dT _ => if s.pc = PC.driftCheck ∧ s.pSchedSupport.dynamicShouldWait = true then 1 else 0
  | .env _ => 0

/-- The number of times `dynamicShouldWait()` returns true at l. 561 along a schedule run
from `s`. -/
def heldBackCount (K : Kernels) : List Event → DEMDynamicThread → Nat
  | [], _ => 0
  | ev :: rest, s => foundShouldWait ev s + heldBackCount K rest (step K ev s)

/-- Whether the event is a step of dT that runs `calculateForces` (l. 527) without device
fault (1) or not (0). -/
def runsForces (ev : Event) (s : DEMDynamicThread) : Nat :=
  match ev with
  | .dT false => if s.pc = PC.calc then 1 else 0
  | _ => 0

/-- The number of times dT runs `calculateForces` along a schedule run from `s`. -/
def forcesRun (K : Kernels) : List Event → DEMDynamicThread → Nat
  | [], _ => 0
  | ev :: rest, s => runsForces ev s + forcesRun K rest (step K ev s)

/-- Whether the event is a step of dT that runs `integrateClumpMotions` (l. 529) without
device fault (1) or not (0). -/
def runsIntegration (ev : Event) (s : DEMDynamicThread) : Nat :=
  match ev with
  | .dT false => if s.pc = PC.integ then 1 else 0
  | _ => 0

/-- The number of times dT runs `integrateClumpMotions` along a schedule run from `s`. -/
def integrationsRun (K : Kernels) : List Event → DEMDynamicThread → Nat
  | [], _ => 0
  | ev :: rest, s => runsIntegration ev s + integrationsRun K rest (step K ev s)

/-- The increments of `nKinematicUpdates` that dT has committed to but not made yet: between a
`sendToTheirBuffer` and the increment that follows it. -/
def publishPending (s : DEMDynamicThread) : Nat :=
  match s.pc with
  | .bootSend | .bootFlag | .bootMark | .repSend | .repFlag | .repCount => 1
  | _ => 0

/-- The number of tests of l. 541 a user call can still make. -/
def republishLeft (s : DEMDynamicThread) : Nat :=
  match s.pc with
  | .bootSend | .bootFlag | .bootMark | .dataCheck | .dataSleep => s.nDynamicCycles
  | .cycleHead | .consumeCheck | .unpack | .consumeClear | .consumeStamp | .calc | .integ
  | .doneCheck | .republishCheck => s.nDynamicCycles - s.cycle
  | .repSend | .repFlag | .repCount | .stampInc | .driftCheck | .driftWaitCheck | .driftSleep
  | .cycleInc => s.nDynamicCycles - s.cycle - 1
  | _ => 0

/-- The number of tests of l. 561 a user call can still make. -/
def driftChecksLeft (s : DEMDynamicThread) : Nat :=
  match s.pc with
  | .bootSend | .bootFlag | .bootMark | .dataCheck | .dataSleep => s.nDynamicCycles
  | .cycleHead | .consumeCheck | .unpack | .consumeClear | .consumeStamp | .calc | .integ
  | .doneCheck | .republishCheck | .repSend | .repFlag | .repCount | .stampInc
  | .driftCheck => s.nDynamicCycles - s.cycle
  | .driftWaitCheck | .driftSleep | .cycleInc => s.nDynamicCycles - s.cycle - 1
  | _ => 0

/-- The coordinate `c` is encoded by the voxel number `voxel` and the sub-voxel position `loc`
for a voxel size `V` and a sub-voxel length `l`: `voxel = floor(c / V)`,
`loc = floor((c - voxel * V) / l)`, the rebuilt coordinate `voxel * V + loc * l` is at most `c`
and less than `l` below it, and `loc * l < V`. -/
def encodesWithin (V l c : ℚ) (voxel loc : Nat) : Prop :=
  voxel = ⌊c / V⌋₊ ∧ loc = ⌊(c - (voxel : ℚ) * V) / l⌋₊ ∧
  0 ≤ c - rebuiltCoord V l voxel loc ∧ c - rebuiltCoord V l voxel loc < l ∧ (loc : ℚ) * l < V

/-- The contact-event arrays are aligned and hold the solver's current contact count. -/
def contactArraysHoldCount (s : DEMDynamicThread) : Prop :=
  contactArraysAligned s.granData ∧ s.numContacts ≤ s.granData.idGeometryA.length

instance (s : DEMDynamicThread) : Decidable (contactArraysHoldCount s) := by
  unfold contactArraysHoldCount; infer_instance

/-- The vectors `idGeometryA` and `voxelID` hold fewer than 2^63 elements, the `max_size` of a
`std::vector` on a 64-bit machine. -/
def withinMaxSize (d : DEMDataDT) : Prop :=
  d.idGeometryA.length < 2 ^ 63 ∧ d.voxelID.length < 2 ^ 63

instance (d : DEMDataDT) : Decidable (withinMaxSize d) := by
  unfold withinMaxSize; infer_instance

/-- The per-clump arrays of rational entries: orientation, velocity, angular velocity and the
two acceleration accumulators. -/
def clumpArraysQ (d : DEMDataDT) : List (List ℚ) :=
  [d.oriQ0, d.oriQ1, d.oriQ2, d.oriQ3, d.hvX, d.hvY, d.hvZ, d.hOmgBarX, d.hOmgBarY, d.hOmgBarZ,
   d.h2aX, d.h2aY, d.h2aZ, d.h2AlphaX, d.h2AlphaY, d.h2AlphaZ]

/-- The per-clump arrays of integer entries: voxel index and sub-voxel position. -/
def clumpArraysN (d : DEMDataDT) : List (List Nat) :=
  [d.voxelID, d.locX, d.locY, d.locZ]

/-- The lengths of the contact-event arrays and of the contact transfer buffers. -/
def contactArrayLengths (d : DEMDataDT) : List Nat :=
  [d.idGeometryA.length, d.idGeometryB.length, d.contactForces.length,
   d.contactPointGeometryA.length, d.contactPointGeometryB.length,
   d.idGeometryA_buffer.length, d.idGeometryB_buffer.length]

/-- The lengths of the material-pair tables. -/
def materialTableLengths (g : DEMTemplate) : List Nat :=
  [g.EProxy.length, g.GProxy.length, g.CoRProxy.length]

/-- The per-clump arrays are empty: nothing has been allocated yet. -/
def storageEmpty (d : DEMDataDT) : Prop :=
  (∀ v ∈ clumpArraysQ d, v = []) ∧ (∀ v ∈ clumpArraysN d, v = [])

instance (d : DEMDataDT) : Decidable (storageEmpty d) := by
  unfold storageEmpty; infer_instance

/-! ## Concrete inputs -/

/-- A run from thread entry with maximum drift 1 and a budget of 3 cycles: the start signal,
the bootstrap, kT's first result, cycle 0 (which consumes it), cycle 1 (nothing fresh, after
which the drift policy trips), kT's second result and a notification. It ends at the head of
cycle 2. -/
def driftRun : List Event :=
  [Event.env EnvEvent.startThread] ++ List.replicate 7 (Event.dT false) ++
  [Event.env EnvEvent.kTFresh] ++ List.replicate 22 (Event.dT false) ++
  [Event.env EnvEvent.kTFresh, Event.env EnvEvent.notify] ++ List.replicate 2 (Event.dT false)

/-- A dynamic thread with two clumps whose kT-owned buffer still holds an older snapshot. -/
def twoClumps : DEMDynamicThread :=
  { idle 1 2 with
    simParams := { nClumpBodies := 2, nSpheresGM := 2 }
    granData := { (idle 1 2).granData with
      voxelID := [5, 6], locX := [1, 2], locY := [3, 4], locZ := [5, 6],
      oriQ0 := [1, 1], oriQ1 := [0, 0], oriQ2 := [0, 0], oriQ3 := [0, 0],
      pKTOwnedBuffer_voxelID := [9, 9], pKTOwnedBuffer_locX := [9, 9],
      pKTOwnedBuffer_locY := [9, 9], pKTOwnedBuffer_locZ := [9, 9],
      pKTOwnedBuffer_oriQ0 := [0, 0], pKTOwnedBuffer_oriQ1 := [1, 1],
      pKTOwnedBuffer_oriQ2 := [1, 1], pKTOwnedBuffer_oriQ3 := [1, 1] } }

/-- The clumps of `twoClumps` after they moved; the kT-owned buffer is the one the first
`sendToTheirBuffer` left. -/
def twoClumpsMoved : DEMDynamicThread :=
  { sendToTheirBuffer twoClumps with
    granData := { (sendToTheirBuffer twoClumps).granData with
      voxelID := [7, 8], locX := [11, 12], locY := [13, 14], locZ := [15, 16],
      oriQ0 := [0, 0], oriQ1 := [1, 1], oriQ2 := [0, 0], oriQ3 := [0, 0] } }

/-- A dT blocked in the start-wait: thread entry, then the test of `dynamicStarted`, then the
wait. -/
def blockedAtStart : DEMDynamicThread :=
  exec idKernels [Event.dT false, Event.dT false] (idle 1 2)

/-- A dT blocked in the data-wait after the bootstrap of a user call. -/
def blockedAtData : DEMDynamicThread :=
  exec idKernels ([Event.env EnvEvent.startThread] ++ List.replicate 8 (Event.dT false)) (idle 1 2)

/-- A dT blocked in the drift-wait at the end of cycle 0 (maximum drift 0). -/
def blockedAtDrift : DEMDynamicThread :=
  exec idKernels ([Event.env EnvEvent.startThread] ++ List.replicate 7 (Event.dT false) ++
    [Event.env EnvEvent.kTFresh] ++ List.replicate 13 (Event.dT false)) (idle 0 2)

/-- The driver sets `dynamicShouldJoin` and notifies; dT then gets five steps with a further
notification between them. -/
def joinAndNotify : List Event :=
  [Event.env EnvEvent.shouldJoin, Event.env EnvEvent.notify, Event.dT false, Event.dT false,
   Event.env EnvEvent.notify, Event.dT false, Event.dT false, Event.dT false]

/-- The events of a shutdown request that gives no start signal and no data: the driver sets
`dynamicShouldJoin`, wakeups, and steps of dT. -/
def Event.isJoinNotifyOrStep : Event → Bool
  | .env .shouldJoin => true
  | .env .notify => true
  | .dT _ => true
  | _ => false

/-- Two templates (one sphere, two spheres), two materials, and three clumps of types
1, 0, 1. -/
def sampleInputs : PopulateInputs where
  input_clump_types := [1, 0, 1]
  input_clump_xyz := [(1, 2, 3), (5/2, 0, 1), (7, 7, 7)]
  input_clump_vel := [(0, 0, 0), (1, 0, 0), (0, 0, -1)]
  input_clump_family := [0, 0, 1]
  input_clumps_sp_mat_ids := [[0], [1, 0]]
  clumps_mass_types := [1, 2]
  clumps_moi_types := [(1, 1, 1), (2, 3, 4)]
  clumps_sp_radii_types := [[1/2], [1/4, 1/3]]
  clumps_sp_location_types := [[(0, 0, 0)], [(1/4, 0, 0), (-1/4, 0, 0)]]
  mat_k := [10, 20, 30]
  mat_g := [1, 2, 3]
  mat_CoR := [1/2, 1/2, 1/2]

/-- The storage `allocateManagedArrays` gives an empty dynamic thread for `sampleInputs`:
3 clumps, 5 spheres, 2 templates with 3 components, 2 materials; 16 voxels of size 1 per
direction, sub-voxel length 1/8. -/
def sampleAllocated : DEMDynamicThread :=
  allocateManagedArrays
    { idle 1 2 with simParams := { (idle 1 2).simParams with
        nvXp2 := 4, nvYp2 := 4, nvZp2 := 4, l := 1/8, voxelSize := 1 } }
    3 5 2 3 2

/-- A run of 3 cycles under maximum drift 1 in which kT is silent during cycle 1, up to the
end of the user call: `driftRun`, then cycle 2 and the return to the start-wait. -/
def heldRun : List Event :=
  driftRun ++ List.replicate 17 (Event.dT false)

/-- A run of 2 cycles under maximum drift 1 in which kT delivers before each cycle, up to the
end of the user call. -/
def promptRun : List Event :=
  [Event.env EnvEvent.startThread] ++ List.replicate 7 (Event.dT false) ++
  [Event.env EnvEvent.kTFresh] ++ List.replicate 13 (Event.dT false) ++
  [Event.env EnvEvent.kTFresh] ++ List.replicate 16 (Event.dT false)

/-- A dT whose contact arrays are still empty while kT has written two pairs into the
dT-owned buffer. -/
def pendingPairs : DEMDynamicThread :=
  envStep (EnvEvent.kTWrite 2 [3, 4] [5, 6]) (idle 1 2)

/-- Three clumps of one sphere each under gravity along -z, with stale accumulators and one
contact pair, between the spheres of clumps 0 and 1. -/
def contactScene : DEMDynamicThread :=
  { idle 1 2 with
    simParams := { nClumpBodies := 3, nSpheresGM := 3, h := 1/100, l := 1/8, Gz := -981/100 }
    granData := { (idle 1 2).granData with
      h2aX := [5, 5, 5], h2aY := [5, 5, 5], h2aZ := [5, 5, 5],
      h2AlphaX := [7, 7, 7], h2AlphaY := [7, 7, 7], h2AlphaZ := [7, 7, 7],
      ownerClumpBody := [0, 1, 2], idGeometryA := [0], idGeometryB := [1],
      contactForces := [(9, 9, 9)], contactPointGeometryA := [(0, 0, 0)],
      contactPointGeometryB := [(0, 0, 0)] }
    numContacts := 1 }

/-- A contact model in which every pair pushes its two owners apart along x and spins them
about z. -/
def unitModel : ContactModel where
  pairForce := fun _ _ _ => ((1, 0, 0), (0, 0, 0), (0, 0, 0))
  linearShareA := fun _ _ _ => (1, 0, 0)
  linearShareB := fun _ _ _ => (-1, 0, 0)
  angularShareA := fun _ _ _ => (0, 0, 1)
  angularShareB := fun _ _ _ => (0, 0, -1)

/-- A dT that was blocked in the start-wait, got the start signal and was then asked to join:
it stands at the test of `dynamicStarted` with both flags set. -/
def shutdownRequested : DEMDynamicThread :=
  envs [EnvEvent.startThread, EnvEvent.shouldJoin] blockedAtStart

/-- A run of one cycle in which kT drains its mailbox and delivers during the data-wait, up to
the return to the start-wait. -/
def drainRun : List Event :=
  [Event.env EnvEvent.startThread] ++ List.replicate 7 (Event.dT false) ++
  [Event.env EnvEvent.kTDrain, Event.env EnvEvent.kTFresh] ++ List.replicate 22 (Event.dT false)

/-- A run up to the end of cycle 0 in which kT delivers once, during the data-wait, and is
silent afterwards. -/
def lastCycleHeldRun : List Event :=
  [Event.env EnvEvent.startThread] ++ List.replicate 7 (Event.dT false) ++
  [Event.env EnvEvent.kTFresh] ++ List.replicate 13 (Event.dT false)

/-- A solver with storage for 3 clumps and 12 contact pairs that has unpacked 5 pairs. -/
def fivePairs : DEMDynamicThread :=
  unpackMyBuffer (envStep (EnvEvent.kTWrite 5 [0, 1, 2, 3, 4] [1, 2, 3, 4, 0])
    (allocateManagedArrays (idle 1 0) 3 5 2 3 2))

/-- A run from thread entry up to `calculateForces` of cycle 0: the start signal, the
bootstrap, kT's first result, and the consume of cycle 0. -/
def upToForces : List Event :=
  [Event.env EnvEvent.startThread] ++ List.replicate 7 (Event.dT false) ++
  [Event.env EnvEvent.kTFresh] ++ List.replicate 6 (Event.dT false)

/-! # Properties -/

/-! ## Frame of the environment and of the mailbox operations -/

theorem EnvFrame.refl (s : DEMDynamicThread) : EnvFrame s s := by
  constructor <;> simp

theorem EnvFrame.trans {s t u : DEMDynamicThread} (h1 : EnvFrame s t) (h2 : EnvFrame t u) :
    EnvFrame s u := by
  constructor
  · rw [h2.simParams, h1.simParams]
  · rw [h2.data, h1.data]
  · rw [h2.numContacts, h1.numContacts]
  · rw [h2.nDynamicCycles, h1.nDynamicCycles]
  · rw [h2.userCallDone, h1.userCallDone]
  · rw [h2.contactPairArr, h1.contactPairArr]
  · rw [h2.cycle, h1.cycle]
  · rw [h2.callLog, h1.callLog]
  · intro h
    have h3 := h1.pc h
    rw [h2.pc (by rw [h3]; exact h), h3]
  · rw [h2.stampLast, h1.stampLast]
  · rw [h2.stampCur, h1.stampCur]
  · rw [h2.nKU, h1.nKU]
  · rw [h2.nHeld, h1.nHeld]
  · rw [h2.done, h1.done]
  · rw [h2.drift, h1.drift]
  · exact fun h => h2.dynFresh (h1.dynFresh h)
  · exact fun h => h2.kinFresh (h1.kinFresh h)
  · exact fun h => h2.started (h1.started h)
  · exact fun h => h2.join (h1.join h)

theorem envStep_frame (e : EnvEvent) (s : DEMDynamicThread) : EnvFrame s (envStep e s) := by
  cases e <;> constructor <;> simp [envStep, startThread, dTOwned] <;>
    (cases h : s.pc <;> simp [h, PC.isSleep, wake, goto])

theorem envs_frame (E : List EnvEvent) : ∀ s, EnvFrame s (envs E s) := by
  induction E with
  | nil => intro s; exact EnvFrame.refl s
  | cons e rest ih => intro s; exact (envStep_frame e s).trans (ih _)


theorem unpackMyBuffer_frame (s : DEMDynamicThread) :
    (unpackMyBuffer s).simParams = s.simParams ∧
    (unpackMyBuffer s).pSchedSupport = s.pSchedSupport ∧
    (unpackMyBuffer s).nDynamicCycles = s.nDynamicCycles ∧
    (unpackMyBuffer s).userCallDone = s.userCallDone ∧
    (unpackMyBuffer s).contactPairArr_isFresh = s.contactPairArr_isFresh ∧
    (unpackMyBuffer s).pc = s.pc ∧
    (unpackMyBuffer s).cycle = s.cycle ∧
    (unpackMyBuffer s).callLog = s.callLog := by
  simp only [unpackMyBuffer, contactEventArraysResize]
  split <;> simp

@[simp]
theorem unpackMyBuffer_pSchedSupport (s : DEMDynamicThread) :
    (unpackMyBuffer s).pSchedSupport = s.pSchedSupport := (unpackMyBuffer_frame s).2.1
@[simp]
theorem unpackMyBuffer_nDynamicCycles (s : DEMDynamicThread) :
    (unpackMyBuffer s).nDynamicCycles = s.nDynamicCycles := (unpackMyBuffer_frame s).2.2.1
@[simp]
theorem unpackMyBuffer_userCallDone (s : DEMDynamicThread) :
    (unpackMyBuffer s).userCallDone = s.userCallDone := (unpackMyBuffer_frame s).2.2.2.1
@[simp]
theorem unpackMyBuffer_cycle (s : DEMDynamicThread) :
    (unpackMyBuffer s).cycle = s.cycle := (unpackMyBuffer_frame s).2.2.2.2.2.2.1
@[simp]
theorem unpackMyBuffer_callLog (s : DEMDynamicThread) :
    (unpackMyBuffer s).callLog = s.callLog := (unpackMyBuffer_frame s).2.2.2.2.2.2.2

@[simp]
theorem kernelCalls_append (a b : List Call) :
    kernelCalls (a ++ b) = kernelCalls a ++ kernelCalls b := by
  simp [kernelCalls]

@[simp]
theorem kernelCalls_send : kernelCalls [Call.sendToTheirBuffer] = [] := rfl
@[simp]
theorem kernelCalls_unpack : kernelCalls [Call.unpackMyBuffer] = [] := rfl
@[simp]
theorem kernelCalls_calc :
    kernelCalls [Call.calculateForces] = [Call.calculateForces] := rfl
@[simp]
theorem kernelCalls_integ :
    kernelCalls [Call.integrateClumpMotions] = [Call.integrateClumpMotions] := rfl
@[simp]
theorem cyclesLog_zero : cyclesLog 0 = [] := rfl

theorem cyclesLog_succ (k : Nat) :
    cyclesLog (k + 1) = cyclesLog k ++ [Call.calculateForces, Call.integrateClumpMotions] := rfl

theorem cyclesLog_initial {c N : Nat} (h : c ≤ N) : cyclesLog c <+: cyclesLog N := by
  induction N with
  | zero => simp [Nat.le_zero.mp h]
  | succ n ih =>
    rcases Nat.lt_or_ge c (n + 1) with h1 | h1
    · exact (ih (by omega)).trans (by rw [cyclesLog_succ]; exact List.prefix_append _ _)
    · have : c = n + 1 := by omega
      rw [this]

theorem cyclesLog_calc_initial {c N : Nat} (h : c < N) :
    cyclesLog c ++ [Call.calculateForces] <+: cyclesLog N := by
  refine List.IsPrefix.trans ?_ (cyclesLog_initial (Nat.succ_le_of_lt h))
  rw [cyclesLog_succ]
  exact ⟨[Call.integrateClumpMotions], by simp⟩

theorem sendToTheirBuffer_frame (s : DEMDynamicThread) :
    (sendToTheirBuffer s).simParams = s.simParams ∧
    (sendToTheirBuffer s).pSchedSupport = s.pSchedSupport ∧
    (sendToTheirBuffer s).numContacts = s.numContacts ∧
    (sendToTheirBuffer s).nDynamicCycles = s.nDynamicCycles ∧
    (sendToTheirBuffer s).userCallDone = s.userCallDone ∧
    (sendToTheirBuffer s).contactPairArr_isFresh = s.contactPairArr_isFresh ∧
    (sendToTheirBuffer s).pc = s.pc ∧
    (sendToTheirBuffer s).cycle = s.cycle ∧
    (sendToTheirBuffer s).callLog = s.callLog := by
  simp [sendToTheirBuffer]

theorem cudaMemcpy_getElem? {α : Type} (dst src : List α) (n i : Nat) (hn : n ≤ src.length)
    (hi : i < n) : (cudaMemcpy dst src n)[i]? = src[i]? := by
  unfold cudaMemcpy
  rw [List.getElem?_append_left (by simp; omega), List.getElem?_take_of_lt hi]

theorem cudaMemcpy_getElem?_ge {α : Type} (dst src : List α) (n i : Nat) (hn : n ≤ src.length)
    (hi : n ≤ i) : (cudaMemcpy dst src n)[i]? = dst[i]? := by
  unfold cudaMemcpy
  rw [List.getElem?_append_right (by simp; omega)]
  simp [Nat.min_eq_left hn, Nat.add_sub_cancel' hi]

theorem cudaMemcpy_twice {α : Type} (dst a b : List α) (n : Nat) (hn : n ≤ a.length) :
    cudaMemcpy (cudaMemcpy dst a n) b n = cudaMemcpy dst b n := by
  unfold cudaMemcpy
  congr 1
  rw [List.drop_append_eq_append_drop]
  simp [Nat.min_eq_left hn]

/-! ## The waits -/

theorem wait_step (K : Kernels) (w : Wait) (ev : Event) (s : DEMDynamicThread)
    (h : inWait w s) :
    inWait w (step K ev s) ∨
      ((∃ fault, ev = Event.dT fault) ∧ s.pc = w.check ∧ w.predicate s = true ∧
        (step K ev s).pc = w.past) := by
  rcases h with h | h
  · cases ev with
    | dT fault =>
      cases w <;> simp only [Wait.check] at h <;>
        simp [step, workerThreadStep, GPU_CALL, h, goto, inWait, Wait.check, Wait.sleep, Wait.past,
          Wait.predicate] <;>
        cases hp : s.pSchedSupport.dynamicStarted <;>
        cases hq : s.pSchedSupport.dynamicOwned_Prod2ConsBuffer_isFresh <;> simp
    | env e =>
      left
      have hf := (envStep_frame e s).pc (by cases w <;> simp_all [Wait.check, PC.isSleep])
      left
      simp [step, hf, h]
  · cases ev with
    | dT fault =>
      left; right
      cases w <;> simp only [Wait.sleep] at h <;> simp [step, workerThreadStep, GPU_CALL, h, Wait.sleep]
    | env e =>
      left
      cases w <;> simp only [Wait.sleep] at h <;> cases e <;>
        simp [step, envStep, startThread, wake, h, goto, inWait, Wait.check, Wait.sleep]

theorem wait_blocked (K : Kernels) (w : Wait) (sch : List Event) :
    ∀ s, inWait w s → (∀ k, w.predicate (exec K (sch.take k) s) = false) →
      inWait w (exec K sch s) := by
  induction sch with
  | nil => intro s h _; exact h
  | cons ev rest ih =>
    intro s h hp
    have h0 : w.predicate s = false := by simpa [exec] using hp 0
    have h1 : inWait w (step K ev s) := by
      rcases wait_step K w ev s h with h1 | ⟨_, _, h2, _⟩
      · exact h1
      · rw [h0] at h2; cases h2
    exact ih _ h1 (fun k => by simpa [exec] using hp (k + 1))

/-! ## Progress of one user call -/

theorem callInv_dT (K : Kernels) (c0 : Int) (u0 : Bool) (N : Nat) (fault : Bool) (s : DEMDynamicThread)
    (h : CallInv c0 u0 N s) : CallInv c0 u0 N (workerThreadStep K fault s) := by
  obtain ⟨hN, hS, h⟩ := h
  cases hpc : s.pc <;> rw [hpc] at h <;> simp only at h <;>
    simp only [CallInv, workerThreadStep, GPU_CALL, hpc] <;> (try split_ifs) <;>
    simp_all [goto, logCall, sendToTheirBuffer, calculateForces, integrateClumpMotions,
      cyclesLog_succ] <;>
    first
      | exact cyclesLog_initial (by omega)
      | exact cyclesLog_calc_initial (by omega)
      | exact cyclesLog_initial (Nat.succ_le_of_lt h.1)
      | (have hc : s.cycle = N := by omega
         simp [hc])
      | (constructor <;> omega)

theorem callInv_env (c0 : Int) (u0 : Bool) (N : Nat) (e : EnvEvent) (s : DEMDynamicThread)
    (he : e ≠ EnvEvent.startThread) (h : CallInv c0 u0 N s) : CallInv c0 u0 N (envStep e s) := by
  obtain ⟨hN, hS, h⟩ := h
  cases e <;> simp only [ne_eq, not_true_eq_false, reduceCtorEq, not_false_eq_true] at he <;>
    (cases hpc : s.pc <;> rw [hpc] at h <;> simp only at h <;>
      simp_all [CallInv, envStep, wake, goto])

theorem callInv_exec (K : Kernels) (c0 : Int) (u0 : Bool) (N : Nat) (sch : List Event) :
    ∀ s, (∀ ev ∈ sch, ev ≠ Event.env EnvEvent.startThread) → CallInv c0 u0 N s →
      CallInv c0 u0 N (exec K sch s) := by
  induction sch with
  | nil => intro s _ h; exact h
  | cons ev rest ih =>
    intro s hs h
    refine ih _ (fun x hx => hs x (List.mem_cons_of_mem _ hx)) ?_
    cases ev with
    | dT fault => exact callInv_dT K c0 u0 N fault s h
    | env e =>
      exact callInv_env c0 u0 N e s (fun he => hs _ (List.mem_cons_self _ _) (by rw [he])) h


/-! ## What the bootstrap establishes -/

theorem driftInv_dT (K : Kernels) (D : Int) (fault : Bool) (s : DEMDynamicThread)
    (h : DriftInv D s) : DriftInv D (workerThreadStep K fault s) := by
  obtain ⟨hD, hM, hS, h⟩ := h
  cases hpc : s.pc <;> rw [hpc] at h <;> simp only at h <;>
    simp only [DriftInv, workerThreadStep, GPU_CALL, hpc] <;> (try split_ifs) <;>
    simp_all [goto, logCall, sendToTheirBuffer, calculateForces, integrateClumpMotions, drift,
      SchedSupport.dynamicShouldWait] <;>
    first
      | omega
      | (refine ⟨by omega, ?_⟩
         rcases h.2.2 with h3 | h3
         · exact Or.inl h3
         · exact Or.inr (by omega))

theorem driftInv_env (D : Int) (e : EnvEvent) (s : DEMDynamicThread)
    (he : e ≠ EnvEvent.startThread) (h : DriftInv D s) : DriftInv D (envStep e s) := by
  obtain ⟨hD, hM, hS, h⟩ := h
  cases e <;> simp only [ne_eq, not_true_eq_false, reduceCtorEq, not_false_eq_true] at he <;>
    (cases hpc : s.pc <;> rw [hpc] at h <;> simp only at h <;>
      simp only [DriftInv, envStep, wake, goto, hpc] <;>
      first
        | exact ⟨hD, hM, hS, h⟩
        | exact ⟨hD, hM, hS, h.1, h.2.1, Or.inl rfl⟩
        | exact ⟨hD, hM, hS, h.1, h.2.1, Or.inl trivial⟩)

theorem driftInv_exec (K : Kernels) (D : Int) (sch : List Event) :
    ∀ s, (∀ ev ∈ sch, ev ≠ Event.env EnvEvent.startThread) → DriftInv D s →
      DriftInv D (exec K sch s) := by
  induction sch with
  | nil => intro s _ h; exact h
  | cons ev rest ih =>
    intro s hs h
    refine ih _ (fun x hx => hs x (List.mem_cons_of_mem _ hx)) ?_
    cases ev with
    | dT fault => exact driftInv_dT K D fault s h
    | env e =>
      exact driftInv_env D e s (fun he => hs _ (List.mem_cons_self _ _) (by rw [he])) h

/-! ## A schedule under which a user call completes -/

theorem exec_append (K : Kernels) (a b : List Event) :
    ∀ s, exec K (a ++ b) s = exec K b (exec K a s) := by
  induction a with
  | nil => intro s; rfl
  | cons ev rest ih => intro s; exact ih _

theorem fairRound_eq (K : Kernels) (s : DEMDynamicThread) :
    exec K fairRound s = workerThreadStep K false (wake (envStep EnvEvent.kTFresh s)) := rfl

theorem fairRound_progress (K : Kernels) (c0 : Int) (u0 : Bool) (N : Nat) (s : DEMDynamicThread)
    (h : CallInv c0 u0 N s) (hin : PC.inCall s.pc = true) :
    roundsLeft (exec K fairRound s) < roundsLeft s ∧
    (PC.inCall (exec K fairRound s).pc = true ∨ (exec K fairRound s).pc = PC.loopHead) := by
  obtain ⟨hN, hS, h⟩ := h
  rw [fairRound_eq]
  cases hpc : s.pc <;> rw [hpc] at h hin <;> simp only [PC.inCall] at hin <;> simp only at h <;>
    simp only [envStep, wake, hpc, workerThreadStep, GPU_CALL, goto] <;> (try split_ifs) <;>
    (simp_all [roundsLeft, PC.inCall, logCall, sendToTheirBuffer, calculateForces,
      integrateClumpMotions, goto]; all_goals omega)

theorem fairRound_noStart : ∀ ev ∈ fairRound, ev ≠ Event.env EnvEvent.startThread := by
  intro ev hev
  simp only [fairRound, List.mem_cons, List.mem_singleton, List.not_mem_nil, or_false] at hev
  rcases hev with h | h | h <;> rw [h] <;> simp

theorem fairSchedule_noStart (k : Nat) :
    ∀ ev ∈ fairSchedule k, ev ≠ Event.env EnvEvent.startThread := by
  induction k with
  | zero => intro ev hev; simp [fairSchedule] at hev
  | succ n ih =>
    intro ev hev
    simp only [fairSchedule, List.mem_append] at hev
    rcases hev with h | h
    · exact fairRound_noStart ev h
    · exact ih ev h

theorem fairSchedule_succ (K : Kernels) (k : Nat) (s : DEMDynamicThread) :
    exec K (fairSchedule (k + 1)) s = exec K (fairSchedule k) (exec K fairRound s) := by
  simp only [fairSchedule, exec_append]

theorem fairSchedule_add (K : Kernels) (j k : Nat) :
    ∀ s, exec K (fairSchedule (j + k)) s = exec K (fairSchedule k) (exec K (fairSchedule j) s) := by
  induction j with
  | zero => intro s; simp [fairSchedule, exec]
  | succ n ih =>
    intro s
    rw [Nat.add_right_comm, fairSchedule_succ, ih, fairSchedule_succ]

theorem fairRound_shouldJoin (K : Kernels) (s : DEMDynamicThread) :
    (exec K fairRound s).pSchedSupport.dynamicShouldJoin = s.pSchedSupport.dynamicShouldJoin := by
  rw [fairRound_eq]
  cases hpc : s.pc <;>
    simp only [envStep, wake, hpc, workerThreadStep, GPU_CALL, goto] <;> (try split_ifs) <;>
    simp [logCall, sendToTheirBuffer, calculateForces, integrateClumpMotions]

theorem fairSchedule_shouldJoin (K : Kernels) (k : Nat) :
    ∀ s, (exec K (fairSchedule k) s).pSchedSupport.dynamicShouldJoin =
      s.pSchedSupport.dynamicShouldJoin := by
  induction k with
  | zero => intro s; rfl
  | succ n ih => intro s; rw [fairSchedule_succ, ih, fairRound_shouldJoin]

theorem fairSchedule_reaches_loopHead (K : Kernels) (c0 : Int) (u0 : Bool) (N : Nat) (n : Nat) :
    ∀ s, CallInv c0 u0 N s → PC.inCall s.pc = true → roundsLeft s ≤ n →
      ∃ k, (exec K (fairSchedule k) s).pc = PC.loopHead := by
  induction n with
  | zero =>
    intro s h hin hn
    have := (fairRound_progress K c0 u0 N s h hin).1
    omega
  | succ n ih =>
    intro s h hin hn
    obtain ⟨hlt, hnext⟩ := fairRound_progress K c0 u0 N s h hin
    rcases hnext with hnext | hnext
    · obtain ⟨k, hk⟩ := ih (exec K fairRound s)
        (callInv_exec K c0 u0 N fairRound s fairRound_noStart h) hnext (by omega)
      exact ⟨k + 1, by rw [fairSchedule_succ]; exact hk⟩
    · exact ⟨1, by rw [fairSchedule_succ]; exact hnext⟩

theorem fairSchedule_reaches_startSleep (K : Kernels) (c0 : Int) (u0 : Bool) (N : Nat) (s : DEMDynamicThread)
    (h : CallInv c0 u0 N s) (hin : PC.inCall s.pc = true)
    (hj : s.pSchedSupport.dynamicShouldJoin = false) :
    ∃ k, (exec K (fairSchedule k) s).pc = PC.startSleep := by
  obtain ⟨k, hk⟩ := fairSchedule_reaches_loopHead K c0 u0 N (roundsLeft s) s h hin (Nat.le_refl _)
  refine ⟨k + 2, ?_⟩
  have hI := callInv_exec K c0 u0 N (fairSchedule k) s (fairSchedule_noStart k) h
  have hJ := fairSchedule_shouldJoin K k s
  rw [hj] at hJ
  rw [fairSchedule_add]
  generalize exec K (fairSchedule k) s = t at hk hI hJ
  have e : exec K (fairSchedule 2) t = exec K fairRound (exec K fairRound t) := by
    simp [fairSchedule, exec_append, exec]
  rw [e, fairRound_eq, fairRound_eq]
  have hS := hI.2.1
  simp [envStep, wake, hk, workerThreadStep, GPU_CALL, goto, hJ, hS]

theorem cyclesLog_count (N : Nat) :
    (cyclesLog N).count Call.calculateForces = N ∧
    (cyclesLog N).count Call.integrateClumpMotions = N := by
  induction N with
  | zero => simp [cyclesLog]
  | succ n ih => simp [cyclesLog, List.count_append, ih.1, ih.2]

theorem kernelCalls_count (log : List Call) :
    (kernelCalls log).count Call.calculateForces = log.count Call.calculateForces ∧
    (kernelCalls log).count Call.integrateClumpMotions =
      log.count Call.integrateClumpMotions := by
  constructor <;> exact List.count_filter rfl

theorem callInv_kernelCalls_initial (c0 : Int) (u0 : Bool) (N : Nat) (s : DEMDynamicThread) (h : CallInv c0 u0 N s) :
    kernelCalls s.callLog <+: cyclesLog N := by
  obtain ⟨_, _, h⟩ := h
  cases hpc : s.pc <;> rw [hpc] at h <;> simp only at h <;>
    first
      | exact h.1
      | (rw [h.1]; exact List.nil_prefix)
      | rw [h.1]
      | (rw [h.2.1]; exact cyclesLog_initial (by omega))
      | (rw [h.2.1]; exact cyclesLog_calc_initial (by omega))

/-! ## The snapshot written to kT -/

theorem sendToTheirBuffer_buffer (s : DEMDynamicThread) :
    (sendToTheirBuffer s).granData.kTOwnedBuffer =
      s.granData.kTOwnedBuffer.write s.granData.clumpState s.simParams.nClumpBodies := rfl

theorem Snapshot.write_twice (dst a b : Snapshot) (n : Nat) (h : a.holds n) :
    (dst.write a n).write b n = dst.write b n := by
  obtain ⟨h1, h2, h3, h4, h5, h6, h7, h8⟩ := h
  simp only [Snapshot.write, cudaMemcpy_twice _ _ _ _ h1, cudaMemcpy_twice _ _ _ _ h2,
    cudaMemcpy_twice _ _ _ _ h3, cudaMemcpy_twice _ _ _ _ h4, cudaMemcpy_twice _ _ _ _ h5,
    cudaMemcpy_twice _ _ _ _ h6, cudaMemcpy_twice _ _ _ _ h7, cudaMemcpy_twice _ _ _ _ h8]

theorem Snapshot.write_sameAt (dst src : Snapshot) (n i : Nat) (h : src.holds n) (hi : i < n) :
    (dst.write src n).sameAt src i := by
  obtain ⟨h1, h2, h3, h4, h5, h6, h7, h8⟩ := h
  exact ⟨cudaMemcpy_getElem? _ _ _ _ h1 hi, cudaMemcpy_getElem? _ _ _ _ h2 hi,
    cudaMemcpy_getElem? _ _ _ _ h3 hi, cudaMemcpy_getElem? _ _ _ _ h4 hi,
    cudaMemcpy_getElem? _ _ _ _ h5 hi, cudaMemcpy_getElem? _ _ _ _ h6 hi,
    cudaMemcpy_getElem? _ _ _ _ h7 hi, cudaMemcpy_getElem? _ _ _ _ h8 hi⟩

/-! ## Shutdown requests -/

theorem join_blocked (K : Kernels) (w : Wait) (sch : List Event) :
    ∀ s, inWait w s → w.predicate s = false →
      (∀ ev ∈ sch, Event.isJoinNotifyOrStep ev = true) →
      inWait w (exec K sch s) ∧ w.predicate (exec K sch s) = false := by
  induction sch with
  | nil => intro s h hp _; exact ⟨h, hp⟩
  | cons ev rest ih =>
    intro s h hp hs
    have hev := hs ev (List.mem_cons_self _ _)
    have h1 : inWait w (step K ev s) := by
      rcases wait_step K w ev s h with h1 | ⟨_, _, h2, _⟩
      · exact h1
      · rw [hp] at h2; cases h2
    have h2 : w.predicate (step K ev s) = false := by
      rcases h with h | h <;> cases w <;> simp only [Wait.check, Wait.sleep] at h <;>
        (cases ev with
          | dT fault =>
            simp only [Wait.predicate] at hp
            simp [step, workerThreadStep, GPU_CALL, h, hp, goto, Wait.predicate]
          | env e =>
            cases e <;> simp only [Event.isJoinNotifyOrStep] at hev <;>
              simp_all [step, envStep, wake, goto, Wait.predicate])
    exact ih _ h1 h2 (fun x hx => hs x (List.mem_cons_of_mem _ hx))

/-! ## The scheduling statistics -/

theorem step_accumulates (K : Kernels) (ev : Event) (s : DEMDynamicThread) :
    s.pSchedSupport.nKinematicUpdates ≤ (step K ev s).pSchedSupport.nKinematicUpdates ∧
    s.pSchedSupport.nTimesDynamicHeldBack ≤ (step K ev s).pSchedSupport.nTimesDynamicHeldBack ∧
    s.pSchedSupport.currentStampOfDynamic ≤ (step K ev s).pSchedSupport.currentStampOfDynamic := by
  cases ev with
  | dT fault =>
    cases hpc : s.pc <;>
      simp only [step, workerThreadStep, GPU_CALL, hpc] <;> (try split_ifs) <;>
      simp [goto, logCall, sendToTheirBuffer, calculateForces, integrateClumpMotions]
  | env e =>
    have f := envStep_frame e s
    simp only [step]
    rw [f.nKU, f.nHeld, f.stampCur]
    simp

theorem exec_accumulates (K : Kernels) (sch : List Event) :
    ∀ s : DEMDynamicThread,
    s.pSchedSupport.nKinematicUpdates ≤ (exec K sch s).pSchedSupport.nKinematicUpdates ∧
    s.pSchedSupport.nTimesDynamicHeldBack ≤ (exec K sch s).pSchedSupport.nTimesDynamicHeldBack ∧
    s.pSchedSupport.currentStampOfDynamic ≤ (exec K sch s).pSchedSupport.currentStampOfDynamic := by
  induction sch with
  | nil => intro s; simp [exec]
  | cons ev rest ih =>
    intro s
    have h1 := step_accumulates K ev s
    have h2 := ih (step K ev s)
    simp only [exec]
    exact ⟨le_trans h1.1 h2.1, le_trans h1.2.1 h2.2.1, le_trans h1.2.2 h2.2.2⟩

theorem stampInv_step (K : Kernels) (ev : Event) (s : DEMDynamicThread)
    (hev : ev ≠ Event.env EnvEvent.startThread) (h : StampInv s) :
    StampInv (step K ev s) ∧
    s.pSchedSupport.stampLastUpdateOfDynamic ≤
      (step K ev s).pSchedSupport.stampLastUpdateOfDynamic := by
  obtain ⟨hS, h⟩ := h
  cases ev with
  | dT fault =>
    cases hpc : s.pc <;> rw [hpc] at h <;> simp only at h <;>
      simp only [step, StampInv, workerThreadStep, GPU_CALL, hpc] <;> (try split_ifs) <;>
      simp_all [goto, logCall, sendToTheirBuffer, calculateForces, integrateClumpMotions]
    all_goals omega
  | env e =>
    cases e <;> simp only [ne_eq, not_true_eq_false, reduceCtorEq, not_false_eq_true] at hev <;>
      (cases hpc : s.pc <;> rw [hpc] at h <;> simp only at h <;>
        simp_all [step, StampInv, envStep, wake, goto])

theorem stampInv_exec (K : Kernels) (sch : List Event) :
    ∀ s, (∀ ev ∈ sch, ev ≠ Event.env EnvEvent.startThread) → StampInv s →
      StampInv (exec K sch s) ∧
      s.pSchedSupport.stampLastUpdateOfDynamic ≤
        (exec K sch s).pSchedSupport.stampLastUpdateOfDynamic := by
  induction sch with
  | nil => intro s _ h; exact ⟨h, le_refl _⟩
  | cons ev rest ih =>
    intro s hs h
    have h1 := stampInv_step K ev s (hs ev (List.mem_cons_self _ _)) h
    have h2 := ih (step K ev s) (fun x hx => hs x (List.mem_cons_of_mem _ hx)) h1.1
    exact ⟨h2.1, le_trans h1.2 h2.2⟩

theorem heldInv_dT (K : Kernels) (h0 N : Nat) (fault : Bool) (s : DEMDynamicThread)
    (hl : withinLookAhead s) (h : HeldInv h0 N s) :
    HeldInv h0 N (workerThreadStep K fault s) := by
  obtain ⟨hD, hN, hS, h⟩ := h
  unfold withinLookAhead at hl
  cases hpc : s.pc <;> rw [hpc] at h <;> simp only at h <;>
    simp only [HeldInv, workerThreadStep, GPU_CALL, hpc] <;> (try split_ifs) <;>
    simp_all [goto, logCall, sendToTheirBuffer, calculateForces, integrateClumpMotions,
      SchedSupport.dynamicShouldWait]
  all_goals omega

theorem heldInv_env (h0 N : Nat) (e : EnvEvent) (s : DEMDynamicThread)
    (he : e ≠ EnvEvent.startThread) (h : HeldInv h0 N s) : HeldInv h0 N (envStep e s) := by
  obtain ⟨hD, hN, hS, h⟩ := h
  cases e <;> simp only [ne_eq, not_true_eq_false, reduceCtorEq, not_false_eq_true] at he <;>
    (cases hpc : s.pc <;> rw [hpc] at h <;> simp only at h <;>
      simp only [HeldInv, envStep, wake, goto, hpc] <;>
      first
        | exact ⟨hD, hN, hS, h⟩
        | exact ⟨hD, hN, hS, h.1, h.2.1, h.2.2.1, h.2.2.2.1, Or.inl trivial⟩)

theorem heldInv_exec (K : Kernels) (h0 N : Nat) (sch : List Event) :
    ∀ s, (∀ ev ∈ sch, ev ≠ Event.env EnvEvent.startThread) →
      (∀ k, k ≤ sch.length → withinLookAhead (exec K (sch.take k) s)) → HeldInv h0 N s →
      HeldInv h0 N (exec K sch s) := by
  induction sch with
  | nil => intro s _ _ h; exact h
  | cons ev rest ih =>
    intro s hs hl h
    have hl0 : withinLookAhead s := by simpa [exec] using hl 0 (Nat.zero_le _)
    refine ih _ (fun x hx => hs x (List.mem_cons_of_mem _ hx))
      (fun k hk => by simpa [exec] using hl (k + 1) (by simpa using hk)) ?_
    cases ev with
    | dT fault => exact heldInv_dT K h0 N fault s hl0 h
    | env e =>
      exact heldInv_env h0 N e s (fun he => hs _ (List.mem_cons_self _ _) (by rw [he])) h

/-! ## Device faults and the start signal -/

theorem exec_faulted (K : Kernels) (sch : List Event) :
    ∀ s : DEMDynamicThread, s.pc = PC.faulted → EnvFrame s (exec K sch s) := by
  induction sch with
  | nil => intro s _; exact EnvFrame.refl s
  | cons ev rest ih =>
    intro s hs
    cases ev with
    | dT fault =>
      have e : step K (Event.dT fault) s = s := by simp [step, workerThreadStep, hs]
      simp only [exec, e]
      exact ih s hs
    | env e =>
      have f := envStep_frame e s
      have hp : (envStep e s).pc = PC.faulted := by rw [f.pc (by rw [hs]; rfl), hs]
      exact f.trans (ih _ hp)

theorem envs_kT_frame (E : List EnvEvent) :
    ∀ s : DEMDynamicThread, (∀ e ∈ E, EnvEvent.isKT e = true) →
      (envs E s).pSchedSupport.dynamicStarted = s.pSchedSupport.dynamicStarted ∧
      (envs E s).pSchedSupport.dynamicShouldJoin = s.pSchedSupport.dynamicShouldJoin := by
  induction E with
  | nil => intro s _; exact ⟨rfl, rfl⟩
  | cons e rest ih =>
    intro s hE
    have h1 := ih (envStep e s) (fun x hx => hE x (List.mem_cons_of_mem _ hx))
    have h0 := hE e (List.mem_cons_self _ _)
    simp only [envs]
    rw [h1.1, h1.2]
    cases e <;>
      first
        | exact absurd h0 (by decide)
        | (cases hp : s.pc <;> simp [envStep, wake, goto, hp])

theorem faultStep_spec (K : Kernels) (s : DEMDynamicThread) (hpc : PC.isGPUCall s.pc = true) :
    (workerThreadStep K true s).pc = PC.faulted ∧
    { workerThreadStep K true s with granData := s.granData, numContacts := s.numContacts } =
      goto PC.faulted s := by
  cases hp : s.pc <;> rw [hp] at hpc <;>
    first
      | exact absurd hpc (by decide)
      | simp [workerThreadStep, GPU_CALL, hp, goto]

theorem faulted_fixed (K : Kernels) (fault : Bool) (s : DEMDynamicThread)
    (h : s.pc = PC.faulted) : workerThreadStep K fault s = s := by
  simp [workerThreadStep, h]

theorem wake_driverView (s : DEMDynamicThread) : driverView (wake s) = driverView s := by
  cases hp : s.pc <;> simp [wake, goto, hp, driverView, isUserCallDone]

theorem envStep_driverView (e : EnvEvent) (s t : DEMDynamicThread)
    (h : driverView s = driverView t) : driverView (envStep e s) = driverView (envStep e t) := by
  cases e with
  | notify =>
    simp only [envStep]
    rw [wake_driverView, wake_driverView]
    exact h
  | startThread =>
    simp only [driverView, isUserCallDone, Prod.mk.injEq] at h ⊢
    simp [envStep, startThread, h.1, h.2]
  | shouldJoin =>
    simp only [driverView, isUserCallDone, Prod.mk.injEq] at h ⊢
    simp [envStep, h.1, h.2]
  | kTDrain =>
    simp only [driverView, isUserCallDone, Prod.mk.injEq] at h ⊢
    simp [envStep, h.1, h.2]
  | kTWrite n a b =>
    simp only [driverView, isUserCallDone, Prod.mk.injEq] at h ⊢
    simp [envStep, h.1, h.2]
  | kTFresh =>
    simp only [driverView, isUserCallDone, Prod.mk.injEq] at h ⊢
    simp [envStep, h.1, h.2]
  | kTStamp v =>
    simp only [driverView, isUserCallDone, Prod.mk.injEq] at h ⊢
    simp [envStep, h.1, h.2]

theorem envs_driverView (E : List EnvEvent) :
    ∀ s t : DEMDynamicThread, driverView s = driverView t →
      driverView (envs E s) = driverView (envs E t) := by
  induction E with
  | nil => intro s t h; exact h
  | cons e rest ih =>
    intro s t h
    exact ih _ _ (envStep_driverView e s t h)

/-! ## The contact-event storage -/

theorem vectorResize_length {α : Type} (dflt : α) (v : List α) (n : Nat) :
    (vectorResize dflt v n).length = n := by
  simp only [vectorResize, List.length_append, List.length_take, List.length_replicate]
  omega

theorem cudaMemcpy_length {α : Type} (dst src : List α) (n : Nat) (hs : n ≤ src.length)
    (hd : n ≤ dst.length) : (cudaMemcpy dst src n).length = dst.length := by
  simp only [cudaMemcpy, List.length_append, List.length_take, List.length_drop]
  omega

theorem unpackMyBuffer_lengths (s : DEMDynamicThread)
    (ha : contactArraysAligned s.granData) (hb : bufferHoldsPairs s.granData) :
    (unpackMyBuffer s).granData.idGeometryA.length =
      max s.granData.idGeometryA.length s.granData.nContactPairs_buffer ∧
    contactArraysAligned (unpackMyBuffer s).granData := by
  obtain ⟨h1, h2, h3, h4⟩ := ha
  obtain ⟨b1, b2⟩ := hb
  simp only [unpackMyBuffer, contactEventArraysResize, contactArraysAligned]
  split
  · rename_i hgt
    simp only [gt_iff_lt] at hgt
    dsimp only at hgt ⊢
    simp only [vectorResize_length]
    rw [cudaMemcpy_length _ _ _ b1 (by rw [vectorResize_length]),
      cudaMemcpy_length _ _ _ b2 (by rw [vectorResize_length]), vectorResize_length,
      vectorResize_length]
    exact ⟨by omega, rfl, rfl, rfl, rfl⟩
  · rename_i hle
    simp only [gt_iff_lt, not_lt] at hle
    dsimp only at hle ⊢
    rw [cudaMemcpy_length _ _ _ b1 hle, cudaMemcpy_length _ _ _ b2 (by omega)]
    exact ⟨by omega, h1, h2, h3, h4⟩

theorem unpackMyBuffer_stages (s : DEMDynamicThread) :
    unpackMyBuffer s = unpackCopyB (unpackCopyA (unpackResize (unpackCount s))) := by
  simp only [unpackMyBuffer, unpackCopyB, unpackCopyA, unpackResize, unpackCount]

theorem vectorResize_getElem? {α : Type} (dflt : α) (v : List α) (n i : Nat)
    (hn : v.length ≤ n) (hi : i < v.length) : (vectorResize dflt v n)[i]? = v[i]? := by
  unfold vectorResize
  rw [List.take_of_length_le hn, List.getElem?_append_left hi]

theorem unpackResize_holds (s : DEMDynamicThread) (ha : contactArraysAligned s.granData) :
    (unpackResize (unpackCount s)).numContacts = s.granData.nContactPairs_buffer ∧
    s.granData.nContactPairs_buffer ≤ (unpackResize (unpackCount s)).granData.idGeometryA.length ∧
    s.granData.nContactPairs_buffer ≤ (unpackResize (unpackCount s)).granData.idGeometryB.length ∧
    s.granData.nContactPairs_buffer ≤
      (unpackResize (unpackCount s)).granData.contactForces.length ∧
    s.granData.nContactPairs_buffer ≤
      (unpackResize (unpackCount s)).granData.contactPointGeometryA.length ∧
    s.granData.nContactPairs_buffer ≤
      (unpackResize (unpackCount s)).granData.contactPointGeometryB.length := by
  obtain ⟨h1, h2, h3, h4⟩ := ha
  simp only [unpackResize, unpackCount, contactEventArraysResize]
  split
  · dsimp only
    simp only [vectorResize_length]
    simp
  · rename_i hle
    simp only [gt_iff_lt, not_lt] at hle
    dsimp only at hle ⊢
    exact ⟨rfl, hle, by omega, by omega, by omega, by omega⟩

theorem unpackResize_keeps (s : DEMDynamicThread) (ha : contactArraysAligned s.granData)
    (i : Nat) (hi : i < s.granData.idGeometryA.length) :
    (unpackResize (unpackCount s)).granData.idGeometryA[i]? = s.granData.idGeometryA[i]? ∧
    (unpackResize (unpackCount s)).granData.idGeometryB[i]? = s.granData.idGeometryB[i]? ∧
    (unpackResize (unpackCount s)).granData.contactForces[i]? = s.granData.contactForces[i]? ∧
    (unpackResize (unpackCount s)).granData.contactPointGeometryA[i]? =
      s.granData.contactPointGeometryA[i]? ∧
    (unpackResize (unpackCount s)).granData.contactPointGeometryB[i]? =
      s.granData.contactPointGeometryB[i]? := by
  obtain ⟨h1, h2, h3, h4⟩ := ha
  simp only [unpackResize, unpackCount, contactEventArraysResize]
  split
  · rename_i hgt
    simp only [gt_iff_lt] at hgt
    dsimp only at hgt ⊢
    exact ⟨vectorResize_getElem? _ _ _ _ (by omega) hi,
      vectorResize_getElem? _ _ _ _ (by omega) (by omega),
      vectorResize_getElem? _ _ _ _ (by omega) (by omega),
      vectorResize_getElem? _ _ _ _ (by omega) (by omega),
      vectorResize_getElem? _ _ _ _ (by omega) (by omega)⟩
  · exact ⟨rfl, rfl, rfl, rfl, rfl⟩

theorem unpackCopy_frame (s : DEMDynamicThread) :
    (unpackCopyB (unpackCopyA s)).granData.contactForces = s.granData.contactForces ∧
    (unpackCopyB (unpackCopyA s)).granData.contactPointGeometryA =
      s.granData.contactPointGeometryA ∧
    (unpackCopyB (unpackCopyA s)).granData.contactPointGeometryB =
      s.granData.contactPointGeometryB ∧
    (unpackCopyB (unpackCopyA s)).granData.idGeometryA =
      cudaMemcpy s.granData.idGeometryA s.granData.idGeometryA_buffer s.numContacts ∧
    (unpackCopyB (unpackCopyA s)).granData.idGeometryB =
      cudaMemcpy s.granData.idGeometryB s.granData.idGeometryB_buffer s.numContacts :=
  ⟨rfl, rfl, rfl, rfl, rfl⟩

theorem trackedVectorResize_length {α : Type} (v : List α) (n : Nat) (val : α) :
    (trackedVectorResize v n val).length = n := by
  simp only [trackedVectorResize, List.length_append, List.length_take, List.length_replicate]
  omega

theorem allocateManagedArrays_aligned (s : DEMDynamicThread) (a b c d e : Nat) :
    contactArraysAligned (allocateManagedArrays s a b c d e).granData := by
  simp [allocateManagedArrays, contactArraysAligned, trackedVectorResize_length]

theorem unpackMyBuffer_no_resize (s : DEMDynamicThread)
    (h : s.granData.nContactPairs_buffer ≤ s.granData.idGeometryA.length) :
    unpackMyBuffer s =
      { s with
        numContacts := s.granData.nContactPairs_buffer
        granData := { s.granData with
          idGeometryA := cudaMemcpy s.granData.idGeometryA s.granData.idGeometryA_buffer
            s.granData.nContactPairs_buffer
          idGeometryB := cudaMemcpy s.granData.idGeometryB s.granData.idGeometryB_buffer
            s.granData.nContactPairs_buffer } } := by
  simp only [unpackMyBuffer, gt_iff_lt, not_lt.mpr h, if_false]

theorem unpackAll_lengths (ds : List (Nat × List bodyID_t × List bodyID_t)) :
    ∀ s : DEMDynamicThread, contactArraysAligned s.granData → deliveriesHold ds →
      s.granData.idGeometryA.length ≤ (unpackAll ds s).granData.idGeometryA.length ∧
      contactArraysAligned (unpackAll ds s).granData := by
  induction ds with
  | nil => intro s ha _; exact ⟨le_refl _, ha⟩
  | cons d rest ih =>
    intro s ha hd
    obtain ⟨n, idA, idB⟩ := d
    have hd0 := hd (n, idA, idB) (List.mem_cons_self _ _)
    have hrest : deliveriesHold rest := fun x hx => hd x (List.mem_cons_of_mem _ hx)
    have ha1 : contactArraysAligned (envStep (EnvEvent.kTWrite n idA idB) s).granData := ha
    have hb1 : bufferHoldsPairs (envStep (EnvEvent.kTWrite n idA idB) s).granData := hd0
    obtain ⟨e1, a1⟩ := unpackMyBuffer_lengths _ ha1 hb1
    obtain ⟨e2, a2⟩ := ih _ a1 hrest
    refine ⟨?_, a2⟩
    have e3 : (envStep (EnvEvent.kTWrite n idA idB) s).granData.idGeometryA.length =
        s.granData.idGeometryA.length := rfl
    simp only [unpackAll]
    rw [e1, e3] at e2
    exact le_trans (le_max_left _ _) e2

theorem unpackMyBuffer_numContacts (s : DEMDynamicThread) :
    (unpackMyBuffer s).numContacts = s.granData.nContactPairs_buffer := by
  simp only [unpackMyBuffer, contactEventArraysResize]
  split <;> rfl

theorem unpackMyBuffer_pairs (s : DEMDynamicThread) (hb : bufferHoldsPairs s.granData)
    (i : Nat) (hi : i < s.granData.nContactPairs_buffer) :
    (unpackMyBuffer s).granData.idGeometryA[i]? = s.granData.idGeometryA_buffer[i]? ∧
    (unpackMyBuffer s).granData.idGeometryB[i]? = s.granData.idGeometryB_buffer[i]? := by
  obtain ⟨b1, b2⟩ := hb
  simp only [unpackMyBuffer, contactEventArraysResize]
  split <;> dsimp only <;>
    exact ⟨cudaMemcpy_getElem? _ _ _ _ b1 hi, cudaMemcpy_getElem? _ _ _ _ b2 hi⟩

/-! ## The voxel index -/

theorem shiftCount_lt (w n : Nat) (h : n < w) : shiftCount w n = n :=
  Nat.mod_eq_of_lt h

theorem voxelShl_lt (w x n : Nat) (h : n < w) : voxelShl w x n = (2 ^ n * x) % 2 ^ w := by
  unfold voxelShl
  rw [shiftCount_lt w n h, Nat.shiftLeft_eq, Nat.mul_comm]

theorem voxelShr_lt (w x n : Nat) (h : n < w) : voxelShr w x n = x / 2 ^ n := by
  unfold voxelShr
  rw [shiftCount_lt w n h, Nat.shiftRight_eq_div_pow]

theorem voxelMask_eq (w n : Nat) (h : n < w) : voxelMask w n = 2 ^ n - 1 := by
  unfold voxelMask
  rw [voxelShl_lt w 1 n h, Nat.mul_one]
  have hw : 0 < 2 ^ w := Nat.two_pow_pos _
  have hn : 0 < 2 ^ n := Nat.two_pow_pos _
  have h1 : 2 ^ n < 2 ^ w := Nat.pow_lt_pow_right (by decide) h
  rw [Nat.mod_eq_of_lt h1]
  have h2 : 2 ^ n + 2 ^ w - 1 = (2 ^ n - 1) + 2 ^ w := by omega
  rw [h2, Nat.add_mod_right, Nat.mod_eq_of_lt (by omega)]

theorem voxelIDAdd_zero (w a b c X Y Z : Nat) (hw : a + b + c ≤ w) (hab : a + b < w)
    (hX : X < 2 ^ a) (hY : Y < 2 ^ b) (hZ : Z < 2 ^ c) :
    voxelIDAdd w a b 0 X Y Z = X + 2 ^ a * Y + 2 ^ (a + b) * Z ∧
    X + 2 ^ a * Y + 2 ^ (a + b) * Z < 2 ^ w := by
  have hYa : 2 ^ a * Y + 2 ^ a ≤ 2 ^ (a + b) := by
    rw [pow_add]
    calc 2 ^ a * Y + 2 ^ a = 2 ^ a * (Y + 1) := by ring
      _ ≤ 2 ^ a * 2 ^ b := Nat.mul_le_mul_left _ hY
  have hZa : 2 ^ (a + b) * Z + 2 ^ (a + b) ≤ 2 ^ (a + b + c) := by
    rw [pow_add (2 : Nat) (a + b) c]
    calc 2 ^ (a + b) * Z + 2 ^ (a + b) = 2 ^ (a + b) * (Z + 1) := by ring
      _ ≤ 2 ^ (a + b) * 2 ^ c := Nat.mul_le_mul_left _ hZ
  have hle : 2 ^ (a + b + c) ≤ 2 ^ w := Nat.pow_le_pow_right (by decide) hw
  have htot : X + 2 ^ a * Y + 2 ^ (a + b) * Z < 2 ^ w := by omega
  refine ⟨?_, htot⟩
  unfold voxelIDAdd
  rw [voxelShl_lt w Y a (by omega), voxelShl_lt w Z (a + b) hab]
  simp only [Nat.zero_add]
  have e1 : X % 2 ^ w = X := Nat.mod_eq_of_lt (by omega)
  have e2 : 2 ^ a * Y % 2 ^ w = 2 ^ a * Y := Nat.mod_eq_of_lt (by omega)
  have e3 : 2 ^ (a + b) * Z % 2 ^ w = 2 ^ (a + b) * Z := Nat.mod_eq_of_lt (by omega)
  rw [e1, e2, e3, Nat.mod_eq_of_lt (by omega : X + 2 ^ a * Y < 2 ^ w), Nat.mod_eq_of_lt htot]

theorem toUnsigned_eq_floor (bits : Nat) (x : ℚ) (h0 : 0 ≤ x) (h1 : x < 2 ^ bits) :
    toUnsigned bits x = ⌊x⌋₊ := by
  unfold toUnsigned
  rw [if_pos h0]
  have hf0 : 0 ≤ ⌊x⌋ := Int.floor_nonneg.mpr h0
  have hf1 : ⌊x⌋ < (2 : ℤ) ^ bits := by
    rw [Int.floor_lt]
    push_cast
    exact h1
  rw [Int.emod_eq_of_lt hf0 hf1]
  exact Int.floor_toNat x

theorem axis_encoding (w ws n : Nat) (V l c : ℚ) (hc : 0 ≤ c) (hV : 0 < V) (hl : 0 < l)
    (hn : n ≤ w) (hdom : c < V * 2 ^ n) (hfit : V ≤ l * 2 ^ ws) :
    voxelNum w V c < 2 ^ n ∧
    encodesWithin V l c (voxelNum w V c) (subVoxelPos w ws V l c) := by
  have h0 : 0 ≤ c / V := div_nonneg hc hV.le
  have hlt : c / V < 2 ^ n := by
    rw [div_lt_iff₀ hV]
    linarith [mul_comm V ((2 : ℚ) ^ n)]
  have hnw : (2 : ℚ) ^ n ≤ 2 ^ w := pow_le_pow_right₀ (by norm_num) hn
  have ev : voxelNum w V c = ⌊c / V⌋₊ := toUnsigned_eq_floor w _ h0 (lt_of_lt_of_le hlt hnw)
  have h1 : ((⌊c / V⌋₊ : Nat) : ℚ) ≤ c / V := Nat.floor_le h0
  have h2 : c / V < ((⌊c / V⌋₊ : Nat) : ℚ) + 1 := Nat.lt_floor_add_one _
  have h1a : ((⌊c / V⌋₊ : Nat) : ℚ) * V ≤ c := (le_div_iff₀ hV).mp h1
  have h2a : c < (((⌊c / V⌋₊ : Nat) : ℚ) + 1) * V := (div_lt_iff₀ hV).mp h2
  have hr0 : 0 ≤ (c - ((⌊c / V⌋₊ : Nat) : ℚ) * V) / l := div_nonneg (by linarith) hl.le
  have hr1 : (c - ((⌊c / V⌋₊ : Nat) : ℚ) * V) / l < 2 ^ ws := by
    rw [div_lt_iff₀ hl]
    linarith [mul_comm l ((2 : ℚ) ^ ws)]
  have es : subVoxelPos w ws V l c = ⌊(c - ((⌊c / V⌋₊ : Nat) : ℚ) * V) / l⌋₊ := by
    unfold subVoxelPos
    rw [ev]
    exact toUnsigned_eq_floor ws _ hr0 hr1
  have h3 : ((⌊(c - ((⌊c / V⌋₊ : Nat) : ℚ) * V) / l⌋₊ : Nat) : ℚ) ≤
      (c - ((⌊c / V⌋₊ : Nat) : ℚ) * V) / l := Nat.floor_le hr0
  have h4 : (c - ((⌊c / V⌋₊ : Nat) : ℚ) * V) / l <
      ((⌊(c - ((⌊c / V⌋₊ : Nat) : ℚ) * V) / l⌋₊ : Nat) : ℚ) + 1 := Nat.lt_floor_add_one _
  have h3a := (le_div_iff₀ hl).mp h3
  have h4a := (div_lt_iff₀ hl).mp h4
  refine ⟨?_, ?_⟩
  · rw [ev]
    exact (Nat.floor_lt h0).mpr (by exact_mod_cast hlt)
  · rw [es, ev]
    unfold encodesWithin rebuiltCoord
    refine ⟨rfl, rfl, by linarith, by linarith, by linarith⟩

theorem voxelIndex_round_trip (w nvXp2 nvYp2 nvZp2 X Y Z : Nat)
    (hw : nvXp2 + nvYp2 + nvZp2 ≤ w) (hxy : nvXp2 + nvYp2 < w)
    (hX : X < 2 ^ nvXp2) (hY : Y < 2 ^ nvYp2) (hZ : Z < 2 ^ nvZp2) :
    voxelIDAdd w nvXp2 nvYp2 0 X Y Z = X + (Y <<< nvXp2) + (Z <<< (nvXp2 + nvYp2)) ∧
    voxelIDX w nvXp2 (voxelIDAdd w nvXp2 nvYp2 0 X Y Z) = X ∧
    voxelIDY w nvXp2 nvYp2 (voxelIDAdd w nvXp2 nvYp2 0 X Y Z) = Y ∧
    voxelIDZ w nvXp2 nvYp2 (voxelIDAdd w nvXp2 nvYp2 0 X Y Z) = Z := by
  obtain ⟨e, _⟩ := voxelIDAdd_zero w nvXp2 nvYp2 nvZp2 X Y Z hw hxy hX hY hZ
  have ha : 0 < 2 ^ nvXp2 := Nat.two_pow_pos _
  have hab : 0 < 2 ^ (nvXp2 + nvYp2) := Nat.two_pow_pos _
  rw [e]
  refine ⟨?_, ?_, ?_, ?_⟩
  · simp only [Nat.shiftLeft_eq, Nat.mul_comm]
  · unfold voxelIDX
    rw [voxelMask_eq w nvXp2 (by omega), Nat.and_pow_two_sub_one_eq_mod]
    rw [pow_add, Nat.mul_assoc, Nat.add_assoc, ← Nat.mul_add, Nat.add_mul_mod_self_left,
      Nat.mod_eq_of_lt hX]
  · unfold voxelIDY
    rw [voxelMask_eq w nvYp2 (by omega), Nat.and_pow_two_sub_one_eq_mod,
      voxelShr_lt w _ nvXp2 (by omega)]
    rw [pow_add, Nat.mul_assoc, Nat.add_assoc, ← Nat.mul_add, Nat.add_mul_div_left _ _ ha,
      Nat.div_eq_of_lt hX, Nat.zero_add, Nat.add_mul_mod_self_left, Nat.mod_eq_of_lt hY]
  · unfold voxelIDZ
    rw [voxelShr_lt w _ _ hxy, Nat.add_mul_div_left _ _ hab]
    have hlt : X + 2 ^ nvXp2 * Y < 2 ^ (nvXp2 + nvYp2) := by
      have : 2 ^ nvXp2 * (Y + 1) ≤ 2 ^ nvXp2 * 2 ^ nvYp2 := Nat.mul_le_mul_left _ hY
      rw [pow_add]
      have h2 : 2 ^ nvXp2 * (Y + 1) = 2 ^ nvXp2 * Y + 2 ^ nvXp2 := by ring
      omega
    rw [Nat.div_eq_of_lt hlt, Nat.zero_add]

/-! ## Scene loading -/

theorem componentsBefore_zero {α : Type} (L : List (List α)) : componentsBefore L 0 = 0 := by
  simp [componentsBefore]

theorem componentsBefore_cons_succ {α : Type} (e : List α) (L : List (List α)) (t : Nat) :
    componentsBefore (e :: L) (t + 1) = e.length + componentsBefore L t := by
  simp [componentsBefore]

theorem componentsBefore_nil {α : Type} (t : Nat) :
    componentsBefore ([] : List (List α)) t = 0 := by
  simp [componentsBefore]

theorem setAt_lt {α : Type} (vec : List α) (i : Nat) (v : α) (h : i < vec.length) :
    setAt vec i v = some (vec.set i v) := by
  simp [setAt, h]

theorem fillFrom_spec {α : Type} (vals : List α) : ∀ (vec : List α) (k : Nat),
    k + vals.length ≤ vec.length →
    ∃ vec1, fillFrom vals vec k = some (vec1, k + vals.length) ∧ vec1.length = vec.length ∧
      (∀ j, j < vals.length → vec1[k + j]? = vals[j]?) ∧
      (∀ idx, idx < k → vec1[idx]? = vec[idx]?) := by
  induction vals with
  | nil =>
    intro vec k _
    exact ⟨vec, rfl, rfl, fun j hj => absurd hj (Nat.not_lt_zero _), fun _ _ => rfl⟩
  | cons v vs ih =>
    intro vec k h
    simp only [List.length_cons] at h
    obtain ⟨vec1, e, hl, hc, hf⟩ := ih (vec.set k v) (k + 1) (by simp; omega)
    refine ⟨vec1, ?_, ?_, ?_, ?_⟩
    · simp only [fillFrom, setAt_lt vec k v (by omega), Option.some_bind, e, List.length_cons]
      rw [show k + 1 + vs.length = k + (vs.length + 1) by omega]
    · simpa using hl
    · intro j hj
      cases j with
      | zero =>
        rw [Nat.add_zero, hf k (by omega)]
        simp [List.getElem?_set]
        omega
      | succ j =>
        have := hc j (by simpa using hj)
        rw [show k + (j + 1) = k + 1 + j by omega]
        simpa using this
    · intro idx hidx
      rw [hf idx (by omega)]
      rw [List.getElem?_set_ne (by omega)]

theorem loadRadii_spec (L : List (List ℚ)) : ∀ (vec : List ℚ) (k : Nat) (ps : List Nat),
    k + componentsBefore L L.length ≤ vec.length →
    ∃ vec1, loadRadii L vec k ps = some (vec1, k + componentsBefore L L.length,
        ps ++ (List.range L.length).map (fun t => (k + componentsBefore L (t + 1)) % 2 ^ 32)) ∧
      vec1.length = vec.length ∧
      (∀ t R, L[t]? = some R → ∀ j, j < R.length → vec1[k + componentsBefore L t + j]? = R[j]?) ∧
      (∀ idx, idx < k → vec1[idx]? = vec[idx]?) := by
  induction L with
  | nil =>
    intro vec k ps _
    refine ⟨vec, ?_, rfl, ?_, fun _ _ => rfl⟩
    · simp [loadRadii, componentsBefore_nil]
    · intro t R h; simp at h
  | cons elem rest ih =>
    intro vec k ps h
    simp only [List.length_cons, componentsBefore_cons_succ] at h
    obtain ⟨v1, e1, l1, c1, f1⟩ := fillFrom_spec elem vec k (by omega)
    obtain ⟨v2, e2, l2, c2, f2⟩ := ih v1 (k + elem.length) (ps ++ [(k + elem.length) % 2 ^ 32])
      (by omega)
    refine ⟨v2, ?_, by omega, ?_, ?_⟩
    · simp only [loadRadii, e1, Option.some_bind, e2, List.length_cons,
        componentsBefore_cons_succ, List.range_succ_eq_map, List.map_cons, List.map_map,
        List.append_assoc, List.singleton_append, componentsBefore_zero, Nat.add_zero]
      simp only [Function.comp_def, componentsBefore_cons_succ, Nat.add_assoc]
    · intro t R ht j hj
      cases t with
      | zero =>
        simp only [List.getElem?_cons_zero, Option.some.injEq] at ht
        subst ht
        rw [componentsBefore_zero, Nat.add_zero, f2 _ (by omega)]
        exact c1 j hj
      | succ t =>
        simp only [List.getElem?_cons_succ] at ht
        rw [componentsBefore_cons_succ, ← Nat.add_assoc]
        exact c2 t R ht j hj
    · intro idx hidx
      rw [f2 idx (by omega), f1 idx hidx]

theorem fillRelPos_spec (vals : List float3) : ∀ (X Y Z : List ℚ) (k : Nat),
    k + vals.length ≤ X.length → k + vals.length ≤ Y.length → k + vals.length ≤ Z.length →
    ∃ X1 Y1 Z1, fillRelPos vals X Y Z k = some (X1, Y1, Z1, k + vals.length) ∧
      X1.length = X.length ∧ Y1.length = Y.length ∧ Z1.length = Z.length ∧
      (∀ j loc, vals[j]? = some loc →
        X1[k + j]? = some loc.1 ∧ Y1[k + j]? = some loc.2.1 ∧ Z1[k + j]? = some loc.2.2) ∧
      (∀ idx, idx < k → X1[idx]? = X[idx]? ∧ Y1[idx]? = Y[idx]? ∧ Z1[idx]? = Z[idx]?) := by
  induction vals with
  | nil =>
    intro X Y Z k _ _ _
    refine ⟨X, Y, Z, rfl, rfl, rfl, rfl, ?_, fun _ _ => ⟨rfl, rfl, rfl⟩⟩
    intro j loc h; simp at h
  | cons v vs ih =>
    intro X Y Z k hX hY hZ
    simp only [List.length_cons] at hX hY hZ
    obtain ⟨X1, Y1, Z1, e, lX, lY, lZ, hc, hf⟩ :=
      ih (X.set k v.1) (Y.set k v.2.1) (Z.set k v.2.2) (k + 1)
        (by simp; omega) (by simp; omega) (by simp; omega)
    refine ⟨X1, Y1, Z1, ?_, by simpa using lX, by simpa using lY, by simpa using lZ, ?_, ?_⟩
    · simp only [fillRelPos, setAt_lt X k _ (by omega),
        setAt_lt Y k _ (by omega), setAt_lt Z k _ (by omega), Option.some_bind, e,
        List.length_cons]
      rw [show k + 1 + vs.length = k + (vs.length + 1) by omega]
    · intro j loc hj
      cases j with
      | zero =>
        simp only [List.getElem?_cons_zero, Option.some.injEq] at hj
        subst hj
        obtain ⟨a, b, c⟩ := hf k (by omega)
        rw [Nat.add_zero, a, b, c]
        simp only [List.getElem?_set_self (show k < X.length by omega),
          List.getElem?_set_self (show k < Y.length by omega),
          List.getElem?_set_self (show k < Z.length by omega), and_self]
      | succ j =>
        simp only [List.getElem?_cons_succ] at hj
        have := hc j loc hj
        rw [show k + (j + 1) = k + 1 + j by omega]
        exact this
    · intro idx hidx
      obtain ⟨a, b, c⟩ := hf idx (by omega)
      rw [a, b, c, List.getElem?_set_ne (by omega), List.getElem?_set_ne (by omega),
        List.getElem?_set_ne (by omega)]
      exact ⟨rfl, rfl, rfl⟩

theorem loadRelPos_spec (L : List (List float3)) : ∀ (X Y Z : List ℚ) (k : Nat),
    k + componentsBefore L L.length ≤ X.length → k + componentsBefore L L.length ≤ Y.length →
    k + componentsBefore L L.length ≤ Z.length →
    ∃ X1 Y1 Z1, loadRelPos L X Y Z k =
        some (X1, Y1, Z1, k + componentsBefore L L.length) ∧
      X1.length = X.length ∧ Y1.length = Y.length ∧ Z1.length = Z.length ∧
      (∀ t R, L[t]? = some R → ∀ j loc, R[j]? = some loc →
        X1[k + componentsBefore L t + j]? = some loc.1 ∧
        Y1[k + componentsBefore L t + j]? = some loc.2.1 ∧
        Z1[k + componentsBefore L t + j]? = some loc.2.2) ∧
      (∀ idx, idx < k → X1[idx]? = X[idx]? ∧ Y1[idx]? = Y[idx]? ∧ Z1[idx]? = Z[idx]?) := by
  induction L with
  | nil =>
    intro X Y Z k _ _ _
    refine ⟨X, Y, Z, ?_, rfl, rfl, rfl, ?_, fun _ _ => ⟨rfl, rfl, rfl⟩⟩
    · simp [loadRelPos, componentsBefore_nil]
    · intro t R h; simp at h
  | cons elem rest ih =>
    intro X Y Z k hX hY hZ
    simp only [List.length_cons, componentsBefore_cons_succ] at hX hY hZ
    obtain ⟨X1, Y1, Z1, e1, lX1, lY1, lZ1, c1, f1⟩ :=
      fillRelPos_spec elem X Y Z k (by omega) (by omega) (by omega)
    obtain ⟨X2, Y2, Z2, e2, lX2, lY2, lZ2, c2, f2⟩ :=
      ih X1 Y1 Z1 (k + elem.length) (by omega) (by omega) (by omega)
    refine ⟨X2, Y2, Z2, ?_, by omega, by omega, by omega, ?_, ?_⟩
    · simp only [loadRelPos, e1, Option.some_bind, e2, List.length_cons,
        componentsBefore_cons_succ, Nat.add_assoc]
    · intro t R ht j loc hj
      cases t with
      | zero =>
        simp only [List.getElem?_cons_zero, Option.some.injEq] at ht
        subst ht
        have hjl : j < elem.length := by
          rcases Nat.lt_or_ge j elem.length with h | h
          · exact h
          · rw [List.getElem?_eq_none h] at hj; exact absurd hj (by simp)
        obtain ⟨a, b, c⟩ := f2 (k + j) (by omega)
        rw [componentsBefore_zero, Nat.add_zero, a, b, c]
        exact c1 j loc hj
      | succ t =>
        simp only [List.getElem?_cons_succ] at ht
        rw [componentsBefore_cons_succ, ← Nat.add_assoc]
        exact c2 t R ht j loc hj
    · intro idx hidx
      obtain ⟨a, b, c⟩ := f2 idx (by omega)
      obtain ⟨a1, b1, c1⟩ := f1 idx hidx
      rw [a, b, c, a1, b1, c1]
      exact ⟨rfl, rfl, rfl⟩

theorem prescans_getElem? {α : Type} (L : List (List α)) (t : Nat) (ht : t < L.length) :
    (([0] ++ (List.range L.length).map
        (fun t => (0 + componentsBefore L (t + 1)) % 2 ^ 32)).dropLast)[t]? =
      some (componentsBefore L t % 2 ^ 32) := by
  rw [List.dropLast_eq_take, List.getElem?_take_of_lt (by simp; omega)]
  cases t with
  | zero => simp [componentsBefore_zero]
  | succ t =>
    simp only [List.singleton_append, List.getElem?_cons_succ, List.getElem?_map]
    rw [List.getElem?_range (by omega)]
    simp

theorem forRange_some {σ : Type} (body : Nat → σ → Option σ) (Inv : Nat → σ → Prop) :
    ∀ (m i : Nat) (st : σ), Inv i st →
    (∀ j s, i ≤ j → j < i + m → Inv j s → ∃ s1, body j s = some s1 ∧ Inv (j + 1) s1) →
    ∃ st1, forRange body i m st = some st1 ∧ Inv (i + m) st1 := by
  intro m
  induction m with
  | zero => intro i st h0 _; exact ⟨st, rfl, h0⟩
  | succ m ih =>
    intro i st h0 hstep
    obtain ⟨s1, e1, h1⟩ := hstep i st (le_refl _) (by omega) h0
    obtain ⟨s2, e2, h2⟩ := ih (i + 1) s1 h1 (fun j s hj hj2 hI => hstep j s (by omega) (by omega) hI)
    refine ⟨s2, ?_, ?_⟩
    · simp only [forRange, e1, Option.some_bind, e2]
    · rw [show i + (m + 1) = i + 1 + m by omega]; exact h2

theorem fillSphere_loop (mat_ids prescans : List Nat) (t i P : Nat) (a0 : SphereOffsets) (m : Nat)
    (hP : prescans[t]? = some P) (hm : m ≤ mat_ids.length)
    (h1 : a0.k + m ≤ a0.materialTupleOffset.length)
    (h2 : a0.k + m ≤ a0.clumpComponentOffset.length)
    (h3 : a0.k + m ≤ a0.ownerClumpBody.length) :
    ∃ a, forRange (fillSphere mat_ids prescans t i) 0 m a0 = some a ∧
      a.k = a0.k + m ∧
      a.materialTupleOffset.length = a0.materialTupleOffset.length ∧
      a.clumpComponentOffset.length = a0.clumpComponentOffset.length ∧
      a.ownerClumpBody.length = a0.ownerClumpBody.length ∧
      (∀ j, j < m → a.materialTupleOffset[a0.k + j]? = mat_ids[j]? ∧
        a.clumpComponentOffset[a0.k + j]? = some (P + j) ∧
        a.ownerClumpBody[a0.k + j]? = some i) ∧
      (∀ idx, idx < a0.k → a.materialTupleOffset[idx]? = a0.materialTupleOffset[idx]? ∧
        a.clumpComponentOffset[idx]? = a0.clumpComponentOffset[idx]? ∧
        a.ownerClumpBody[idx]? = a0.ownerClumpBody[idx]?) := by
  have key := forRange_some (fillSphere mat_ids prescans t i)
    (fun j a => a.k = a0.k + j ∧
      a.materialTupleOffset.length = a0.materialTupleOffset.length ∧
      a.clumpComponentOffset.length = a0.clumpComponentOffset.length ∧
      a.ownerClumpBody.length = a0.ownerClumpBody.length ∧
      (∀ j1, j1 < j → a.materialTupleOffset[a0.k + j1]? = mat_ids[j1]? ∧
        a.clumpComponentOffset[a0.k + j1]? = some (P + j1) ∧
        a.ownerClumpBody[a0.k + j1]? = some i) ∧
      (∀ idx, idx < a0.k → a.materialTupleOffset[idx]? = a0.materialTupleOffset[idx]? ∧
        a.clumpComponentOffset[idx]? = a0.clumpComponentOffset[idx]? ∧
        a.ownerClumpBody[idx]? = a0.ownerClumpBody[idx]?))
    m 0 a0
    ⟨rfl, rfl, rfl, rfl, fun j1 h => absurd h (Nat.not_lt_zero _), fun _ _ => ⟨rfl, rfl, rfl⟩⟩
    (by
      intro j a _ hj ⟨hk, l1, l2, l3, hc, hf⟩
      have hj1 : j < mat_ids.length := by omega
      refine ⟨{ materialTupleOffset := a.materialTupleOffset.set a.k mat_ids[j]
                clumpComponentOffset := a.clumpComponentOffset.set a.k (P + j)
                ownerClumpBody := a.ownerClumpBody.set a.k i
                k := a.k + 1 }, ?_, ?_, ?_, ?_, ?_, ?_, ?_⟩
      · simp only [fillSphere, List.getElem?_eq_getElem hj1, hP, Option.pure_def,
          Option.bind_eq_bind, Option.some_bind,
          setAt_lt a.materialTupleOffset a.k _ (by omega),
          setAt_lt a.clumpComponentOffset a.k _ (by omega),
          setAt_lt a.ownerClumpBody a.k _ (by omega)]
      · show a.k + 1 = a0.k + (j + 1)
        omega
      · simpa using l1
      · simpa using l2
      · simpa using l3
      · intro j1 hjj
        show (a.materialTupleOffset.set a.k mat_ids[j])[a0.k + j1]? = _ ∧
          (a.clumpComponentOffset.set a.k (P + j))[a0.k + j1]? = _ ∧
          (a.ownerClumpBody.set a.k i)[a0.k + j1]? = _
        rcases Nat.lt_or_ge j1 j with hlt | hge
        · rw [List.getElem?_set_ne (by omega), List.getElem?_set_ne (by omega),
            List.getElem?_set_ne (by omega)]
          exact hc j1 hlt
        · have e : j1 = j := by omega
          rw [e, ← hk, List.getElem?_set_self (by omega), List.getElem?_set_self (by omega),
            List.getElem?_set_self (by omega), List.getElem?_eq_getElem hj1]
          exact ⟨rfl, rfl, rfl⟩
      · intro idx hidx
        show (a.materialTupleOffset.set a.k mat_ids[j])[idx]? = _ ∧
          (a.clumpComponentOffset.set a.k (P + j))[idx]? = _ ∧
          (a.ownerClumpBody.set a.k i)[idx]? = _
        rw [List.getElem?_set_ne (by omega), List.getElem?_set_ne (by omega),
          List.getElem?_set_ne (by omega)]
        exact hf idx hidx)
  obtain ⟨a, e, hk, l1, l2, l3, hc, hf⟩ := key
  simp only [Nat.zero_add] at hk hc
  exact ⟨a, e, hk, l1, l2, l3, hc, hf⟩

theorem loadClumpPosition_spec (w ws : Nat) (p : DEMSimParams) (i : Nat) (c : float3) (d : DEMDataDT)
    (h1 : i < d.locX.length) (h2 : i < d.locY.length) (h3 : i < d.locZ.length)
    (h4 : i < d.voxelID.length) :
    ∃ d1, loadClumpPosition w ws p i c d = some d1 ∧
      clumpArrayLengths d1 = clumpArrayLengths d ∧
      d1.materialTupleOffset = d.materialTupleOffset ∧
      d1.clumpComponentOffset = d.clumpComponentOffset ∧
      d1.ownerClumpBody = d.ownerClumpBody := by
  simp only [loadClumpPosition, setAt_lt d.locX i _ h1, setAt_lt d.locY i _ h2,
    setAt_lt d.locZ i _ h3, List.getElem?_eq_getElem h4, setAt_lt d.voxelID i _ h4,
    Option.pure_def, Option.bind_eq_bind, Option.some_bind]
  refine ⟨_, rfl, ?_, rfl, rfl, rfl⟩
  simp [clumpArrayLengths]

theorem loadClumpPosition_entries (w ws : Nat) (p : DEMSimParams) (i : Nat) (c : float3)
    (d : DEMDataDT) (old : Nat) (h1 : i < d.locX.length) (h2 : i < d.locY.length)
    (h3 : i < d.locZ.length) (h4 : d.voxelID[i]? = some old) :
    ∃ d1, loadClumpPosition w ws p i c d = some d1 ∧
      d1.voxelID[i]? = some (voxelIDAdd w p.nvXp2 p.nvYp2 old (voxelNum w p.voxelSize c.1)
        (voxelNum w p.voxelSize c.2.1) (voxelNum w p.voxelSize c.2.2)) ∧
      d1.locX[i]? = some (subVoxelPos w ws p.voxelSize p.l c.1) ∧
      d1.locY[i]? = some (subVoxelPos w ws p.voxelSize p.l c.2.1) ∧
      d1.locZ[i]? = some (subVoxelPos w ws p.voxelSize p.l c.2.2) := by
  have h5 : i < d.voxelID.length := by
    rcases Nat.lt_or_ge i d.voxelID.length with h | h
    · exact h
    · rw [List.getElem?_eq_none h] at h4
      exact absurd h4 (by simp)
  simp only [loadClumpPosition, setAt_lt d.locX i _ h1, setAt_lt d.locY i _ h2,
    setAt_lt d.locZ i _ h3, h4, setAt_lt d.voxelID i _ h5,
    Option.pure_def, Option.bind_eq_bind, Option.some_bind]
  refine ⟨_, rfl, ?_, ?_, ?_, ?_⟩ <;> simp [h1, h2, h3, h5]

theorem loadClumpVelocity_spec (p : DEMSimParams) (inp : PopulateInputs) (i : Nat)
    (d : DEMDataDT) (h0 : i < inp.input_clump_vel.length) (h1 : i < d.hvX.length)
    (h2 : i < d.hvY.length) (h3 : i < d.hvZ.length) (h4 : i < inp.input_clump_family.length)
    (h5 : i < d.familyID.length) :
    ∃ d1, loadClumpVelocity p inp i d = some d1 ∧
      clumpArrayLengths d1 = clumpArrayLengths d ∧
      d1.materialTupleOffset = d.materialTupleOffset ∧
      d1.clumpComponentOffset = d.clumpComponentOffset ∧
      d1.ownerClumpBody = d.ownerClumpBody := by
  simp only [loadClumpVelocity, List.getElem?_eq_getElem h0, List.getElem?_eq_getElem h4,
    setAt_lt d.hvX i _ h1, setAt_lt d.hvY i _ h2, setAt_lt d.hvZ i _ h3,
    setAt_lt d.familyID i _ h5, Option.pure_def, Option.bind_eq_bind, Option.some_bind]
  refine ⟨_, rfl, ?_, rfl, rfl, rfl⟩
  simp [clumpArrayLengths]

theorem loadClumpSpheres_spec (inp : PopulateInputs) (prescans : List Nat) (i t k : Nat)
    (d : DEMDataDT) (R : List ℚ) (Lc : List float3) (M : List Nat) (P : Nat)
    (hR : inp.clumps_sp_radii_types[t]? = some R)
    (hL : inp.clumps_sp_location_types[t]? = some Lc)
    (hM : inp.input_clumps_sp_mat_ids[t]? = some M)
    (hRM : R.length ≤ M.length) (hP : prescans[t]? = some P)
    (h1 : k + R.length ≤ d.materialTupleOffset.length)
    (h2 : k + R.length ≤ d.clumpComponentOffset.length)
    (h3 : k + R.length ≤ d.ownerClumpBody.length) :
    ∃ r, loadClumpSpheres inp prescans i t k d = some r ∧ r.1 = k + R.length ∧
      clumpArrayLengths r.2 = clumpArrayLengths d ∧
      (∀ j, j < R.length → r.2.materialTupleOffset[k + j]? = M[j]? ∧
        r.2.clumpComponentOffset[k + j]? = some (P + j) ∧
        r.2.ownerClumpBody[k + j]? = some i) ∧
      (∀ idx, idx < k → r.2.materialTupleOffset[idx]? = d.materialTupleOffset[idx]? ∧
        r.2.clumpComponentOffset[idx]? = d.clumpComponentOffset[idx]? ∧
        r.2.ownerClumpBody[idx]? = d.ownerClumpBody[idx]?) := by
  obtain ⟨a, e, hk, l1, l2, l3, hc, hf⟩ := fillSphere_loop M prescans t i P
    { materialTupleOffset := d.materialTupleOffset
      clumpComponentOffset := d.clumpComponentOffset
      ownerClumpBody := d.ownerClumpBody, k := k } R.length hP hRM h1 h2 h3
  simp only [loadClumpSpheres, hR, hL, hM, e, Option.pure_def, Option.bind_eq_bind,
    Option.some_bind]
  refine ⟨_, rfl, hk, ?_, hc, hf⟩
  simp only [clumpArrayLengths, l1, l2, l3]

theorem loadClump_spec (w ws : Nat) (inp : PopulateInputs) (prescans : List Nat) (i : Nat)
    (st : Nat × DEMDynamicThread) (t : Nat) (R : List ℚ) (Lc : List float3) (M : List Nat)
    (P n : Nat)
    (ht : inp.input_clump_types[i]? = some t)
    (hR : inp.clumps_sp_radii_types[t]? = some R)
    (hL : inp.clumps_sp_location_types[t]? = some Lc)
    (hM : inp.input_clumps_sp_mat_ids[t]? = some M)
    (hRM : R.length ≤ M.length) (hP : prescans[t]? = some P)
    (hi : i < n) (hxyz : n ≤ inp.input_clump_xyz.length)
    (hvel : n ≤ inp.input_clump_vel.length) (hfam : n ≤ inp.input_clump_family.length)
    (hn : ∀ x ∈ (clumpArrayLengths st.2.granData).take 9, n ≤ x)
    (hs : ∀ x ∈ (clumpArrayLengths st.2.granData).drop 9, st.1 + R.length ≤ x) :
    ∃ st1, loadClump w ws inp prescans i st = some st1 ∧ st1.1 = st.1 + R.length ∧
      st1.2.granTemplates = st.2.granTemplates ∧ st1.2.simParams = st.2.simParams ∧
      clumpArrayLengths st1.2.granData = clumpArrayLengths st.2.granData ∧
      (∀ j, j < R.length → st1.2.granData.materialTupleOffset[st.1 + j]? = M[j]? ∧
        st1.2.granData.clumpComponentOffset[st.1 + j]? = some (P + j) ∧
        st1.2.granData.ownerClumpBody[st.1 + j]? = some i) ∧
      (∀ idx, idx < st.1 →
        st1.2.granData.materialTupleOffset[idx]? = st.2.granData.materialTupleOffset[idx]? ∧
        st1.2.granData.clumpComponentOffset[idx]? = st.2.granData.clumpComponentOffset[idx]? ∧
        st1.2.granData.ownerClumpBody[idx]? = st.2.granData.ownerClumpBody[idx]?) := by
  simp only [clumpArrayLengths, List.take_succ_cons, List.take_zero, List.mem_cons,
    List.mem_singleton, forall_eq_or_imp, forall_eq, List.drop_succ_cons, List.drop_zero,
    List.not_mem_nil, false_implies, implies_true, and_true] at hn hs
  obtain ⟨n1, n2, n3, n4, n5, n6, n7, n8, n9⟩ := hn
  obtain ⟨s1, s2, s3⟩ := hs
  obtain ⟨r, er, hk, lr, hc, hf⟩ := loadClumpSpheres_spec inp prescans i t st.1
    { st.2.granData with
      inertiaPropOffsets := st.2.granData.inertiaPropOffsets.set i t } R Lc M P hR hL hM hRM hP
    s1 s2 s3
  have lr1 : clumpArrayLengths r.2 = clumpArrayLengths st.2.granData := by
    rw [lr]; simp [clumpArrayLengths]
  have lr2 := lr1
  simp only [clumpArrayLengths, List.cons.injEq, and_true] at lr2
  obtain ⟨_, q2, q3, q4, q5, q6, q7, q8, q9, _, _, _⟩ := lr2
  have hxi : i < inp.input_clump_xyz.length := by omega
  obtain ⟨d2, e2, l2, a2, b2, c2⟩ := loadClumpPosition_spec w ws st.2.simParams i
    (inp.input_clump_xyz[i].1 - st.2.simParams.LBFX,
      inp.input_clump_xyz[i].2.1 - st.2.simParams.LBFY,
      inp.input_clump_xyz[i].2.2 - st.2.simParams.LBFZ) r.2
    (by omega) (by omega) (by omega) (by omega)
  have l2a := l2.trans lr1
  have l2b := l2a
  simp only [clumpArrayLengths, List.cons.injEq, and_true] at l2b
  obtain ⟨_, _, _, _, _, p6, p7, p8, p9, _, _, _⟩ := l2b
  obtain ⟨d3, e3, l3, a3, b3, c3⟩ := loadClumpVelocity_spec st.2.simParams inp i d2
    (by omega) (by omega) (by omega) (by omega) (by omega) (by omega)
  refine ⟨(r.1, { st.2 with granData := d3 }), ?_, hk, rfl, rfl, l3.trans l2a, ?_, ?_⟩
  · simp only [loadClump, ht, List.getElem?_eq_getElem hxi,
      setAt_lt st.2.granData.inertiaPropOffsets i t (by omega), er, e2, e3, Option.pure_def,
      Option.bind_eq_bind, Option.some_bind]
  · intro j hj
    show d3.materialTupleOffset[st.1 + j]? = _ ∧ d3.clumpComponentOffset[st.1 + j]? = _ ∧
      d3.ownerClumpBody[st.1 + j]? = _
    rw [a3, b3, c3, a2, b2, c2]
    exact hc j hj
  · intro idx hidx
    show d3.materialTupleOffset[idx]? = _ ∧ d3.clumpComponentOffset[idx]? = _ ∧
      d3.ownerClumpBody[idx]? = _
    rw [a3, b3, c3, a2, b2, c2]
    exact hf idx hidx

theorem spheresBefore_succ (inp : PopulateInputs) (i : Nat) :
    spheresBefore inp (i + 1) = spheresBefore inp i + clumpSize inp i := by
  simp [spheresBefore, List.range_succ]

theorem spheresBefore_mono (inp : PopulateInputs) {a b : Nat} (h : a ≤ b) :
    spheresBefore inp a ≤ spheresBefore inp b := by
  induction h with
  | refl => exact le_refl _
  | step _ ih => rw [spheresBefore_succ]; omega

theorem componentsBefore_succ_le {α : Type} (L : List (List α)) : ∀ (t : Nat) (R : List α),
    L[t]? = some R → componentsBefore L t + R.length ≤ componentsBefore L L.length := by
  induction L with
  | nil => intro t R h; simp at h
  | cons e rest ih =>
    intro t R h
    cases t with
    | zero =>
      simp only [List.getElem?_cons_zero, Option.some.injEq] at h
      subst h
      rw [componentsBefore_zero, List.length_cons, componentsBefore_cons_succ]
      omega
    | succ t =>
      simp only [List.getElem?_cons_succ] at h
      have := ih t R h
      rw [componentsBefore_cons_succ, List.length_cons, componentsBefore_cons_succ]
      omega

theorem componentsBefore_congr {α β : Type} (L : List (List α)) (L2 : List (List β))
    (h : L.map List.length = L2.map List.length) (t : Nat) :
    componentsBefore L t = componentsBefore L2 t := by
  unfold componentsBefore
  rw [List.map_take, List.map_take, h]

theorem getElem?_length_congr {α β : Type} (L : List (List α)) (L2 : List (List β))
    (h : L.map List.length = L2.map List.length) (t : Nat) (R : List β) (hR : L2[t]? = some R) :
    ∃ R1, L[t]? = some R1 ∧ R1.length = R.length := by
  have h1 : (L.map List.length)[t]? = (L2.map List.length)[t]? := by rw [h]
  simp only [List.getElem?_map, hR, Option.map_some'] at h1
  cases hL : L[t]? with
  | none => rw [hL] at h1; simp at h1
  | some R1 =>
    rw [hL] at h1
    simp only [Option.map_some', Option.some.injEq] at h1
    exact ⟨R1, rfl, h1⟩

theorem loadMaterial_loop (inp : PopulateInputs) (g : DEMTemplate)
    (h1 : inp.mat_k.length ≤ inp.mat_g.length) (h2 : inp.mat_k.length ≤ inp.mat_CoR.length)
    (h3 : inp.mat_k.length ≤ g.EProxy.length) (h4 : inp.mat_k.length ≤ g.GProxy.length)
    (h5 : inp.mat_k.length ≤ g.CoRProxy.length) :
    ∃ g1, forRange (loadMaterial inp) 0 inp.mat_k.length g = some g1 ∧
      g1.massClumpBody = g.massClumpBody ∧ g1.mmiXX = g.mmiXX ∧ g1.mmiYY = g.mmiYY ∧
      g1.mmiZZ = g.mmiZZ ∧ g1.radiiSphere = g.radiiSphere ∧
      g1.relPosSphereX = g.relPosSphereX ∧ g1.relPosSphereY = g.relPosSphereY ∧
      g1.relPosSphereZ = g.relPosSphereZ := by
  have key := forRange_some (loadMaterial inp)
    (fun _ g1 => (g1.EProxy.length = g.EProxy.length ∧ g1.GProxy.length = g.GProxy.length ∧
      g1.CoRProxy.length = g.CoRProxy.length) ∧
      g1.massClumpBody = g.massClumpBody ∧ g1.mmiXX = g.mmiXX ∧ g1.mmiYY = g.mmiYY ∧
      g1.mmiZZ = g.mmiZZ ∧ g1.radiiSphere = g.radiiSphere ∧
      g1.relPosSphereX = g.relPosSphereX ∧ g1.relPosSphereY = g.relPosSphereY ∧
      g1.relPosSphereZ = g.relPosSphereZ)
    inp.mat_k.length 0 g ⟨⟨rfl, rfl, rfl⟩, rfl, rfl, rfl, rfl, rfl, rfl, rfl, rfl⟩
    (by
      intro j g1 _ hj ⟨⟨l1, l2, l3⟩, a1, a2, a3, a4, a5, a6, a7, a8⟩
      have hj0 : j < inp.mat_k.length := by omega
      have hj1 : j < inp.mat_g.length := by omega
      have hj2 : j < inp.mat_CoR.length := by omega
      simp only [loadMaterial, List.getElem?_eq_getElem hj0, List.getElem?_eq_getElem hj1,
        List.getElem?_eq_getElem hj2, setAt_lt g1.EProxy j _ (by omega),
        setAt_lt g1.GProxy j _ (by omega), setAt_lt g1.CoRProxy j _ (by omega),
        Option.pure_def, Option.bind_eq_bind, Option.some_bind]
      refine ⟨_, rfl, ⟨?_, ?_, ?_⟩, a1, a2, a3, a4, a5, a6, a7, a8⟩
      · simpa using l1
      · simpa using l2
      · simpa using l3)
  obtain ⟨g1, e, _, rest⟩ := key
  exact ⟨g1, e, rest⟩

theorem loadMassMOI_loop (inp : PopulateInputs) (g : DEMTemplate)
    (h1 : inp.clumps_mass_types.length ≤ inp.clumps_moi_types.length)
    (h2 : inp.clumps_mass_types.length ≤ g.massClumpBody.length)
    (h3 : inp.clumps_mass_types.length ≤ g.mmiXX.length)
    (h4 : inp.clumps_mass_types.length ≤ g.mmiYY.length)
    (h5 : inp.clumps_mass_types.length ≤ g.mmiZZ.length) :
    ∃ g1, forRange (loadMassMOI inp) 0 inp.clumps_mass_types.length g = some g1 ∧
      g1.radiiSphere = g.radiiSphere ∧
      g1.relPosSphereX = g.relPosSphereX ∧ g1.relPosSphereY = g.relPosSphereY ∧
      g1.relPosSphereZ = g.relPosSphereZ := by
  have key := forRange_some (loadMassMOI inp)
    (fun _ g1 => (g1.massClumpBody.length = g.massClumpBody.length ∧
      g1.mmiXX.length = g.mmiXX.length ∧ g1.mmiYY.length = g.mmiYY.length ∧
      g1.mmiZZ.length = g.mmiZZ.length) ∧ g1.radiiSphere = g.radiiSphere ∧
      g1.relPosSphereX = g.relPosSphereX ∧ g1.relPosSphereY = g.relPosSphereY ∧
      g1.relPosSphereZ = g.relPosSphereZ)
    inp.clumps_mass_types.length 0 g ⟨⟨rfl, rfl, rfl, rfl⟩, rfl, rfl, rfl, rfl⟩
    (by
      intro j g1 _ hj ⟨⟨l1, l2, l3, l4⟩, a5, a6, a7, a8⟩
      have hj0 : j < inp.clumps_mass_types.length := by omega
      have hj1 : j < inp.clumps_moi_types.length := by omega
      simp only [loadMassMOI, List.getElem?_eq_getElem hj0, List.getElem?_eq_getElem hj1,
        setAt_lt g1.massClumpBody j _ (by omega), setAt_lt g1.mmiXX j _ (by omega),
        setAt_lt g1.mmiYY j _ (by omega), setAt_lt g1.mmiZZ j _ (by omega),
        Option.pure_def, Option.bind_eq_bind, Option.some_bind]
      refine ⟨_, rfl, ⟨?_, ?_, ?_, ?_⟩, a5, a6, a7, a8⟩
      · simpa using l1
      · simpa using l2
      · simpa using l3
      · simpa using l4)
  obtain ⟨g1, e, _, rest⟩ := key
  exact ⟨g1, e, rest⟩

theorem clumpSize_eq (inp : PopulateInputs) (i t : Nat) (R : List ℚ)
    (ht : inp.input_clump_types[i]? = some t) (hR : inp.clumps_sp_radii_types[t]? = some R) :
    clumpSize inp i = R.length := by
  simp only [clumpSize, ht, List.getD_eq_getElem?_getD, hR, Option.getD_some]

theorem loadClump_loop (w ws : Nat) (inp : PopulateInputs) (s0 : DEMDynamicThread)
    (hshape : wellShaped inp)
    (hn : ∀ x ∈ (clumpArrayLengths s0.granData).take 9, inp.input_clump_types.length ≤ x)
    (hs : ∀ x ∈ (clumpArrayLengths s0.granData).drop 9,
      spheresBefore inp inp.input_clump_types.length ≤ x) :
    ∃ st, forRange (loadClump w ws inp
        (([0] ++ (List.range inp.clumps_sp_radii_types.length).map
          (fun t => (0 + componentsBefore inp.clumps_sp_radii_types (t + 1)) % 2 ^ 32)).dropLast))
        0 inp.input_clump_types.length (0, s0) = some st ∧
      ClumpInv inp s0 inp.input_clump_types.length st := by
  obtain ⟨sh1, sh2, sh3, sh4, sh5, sh6, _, _, _⟩ := hshape
  have key := forRange_some (loadClump w ws inp
      (([0] ++ (List.range inp.clumps_sp_radii_types.length).map
        (fun t => (0 + componentsBefore inp.clumps_sp_radii_types (t + 1)) % 2 ^ 32)).dropLast))
    (ClumpInv inp s0) inp.input_clump_types.length 0 (0, s0)
    ⟨by simp [spheresBefore], rfl, rfl, fun i1 t R M h => absurd h (Nat.not_lt_zero _)⟩
    (by
      intro i st _ hi ⟨hk, hg, hl, hc⟩
      rw [Nat.zero_add] at hi
      have ht : inp.input_clump_types[i]? = some inp.input_clump_types[i] :=
        List.getElem?_eq_getElem hi
      have htlt : inp.input_clump_types[i] < inp.clumps_sp_radii_types.length :=
        sh3 _ (List.getElem_mem hi)
      have hR : inp.clumps_sp_radii_types[inp.input_clump_types[i]]? =
          some inp.clumps_sp_radii_types[inp.input_clump_types[i]] :=
        List.getElem?_eq_getElem htlt
      obtain ⟨Lc, hL, _⟩ := getElem?_length_congr _ _ sh1 _ _ hR
      obtain ⟨M, hM, hML⟩ := getElem?_length_congr _ _ sh2 _ _ hR
      have hsz := clumpSize_eq inp i _ _ ht hR
      have hmono := spheresBefore_mono inp (show i + 1 ≤ inp.input_clump_types.length by omega)
      rw [spheresBefore_succ, hsz] at hmono
      obtain ⟨st1, e, k1, g1, p1, l1, c1, f1⟩ := loadClump_spec w ws inp _ i st
        inp.input_clump_types[i] inp.clumps_sp_radii_types[inp.input_clump_types[i]] Lc M
        (componentsBefore inp.clumps_sp_radii_types inp.input_clump_types[i] % 2 ^ 32)
        inp.input_clump_types.length ht hR hL hM (by omega)
        (prescans_getElem? _ _ htlt) hi sh4 sh5 sh6
        (by rw [hl]; exact hn)
        (by rw [hl, hk]; intro x hx; exact le_trans hmono (hs x hx))
      refine ⟨st1, e, ?_, g1.trans hg, l1.trans hl, ?_⟩
      · rw [k1, hk, spheresBefore_succ, hsz]
      · intro i1 t R M1 hi1 ht1 hR1 hM1 j hj
        rcases Nat.lt_or_ge i1 i with hlt | hge
        · have hb : spheresBefore inp i1 + j < st.1 := by
            have h1 := spheresBefore_mono inp (show i1 + 1 ≤ i by omega)
            rw [spheresBefore_succ, clumpSize_eq inp i1 t R ht1 hR1] at h1
            omega
          obtain ⟨a, b, c⟩ := f1 _ hb
          rw [a, b, c]
          exact hc i1 t R M1 hlt ht1 hR1 hM1 j hj
        · have e1 : i1 = i := by omega
          rw [e1] at ht1 ⊢
          rw [ht] at ht1
          simp only [Option.some.injEq] at ht1
          rw [← ht1] at hR1 hM1 ⊢
          rw [hR] at hR1
          rw [hM] at hM1
          simp only [Option.some.injEq] at hR1 hM1
          rw [← hR1] at hj
          rw [← hM1, ← hk]
          exact c1 j hj)
  rw [Nat.zero_add] at key
  exact key

/-! ## The reduction of the pair forces -/

theorem addAt_getElem?_ne (v : List ℚ) (i c : Nat) (x : ℚ) (h : i ≠ c) :
    (addAt v i x)[c]? = v[c]? := by
  unfold addAt
  split
  · exact List.getElem?_set_ne h
  · rfl

theorem scatter_getElem?_ne (v : List ℚ) (o : Option Nat) (c : Nat) (x : ℚ) (h : o ≠ some c) :
    (scatter v o x)[c]? = v[c]? := by
  unfold scatter
  cases o with
  | none => rfl
  | some i => exact addAt_getElem?_ne v i c x (fun e => h (by rw [e]))

theorem deviceFill_getElem? {α : Type} (v : List α) (val : α) (n c : Nat) (h : c < n)
    (hv : n ≤ v.length) : (deviceFill v val n)[c]? = some val := by
  unfold deviceFill
  rw [List.getElem?_append_left (by simp; omega), List.getElem?_replicate]
  rw [if_pos (by omega)]

theorem collectPair_acceleration (C : ContactModel) (p : DEMSimParams) (d acc : DEMDataDT)
    (k c : Nat) (ha : ownerOf d d.idGeometryA k ≠ some c)
    (hb : ownerOf d d.idGeometryB k ≠ some c) :
    accelerationOf (collectPair C p d acc k) c = accelerationOf acc c := by
  simp only [accelerationOf, collectPair, scatter_getElem?_ne _ _ _ _ ha,
    scatter_getElem?_ne _ _ _ _ hb]

theorem foldl_collectPair_acceleration (C : ContactModel) (p : DEMSimParams) (d : DEMDataDT)
    (c : Nat) (ks : List Nat) : ∀ acc : DEMDataDT,
    (∀ k ∈ ks, ownerOf d d.idGeometryA k ≠ some c ∧ ownerOf d d.idGeometryB k ≠ some c) →
    accelerationOf (ks.foldl (collectPair C p d) acc) c = accelerationOf acc c := by
  induction ks with
  | nil => intro acc _; rfl
  | cons k rest ih =>
    intro acc h
    rw [List.foldl_cons, ih _ (fun k1 hk1 => h k1 (List.mem_cons_of_mem _ hk1))]
    exact collectPair_acceleration C p d acc k c (h k (List.mem_cons_self _ _)).1
      (h k (List.mem_cons_self _ _)).2

/-! ## Shutdown at the start-wait -/

theorem shutdownInv_step (K : Kernels) (s0 : DEMDynamicThread) (ev : Event)
    (s : DEMDynamicThread) (h : ShutdownInv s0 s) : ShutdownInv s0 (step K ev s) := by
  obtain ⟨hj, hf, h⟩ := h
  cases ev with
  | dT fault =>
    cases hpc : s.pc <;> rw [hpc] at h <;> simp only at h <;>
      simp_all [step, ShutdownInv, workerThreadStep, goto]
  | env e =>
    have f := envStep_frame e s
    have hns : PC.isSleep s.pc = false := by
      cases hpc : s.pc <;> rw [hpc] at h <;> simp only at h <;> rfl
    obtain ⟨a1, a2, a3, a4, a5, a6, a7, a8, a9, a10, a11, a12⟩ := hf
    refine ⟨f.join hj, ⟨?_, ?_, ?_, ?_, ?_, ?_, ?_, ?_, ?_, ?_, ?_, ?_⟩, ?_⟩
    · exact f.callLog.trans a1
    · exact f.cycle.trans a2
    · exact f.userCallDone.trans a3
    · exact f.numContacts.trans a4
    · exact f.contactPairArr.trans a5
    · exact f.data.trans a6
    · exact f.nKU.trans a7
    · exact f.nHeld.trans a8
    · exact f.stampLast.trans a9
    · exact f.stampCur.trans a10
    · exact f.done.trans a11
    · exact fun h0 => f.kinFresh (a12 h0)
    · show match (envStep e s).pc with
        | .startCheck => (envStep e s).pSchedSupport.dynamicStarted = true
        | .startClear | .joinCheck | .exited => True
        | _ => False
      rw [f.pc hns]
      cases hpc : s.pc <;> rw [hpc] at h <;> simp only at h ⊢
      exact f.started h

theorem shutdownInv_exec (K : Kernels) (s0 : DEMDynamicThread) (sch : List Event) :
    ∀ s, ShutdownInv s0 s → ShutdownInv s0 (exec K sch s) := by
  induction sch with
  | nil => intro s h; exact h
  | cons ev rest ih => intro s h; exact ih _ (shutdownInv_step K s0 ev s h)

theorem exec_exited (K : Kernels) (sch : List Event) :
    ∀ s : DEMDynamicThread, s.pc = PC.exited → (exec K sch s).pc = PC.exited := by
  induction sch with
  | nil => intro s h; exact h
  | cons ev rest ih =>
    intro s hs
    cases ev with
    | dT fault =>
      have e : step K (Event.dT fault) s = s := by simp [step, workerThreadStep, hs]
      simp only [exec, e]
      exact ih s hs
    | env e =>
      have f := envStep_frame e s
      exact ih _ (show (envStep e s).pc = PC.exited by rw [f.pc (by rw [hs]; rfl), hs])

/-! ## The flag `dynamicDone` -/

theorem doneInv_dT (K : Kernels) (N : Nat) (fault : Bool) (s : DEMDynamicThread)
    (h : DoneInv N s) : DoneInv N (workerThreadStep K fault s) := by
  obtain ⟨hN, hS, h⟩ := h
  cases hpc : s.pc <;> rw [hpc] at h <;> simp only at h <;>
    simp only [DoneInv, workerThreadStep, GPU_CALL, hpc] <;> (try split_ifs) <;>
    simp_all [goto, logCall, sendToTheirBuffer, calculateForces, integrateClumpMotions]
  all_goals
    first
      | omega
      | exact h.2 (by omega)
      | (refine ⟨by omega, fun hlt => ?_, fun _ => by omega⟩
         cases hd : s.pSchedSupport.dynamicDone
         · rfl
         · exact absurd (h.2.mp hd) (by omega))

theorem doneInv_env (N : Nat) (e : EnvEvent) (s : DEMDynamicThread)
    (he : e ≠ EnvEvent.startThread) (h : DoneInv N s) : DoneInv N (envStep e s) := by
  obtain ⟨hN, hS, h⟩ := h
  cases e <;> simp only [ne_eq, not_true_eq_false, reduceCtorEq, not_false_eq_true] at he <;>
    (cases hpc : s.pc <;> rw [hpc] at h <;> simp only at h <;>
      simp_all [DoneInv, envStep, wake, goto])

theorem doneInv_exec (K : Kernels) (N : Nat) (sch : List Event) :
    ∀ s, (∀ ev ∈ sch, ev ≠ Event.env EnvEvent.startThread) → DoneInv N s →
      DoneInv N (exec K sch s) := by
  induction sch with
  | nil => intro s _ h; exact h
  | cons ev rest ih =>
    intro s hs h
    refine ih _ (fun x hx => hs x (List.mem_cons_of_mem _ hx)) ?_
    cases ev with
    | dT fault => exact doneInv_dT K N fault s h
    | env e =>
      exact doneInv_env N e s (fun he => hs _ (List.mem_cons_self _ _) (by rw [he])) h

/-! ## Counting the republishes and the held-back cycles -/

theorem publish_step (K : Kernels) (c0 : Int) (u0 : Bool) (N : Nat) (ev : Event)
    (s : DEMDynamicThread) (h : CallInv c0 u0 N s) :
    (step K ev s).pc = PC.faulted ∨
    (step K ev s).pSchedSupport.nKinematicUpdates + publishPending (step K ev s) =
      s.pSchedSupport.nKinematicUpdates + publishPending s + foundNotFresh ev s := by
  obtain ⟨hN, hS, h⟩ := h
  cases ev with
  | dT fault =>
    cases hpc : s.pc <;> rw [hpc] at h <;> simp only at h <;>
      simp only [step, workerThreadStep, GPU_CALL, hpc, foundNotFresh] <;> (try split_ifs) <;>
      simp_all [goto, logCall, sendToTheirBuffer, calculateForces, integrateClumpMotions,
        publishPending, unpackMyBuffer_pSchedSupport]
  | env e =>
    right
    cases e <;> cases hpc : s.pc <;>
      simp [step, envStep, startThread, wake, goto, publishPending, foundNotFresh, hpc]

theorem step_callInv (K : Kernels) (c0 : Int) (u0 : Bool) (N : Nat) (ev : Event)
    (s : DEMDynamicThread) (hev : ev ≠ Event.env EnvEvent.startThread)
    (h : CallInv c0 u0 N s) : CallInv c0 u0 N (step K ev s) := by
  cases ev with
  | dT fault => exact callInv_dT K c0 u0 N fault s h
  | env e => exact callInv_env c0 u0 N e s (fun he => hev (by rw [he])) h

theorem kernelRuns_step (K : Kernels) (ev : Event) (s : DEMDynamicThread)
    (h : s.pc ≠ PC.joinCheck) :
    (step K ev s).callLog.count Call.calculateForces =
      s.callLog.count Call.calculateForces + runsForces ev s ∧
    (step K ev s).callLog.count Call.integrateClumpMotions =
      s.callLog.count Call.integrateClumpMotions + runsIntegration ev s := by
  cases ev with
  | env e =>
    have hl : (step K (Event.env e) s).callLog = s.callLog := by
      cases e with
      | notify => cases hp : s.pc <;> simp [step, envStep, wake, goto, hp]
      | _ => simp [step, envStep, startThread]
    rw [hl]
    exact ⟨rfl, rfl⟩
  | dT fault =>
    have cl1 : (calculateForces K s).callLog = s.callLog := rfl
    have cl2 : (integrateClumpMotions K s).callLog = s.callLog := rfl
    have cl3 : (sendToTheirBuffer s).callLog = s.callLog := rfl
    have cl4 := unpackMyBuffer_callLog s
    cases fault <;> cases hp : s.pc <;>
      first
        | exact absurd hp h
        | (simp [step, workerThreadStep, GPU_CALL, hp, goto, logCall, cl1, cl2, cl3, cl4,
            runsForces, runsIntegration] <;> (try split_ifs) <;> (try simp [goto]))

theorem kernelRuns_exec (K : Kernels) (c0 : Int) (u0 : Bool) (N : Nat) (sch : List Event) :
    ∀ s, (∀ ev ∈ sch, ev ≠ Event.env EnvEvent.startThread) → CallInv c0 u0 N s →
      (exec K sch s).callLog.count Call.calculateForces =
        s.callLog.count Call.calculateForces + forcesRun K sch s ∧
      (exec K sch s).callLog.count Call.integrateClumpMotions =
        s.callLog.count Call.integrateClumpMotions + integrationsRun K sch s := by
  induction sch with
  | nil => intro s _ _; exact ⟨rfl, rfl⟩
  | cons ev rest ih =>
    intro s hs h
    have h1 := step_callInv K c0 u0 N ev s (hs ev (List.mem_cons_self _ _)) h
    have hj : s.pc ≠ PC.joinCheck := by
      intro hp
      obtain ⟨_, _, h⟩ := h
      rw [hp] at h
      exact h
    obtain ⟨a, b⟩ := kernelRuns_step K ev s hj
    obtain ⟨c, d⟩ := ih _ (fun x hx => hs x (List.mem_cons_of_mem _ hx)) h1
    simp only [exec, forcesRun, integrationsRun]
    rw [c, d, a, b]
    exact ⟨by omega, by omega⟩

theorem kernelCall_applied (K : Kernels) (ev : Event) (s : DEMDynamicThread) :
    ((step K ev s).callLog = s.callLog ++ [Call.calculateForces] ↔
      ev = Event.dT false ∧ s.pc = PC.calc) ∧
    (ev = Event.dT false ∧ s.pc = PC.calc →
      step K ev s = goto PC.integ (logCall Call.calculateForces (calculateForces K s))) ∧
    ((step K ev s).callLog = s.callLog ++ [Call.integrateClumpMotions] ↔
      ev = Event.dT false ∧ s.pc = PC.integ) ∧
    (ev = Event.dT false ∧ s.pc = PC.integ →
      step K ev s = goto PC.doneCheck
        { logCall Call.integrateClumpMotions (integrateClumpMotions K s) with
          contactPairArr_isFresh := false }) ∧
    ((step K ev s).callLog ≠ s.callLog ++ [Call.calculateForces] →
      (step K ev s).callLog ≠ s.callLog ++ [Call.integrateClumpMotions] →
      (step K ev s).granData = s.granData ∨
      (step K ev s).granData = (sendToTheirBuffer s).granData ∨
      (step K ev s).granData = (unpackMyBuffer s).granData ∨
      (∃ e, ev = Event.env e ∧ (step K ev s).granData = (envStep e s).granData) ∨
      (step K ev s).pc = PC.faulted) := by
  cases ev with
  | env e =>
    have hl : (step K (Event.env e) s).callLog = s.callLog := by
      cases e with
      | notify => cases hp : s.pc <;> simp [step, envStep, wake, goto, hp]
      | _ => simp [step, envStep, startThread]
    refine ⟨?_, ?_, ?_, ?_, ?_⟩
    · rw [hl]; simp
    · rintro ⟨h, _⟩; exact absurd h (by simp)
    · rw [hl]; simp
    · rintro ⟨h, _⟩; exact absurd h (by simp)
    · intro _ _
      exact Or.inr (Or.inr (Or.inr (Or.inl ⟨e, rfl, rfl⟩)))
  | dT fault =>
    have cl1 : (calculateForces K s).callLog = s.callLog := rfl
    have cl2 : (integrateClumpMotions K s).callLog = s.callLog := rfl
    have cl3 : (sendToTheirBuffer s).callLog = s.callLog := rfl
    have cl4 := unpackMyBuffer_callLog s
    cases fault <;> cases hp : s.pc <;>
      simp [step, workerThreadStep, GPU_CALL, hp, goto, logCall, cl1, cl2, cl3, cl4] <;>
      (try split_ifs) <;> (try simp [goto])

theorem publish_exec (K : Kernels) (c0 : Int) (u0 : Bool) (N : Nat) (sch : List Event) :
    ∀ s, (∀ ev ∈ sch, ev ≠ Event.env EnvEvent.startThread) → CallInv c0 u0 N s →
      (exec K sch s).pc ≠ PC.faulted →
      (exec K sch s).pSchedSupport.nKinematicUpdates + publishPending (exec K sch s) =
        s.pSchedSupport.nKinematicUpdates + publishPending s + republishCount K sch s := by
  induction sch with
  | nil => intro s _ _ _; rfl
  | cons ev rest ih =>
    intro s hs h hf
    have h1 := step_callInv K c0 u0 N ev s (hs ev (List.mem_cons_self _ _)) h
    rcases publish_step K c0 u0 N ev s h with hp | hq
    · exact absurd ((exec_faulted K rest _ hp).pc (by rw [hp]; rfl) ▸ hp) hf
    · have h2 := ih _ (fun x hx => hs x (List.mem_cons_of_mem _ hx)) h1 hf
      simp only [exec, republishCount] at h2 ⊢
      omega

theorem republishLeft_step (K : Kernels) (c0 : Int) (u0 : Bool) (N : Nat) (ev : Event)
    (s : DEMDynamicThread) (h : CallInv c0 u0 N s) :
    foundNotFresh ev s + republishLeft (step K ev s) ≤ republishLeft s := by
  obtain ⟨hN, hS, h⟩ := h
  cases ev with
  | dT fault =>
    cases hpc : s.pc <;> rw [hpc] at h <;> simp only at h <;>
      simp only [step, workerThreadStep, GPU_CALL, hpc, foundNotFresh] <;> (try split_ifs) <;>
      simp_all [goto, logCall, sendToTheirBuffer, calculateForces, integrateClumpMotions,
        republishLeft, unpackMyBuffer_nDynamicCycles, unpackMyBuffer_cycle]
    all_goals omega
  | env e =>
    cases e <;> cases hpc : s.pc <;>
      simp [step, envStep, startThread, wake, goto, republishLeft, foundNotFresh, hpc]

theorem republishCount_le (K : Kernels) (c0 : Int) (u0 : Bool) (N : Nat) (sch : List Event) :
    ∀ s, (∀ ev ∈ sch, ev ≠ Event.env EnvEvent.startThread) → CallInv c0 u0 N s →
      republishCount K sch s ≤ republishLeft s := by
  induction sch with
  | nil => intro s _ _; exact Nat.zero_le _
  | cons ev rest ih =>
    intro s hs h
    have h1 := step_callInv K c0 u0 N ev s (hs ev (List.mem_cons_self _ _)) h
    have h2 := ih _ (fun x hx => hs x (List.mem_cons_of_mem _ hx)) h1
    have h3 := republishLeft_step K c0 u0 N ev s h
    simp only [republishCount]
    omega

theorem heldBack_step (K : Kernels) (ev : Event) (s : DEMDynamicThread) :
    (step K ev s).pSchedSupport.nTimesDynamicHeldBack =
      s.pSchedSupport.nTimesDynamicHeldBack + foundShouldWait ev s := by
  cases ev with
  | dT fault =>
    cases hpc : s.pc <;>
      simp only [step, workerThreadStep, GPU_CALL, hpc, foundShouldWait] <;> (try split_ifs) <;>
      simp_all [goto, logCall, sendToTheirBuffer, calculateForces, integrateClumpMotions,
        unpackMyBuffer_pSchedSupport]
  | env e =>
    have f := envStep_frame e s
    simp only [step, foundShouldWait]
    rw [f.nHeld]
    rfl

theorem heldBack_exec (K : Kernels) (sch : List Event) :
    ∀ s, (exec K sch s).pSchedSupport.nTimesDynamicHeldBack =
      s.pSchedSupport.nTimesDynamicHeldBack + heldBackCount K sch s := by
  induction sch with
  | nil => intro s; rfl
  | cons ev rest ih =>
    intro s
    have h1 := heldBack_step K ev s
    have h2 := ih (step K ev s)
    simp only [exec, heldBackCount] at h2 ⊢
    omega

theorem driftChecksLeft_step (K : Kernels) (c0 : Int) (u0 : Bool) (N : Nat) (ev : Event)
    (s : DEMDynamicThread) (h : CallInv c0 u0 N s) :
    foundShouldWait ev s + driftChecksLeft (step K ev s) ≤ driftChecksLeft s := by
  obtain ⟨hN, hS, h⟩ := h
  cases ev with
  | dT fault =>
    cases hpc : s.pc <;> rw [hpc] at h <;> simp only at h <;>
      simp only [step, workerThreadStep, GPU_CALL, hpc, foundShouldWait] <;> (try split_ifs) <;>
      simp_all [goto, logCall, sendToTheirBuffer, calculateForces, integrateClumpMotions,
        driftChecksLeft, unpackMyBuffer_nDynamicCycles, unpackMyBuffer_cycle]
    all_goals omega
  | env e =>
    cases e <;> cases hpc : s.pc <;>
      simp [step, envStep, startThread, wake, goto, driftChecksLeft, foundShouldWait, hpc]

theorem heldBackCount_le (K : Kernels) (c0 : Int) (u0 : Bool) (N : Nat) (sch : List Event) :
    ∀ s, (∀ ev ∈ sch, ev ≠ Event.env EnvEvent.startThread) → CallInv c0 u0 N s →
      heldBackCount K sch s ≤ driftChecksLeft s := by
  induction sch with
  | nil => intro s _ _; exact Nat.zero_le _
  | cons ev rest ih =>
    intro s hs h
    have h1 := step_callInv K c0 u0 N ev s (hs ev (List.mem_cons_self _ _)) h
    have h2 := ih _ (fun x hx => hs x (List.mem_cons_of_mem _ hx)) h1
    have h3 := driftChecksLeft_step K c0 u0 N ev s h
    simp only [heldBackCount]
    omega

theorem wait_userCallDone (K : Kernels) (w : Wait) (ev : Event) (s : DEMDynamicThread)
    (h : inWait w s) : (step K ev s).userCallDone = s.userCallDone := by
  cases ev with
  | dT fault =>
    rcases h with h | h <;> cases w <;> simp only [Wait.check, Wait.sleep] at h <;>
      simp only [step, workerThreadStep, h] <;> (try split_ifs) <;> rfl
  | env e => exact (envStep_frame e s).userCallDone

theorem wait_blocked_userCallDone (K : Kernels) (w : Wait) (sch : List Event) :
    ∀ s, inWait w s → (∀ k, w.predicate (exec K (sch.take k) s) = false) →
      (exec K sch s).userCallDone = s.userCallDone := by
  induction sch with
  | nil => intro s _ _; rfl
  | cons ev rest ih =>
    intro s h hp
    have h0 : w.predicate s = false := by simpa [exec] using hp 0
    have h1 : inWait w (step K ev s) := by
      rcases wait_step K w ev s h with h1 | ⟨_, _, h2, _⟩
      · exact h1
      · rw [h0] at h2; cases h2
    have h2 := ih _ h1 (fun k => by simpa [exec] using hp (k + 1))
    simp only [exec]
    rw [h2, wait_userCallDone K w ev s h]

/-! ## The contact count and the contact-event storage -/

theorem unpackMyBuffer_holdCount (s : DEMDynamicThread)
    (ha : contactArraysAligned s.granData) (hb : bufferHoldsPairs s.granData) :
    contactArraysHoldCount (unpackMyBuffer s) := by
  obtain ⟨e, a⟩ := unpackMyBuffer_lengths s ha hb
  refine ⟨a, ?_⟩
  rw [unpackMyBuffer_numContacts, e]
  exact le_max_right _ _

theorem unpackAll_holdCount (ds : List (Nat × List bodyID_t × List bodyID_t)) :
    ∀ s : DEMDynamicThread, contactArraysHoldCount s → deliveriesHold ds →
      contactArraysHoldCount (unpackAll ds s) := by
  induction ds with
  | nil => intro s h _; exact h
  | cons d rest ih =>
    intro s h hd
    obtain ⟨n, idA, idB⟩ := d
    have hd0 := hd (n, idA, idB) (List.mem_cons_self _ _)
    have hrest : deliveriesHold rest := fun x hx => hd x (List.mem_cons_of_mem _ hx)
    have ha1 : contactArraysAligned (envStep (EnvEvent.kTWrite n idA idB) s).granData := h.1
    have hb1 : bufferHoldsPairs (envStep (EnvEvent.kTWrite n idA idB) s).granData := hd0
    exact ih _ (unpackMyBuffer_holdCount _ ha1 hb1) hrest

theorem contactEventArraysResize_aligned (s : DEMDynamicThread) (m : Nat) :
    contactArraysAligned (contactEventArraysResize s m).granData ∧
    (contactEventArraysResize s m).granData.idGeometryA.length = m ∧
    (contactEventArraysResize s m).numContacts = s.numContacts := by
  simp [contactEventArraysResize, contactArraysAligned, vectorResize_length]

/-! ## The launch grids -/

theorem blocksNeeded_eq (P x : Nat) (hP : 0 < P) (hx : x + P ≤ 2 ^ 64) :
    blocksNeeded P x = (x + P - 1) / P := by
  unfold blocksNeeded
  rcases Nat.lt_or_ge (x + P) (2 ^ 64) with h | h
  · rw [Nat.mod_eq_of_lt h]
    have e : x + P + 2 ^ 64 - 1 = (x + P - 1) + 2 ^ 64 := by omega
    rw [e, Nat.add_mod_right, Nat.mod_eq_of_lt (by omega)]
  · have e : x + P = 2 ^ 64 := by omega
    rw [e, Nat.mod_self, Nat.zero_add, Nat.mod_eq_of_lt (by omega)]

theorem blocksNeeded_least (P x : Nat) (hP : 0 < P) (hx : x + P ≤ 2 ^ 64) :
    x ≤ blocksNeeded P x * P ∧ ∀ B, x ≤ B * P → blocksNeeded P x ≤ B := by
  rw [blocksNeeded_eq P x hP hx]
  constructor
  · have h1 := Nat.div_add_mod (x + P - 1) P
    have h2 := Nat.mod_lt (x + P - 1) hP
    rw [Nat.mul_comm] at h1
    omega
  · intro B hB
    apply Nat.le_of_lt_succ
    rw [Nat.div_lt_iff_lt_mul hP, Nat.succ_mul]
    omega

theorem blocksNeeded_zero (P : Nat) (hP : 0 < P) (hx : P ≤ 2 ^ 64) : blocksNeeded P 0 = 0 := by
  rw [blocksNeeded_eq P 0 hP (by omega), Nat.zero_add]
  exact Nat.div_eq_of_lt (by omega)

theorem dim3_blocksNeeded (P x : Nat) (hP : 0 < P) (hx : x + P ≤ 2 ^ 64)
    (hg : x ≤ (2 ^ 32 - 1) * P) : dim3 (blocksNeeded P x) = blocksNeeded P x := by
  unfold dim3
  have h := (blocksNeeded_least P x hP hx).2 (2 ^ 32 - 1) hg
  exact Nat.mod_eq_of_lt (by omega)

/-! ## Bounds safety of the scene loading -/

theorem forRange_none {σ : Type} (body : Nat → σ → Option σ) (i : Nat)
    (hi : ∀ st, body i st = none) :
    ∀ (m i0 : Nat) (st : σ), i0 ≤ i → i < i0 + m → forRange body i0 m st = none := by
  intro m
  induction m with
  | zero => intro i0 st h1 h2; omega
  | succ m ih =>
    intro i0 st h1 h2
    simp only [forRange]
    rcases Nat.eq_or_lt_of_le h1 with e | hlt
    · rw [e, hi]; rfl
    · cases hb : body i0 st with
      | none => rfl
      | some st1 => exact ih (i0 + 1) st1 hlt (by omega)

theorem loadClump_none (w ws : Nat) (inp : PopulateInputs) (prescans : List Nat) (i t : Nat)
    (ht : inp.input_clump_types[i]? = some t) (hR : inp.clumps_sp_radii_types.length ≤ t)
    (st : Nat × DEMDynamicThread) : loadClump w ws inp prescans i st = none := by
  have hR1 : inp.clumps_sp_radii_types[t]? = none := List.getElem?_eq_none hR
  simp only [loadClump, ht, Option.pure_def, Option.bind_eq_bind, Option.some_bind]
  cases setAt st.2.granData.inertiaPropOffsets i t with
  | none => rfl
  | some a =>
    cases inp.input_clump_xyz[i]? with
    | none => rfl
    | some xyz =>
      simp only [Option.some_bind, loadClumpSpheres, hR1, Option.bind_eq_bind, Option.none_bind]

theorem populateManagedArrays_none (w ws : Nat) (s : DEMDynamicThread) (inp : PopulateInputs)
    (i t : Nat) (ht : inp.input_clump_types[i]? = some t)
    (hR : inp.clumps_sp_radii_types.length ≤ t) : populateManagedArrays w ws s inp = none := by
  have hi : i < inp.input_clump_types.length := by
    rcases Nat.lt_or_ge i inp.input_clump_types.length with h | h
    · exact h
    · rw [List.getElem?_eq_none h] at ht; exact absurd ht (by simp)
  simp only [populateManagedArrays, Option.pure_def, Option.bind_eq_bind]
  cases forRange (loadMaterial inp) 0 inp.mat_k.length s.granTemplates with
  | none => rfl
  | some g1 =>
    simp only [Option.some_bind]
    cases forRange (loadMassMOI inp) 0 inp.clumps_mass_types.length g1 with
    | none => rfl
    | some g2 =>
      simp only [Option.some_bind]
      cases loadRadii inp.clumps_sp_radii_types g2.radiiSphere 0 [0] with
      | none => rfl
      | some r =>
        simp only [Option.some_bind]
        cases loadRelPos inp.clumps_sp_location_types g2.relPosSphereX g2.relPosSphereY
            g2.relPosSphereZ 0 with
        | none => rfl
        | some q =>
          simp only [Option.some_bind]
          rw [forRange_none _ i (loadClump_none w ws inp _ i t ht hR) _ 0 _ (Nat.zero_le _)
            (by omega)]
          rfl

theorem populateManagedArrays_some (w ws : Nat) (s : DEMDynamicThread) (inp : PopulateInputs)
    (hshape : wellShaped inp) (halloc : allocatedFor s inp) :
    ∃ s1, populateManagedArrays w ws s inp = some s1 := by
  have hshape0 := hshape
  obtain ⟨sh1, sh2, sh3, sh4, sh5, sh6, sh7, sh8, sh9⟩ := hshape
  obtain ⟨a1, a2, a3, a4, a5, a6, a7, a8, a9, a10, a11, a12, a13, a14⟩ := halloc
  obtain ⟨g1, e1, m1, m2, m3, m4, m5, m6, m7, m8⟩ :=
    loadMaterial_loop inp s.granTemplates sh7 sh8 a1 a2 a3
  obtain ⟨g2, e2, r5, r6, r7, r8⟩ := loadMassMOI_loop inp g1 sh9
    (by rw [m1]; exact a4) (by rw [m2]; exact a5) (by rw [m3]; exact a6) (by rw [m4]; exact a7)
  obtain ⟨v, e3, _, _, _⟩ := loadRadii_spec inp.clumps_sp_radii_types g2.radiiSphere 0 [0]
    (by rw [r5, m5, Nat.zero_add]; exact a8)
  have hlen : inp.clumps_sp_location_types.length = inp.clumps_sp_radii_types.length := by
    have := congrArg List.length sh1
    simpa using this
  have hcb : componentsBefore inp.clumps_sp_location_types inp.clumps_sp_location_types.length =
      componentsBefore inp.clumps_sp_radii_types inp.clumps_sp_radii_types.length := by
    rw [hlen]; exact componentsBefore_congr _ _ sh1 _
  obtain ⟨X, Y, Z, e4, _, _, _, _, _⟩ := loadRelPos_spec inp.clumps_sp_location_types
    g2.relPosSphereX g2.relPosSphereY g2.relPosSphereZ 0
    (by rw [r6, m6, Nat.zero_add, hcb]; exact a9)
    (by rw [r7, m7, Nat.zero_add, hcb]; exact a10)
    (by rw [r8, m8, Nat.zero_add, hcb]; exact a11)
  obtain ⟨st, e5, _⟩ := loadClump_loop w ws inp
    { s with granTemplates := { g2 with
        radiiSphere := v, relPosSphereX := X, relPosSphereY := Y, relPosSphereZ := Z } }
    hshape0 a13 a14
  refine ⟨st.2, ?_⟩
  simp only [populateManagedArrays, e1, e2, e3, e4, e5, Option.pure_def, Option.bind_eq_bind,
    Option.some_bind]

theorem allocateManagedArrays_allocatedFor (s0 : DEMDynamicThread) (inp : PopulateInputs)
    (nMatTuples : Nat)
    (hmass : inp.clumps_mass_types.length ≤ inp.clumps_sp_radii_types.length)
    (hmat : inp.mat_k.length ≤ ((1 + nMatTuples) * nMatTuples % 2 ^ 32) / 2)
    (hcomp : componentsBefore inp.clumps_sp_radii_types inp.clumps_sp_radii_types.length <
      2 ^ 32) :
    allocatedFor
      (allocateManagedArrays s0 inp.input_clump_types.length
        (spheresBefore inp inp.input_clump_types.length) inp.clumps_sp_radii_types.length
        (componentsBefore inp.clumps_sp_radii_types inp.clumps_sp_radii_types.length)
        nMatTuples) inp := by
  simp only [allocatedFor, allocateManagedArrays, clumpArrayLengths, trackedVectorResize_length,
    List.take_succ_cons, List.take_zero, List.drop_succ_cons, List.drop_zero, List.mem_cons,
    List.mem_singleton, forall_eq_or_imp, forall_eq, List.not_mem_nil, false_implies,
    implies_true, and_true, le_refl, and_self]
  exact ⟨hmat, hmat, hmat, hmass, hmass, hmass, hmass, trivial, trivial, trivial, trivial,
    hcomp⟩

theorem trackedVectorResize_nil_getElem? {α : Type} (n i : Nat) (val : α) (h : i < n) :
    (trackedVectorResize ([] : List α) n val)[i]? = some val := by
  simp [trackedVectorResize, List.getElem?_replicate, h]

/-! ## Claims -/

/-- Claim C1, counterexample. With maximum drift 1 and a budget of 3 cycles, dT stands at the
head of cycle 2 with `currentStampOfDynamic - stampLastUpdateOfDynamic = 2`: the drift policy
tripped at the end of cycle 1, dT waited for fresh data, and the stamp of the last update
moves only when that data is consumed inside cycle 2. -/
theorem C1_drift_at_cycle_head_counterexample :
    (exec idKernels driftRun (idle 1 3)).pc = PC.cycleHead ∧
    (exec idKernels driftRun (idle 1 3)).cycle = 2 ∧
    ¬ ((exec idKernels driftRun (idle 1 3)).pSchedSupport.currentStampOfDynamic -
        (exec idKernels driftRun (idle 1 3)).pSchedSupport.stampLastUpdateOfDynamic ≤
      (exec idKernels driftRun (idle 1 3)).pSchedSupport.dynamicMaxFutureDrift) := by
  decide

/-- Claim C1, amended. In a user call that starts with the stamps as `resetUserCallStat`
leaves them (`currentStampOfDynamic = 0`, `stampLastUpdateOfDynamic = -1`) and a maximum drift
`D ≥ 0`, under every schedule of kT, driver and wakeup events that gives no second start
signal: whenever `calculateForces` is about to be invoked the drift is at most `D`; whenever
dT begins a cycle the drift is at most `D + 1`, and it is at most `D` unless fresh data is
waiting to be consumed in that cycle. -/
theorem C1_drift_bound_after_consume (K : Kernels) (sch : List Event) (s0 : DEMDynamicThread)
    (hpc : s0.pc = PC.bootSend)
    (hstart : s0.pSchedSupport.dynamicStarted = false)
    (hcur : s0.pSchedSupport.currentStampOfDynamic = 0)
    (hlast : s0.pSchedSupport.stampLastUpdateOfDynamic = -1)
    (hD : 0 ≤ s0.pSchedSupport.dynamicMaxFutureDrift)
    (hsch : ∀ ev ∈ sch, ev ≠ Event.env EnvEvent.startThread) :
    (exec K sch s0).pSchedSupport.dynamicMaxFutureDrift =
      s0.pSchedSupport.dynamicMaxFutureDrift ∧
    ((exec K sch s0).pc = PC.calc →
      drift (exec K sch s0) ≤ s0.pSchedSupport.dynamicMaxFutureDrift) ∧
    ((exec K sch s0).pc = PC.cycleHead →
      drift (exec K sch s0) ≤ s0.pSchedSupport.dynamicMaxFutureDrift + 1 ∧
      ((exec K sch s0).pSchedSupport.dynamicOwned_Prod2ConsBuffer_isFresh = true ∨
        drift (exec K sch s0) ≤ s0.pSchedSupport.dynamicMaxFutureDrift)) := by
  have h0 : DriftInv s0.pSchedSupport.dynamicMaxFutureDrift s0 := by
    refine ⟨hD, rfl, hstart, ?_⟩
    rw [hpc]
    simp only [drift, hcur, hlast]
    constructor
    · trivial
    · omega
  have hI := driftInv_exec K _ sch s0 hsch h0
  generalize exec K sch s0 = s at hI
  obtain ⟨_, hM, _, hI⟩ := hI
  refine ⟨hM, ?_, ?_⟩
  · intro hp
    rw [hp] at hI
    exact hI.2
  · intro hp
    rw [hp] at hI
    exact hI.2

/-- Claim C1, witness: the run of the counterexample, taken from the first statement of the
user call; at the head of cycle 2 the drift is within `D + 1 = 2`. -/
theorem C1_drift_bound_witness :
    (goto PC.bootSend (idle 1 3)).pc = PC.bootSend ∧
    (exec idKernels (driftRun.drop 5) (goto PC.bootSend (idle 1 3))).pc = PC.cycleHead ∧
    drift (exec idKernels (driftRun.drop 5) (goto PC.bootSend (idle 1 3))) ≤ 1 + 1 :=
  ⟨rfl, by decide,
    ((C1_drift_bound_after_consume idKernels (driftRun.drop 5) (goto PC.bootSend (idle 1 3))
      rfl rfl rfl rfl (by decide) (by decide)).2.2 (by decide)).1⟩

/-- Claim C3. Let dT stand at the freshness test of a cycle (l. 514), with any environment
events `E1 .. E4` between its next steps and no device fault. If
`dynamicOwned_Prod2ConsBuffer_isFresh` is true: `unpackMyBuffer` runs once, the flag is false
right after dT clears it, and when `calculateForces` is about to be invoked the log has gained
exactly one `unpackMyBuffer`, `stampLastUpdateOfDynamic` is the loop variable and the contact
data are those `unpackMyBuffer` produced. If the flag is false: `calculateForces` is next,
the log is unchanged, and the contact-pair list, its count and `stampLastUpdateOfDynamic` are
unchanged. -/
theorem C3_consume_exactly_when_fresh (K : Kernels) (s : DEMDynamicThread) (h : s.pc = PC.consumeCheck) :
    (s.pSchedSupport.dynamicOwned_Prod2ConsBuffer_isFresh = true →
      ∀ E1 E2 E3 E4 : List EnvEvent,
        let s1 := workerThreadStep K false s
        let u := envs E1 s1
        let s2 := workerThreadStep K false u
        let s3 := workerThreadStep K false (envs E2 s2)
        let s4 := workerThreadStep K false (envs E3 s3)
        let s5 := envs E4 s4
        s1.pc = PC.unpack ∧ s1.callLog = s.callLog ∧
        s3.pSchedSupport.dynamicOwned_Prod2ConsBuffer_isFresh = false ∧
        s5.pc = PC.calc ∧ s5.callLog = s.callLog ++ [Call.unpackMyBuffer] ∧
        s5.pSchedSupport.stampLastUpdateOfDynamic = (s.cycle : Int) ∧
        s5.numContacts = (unpackMyBuffer u).numContacts ∧
        dTOwned s5.granData = dTOwned (unpackMyBuffer u).granData) ∧
    (s.pSchedSupport.dynamicOwned_Prod2ConsBuffer_isFresh = false →
      ∀ E : List EnvEvent,
        let s1 := envs E (workerThreadStep K false s)
        s1.pc = PC.calc ∧ s1.callLog = s.callLog ∧
        s1.granData.idGeometryA = s.granData.idGeometryA ∧
        s1.granData.idGeometryB = s.granData.idGeometryB ∧
        s1.numContacts = s.numContacts ∧
        s1.pSchedSupport.stampLastUpdateOfDynamic = s.pSchedSupport.stampLastUpdateOfDynamic) := by
  constructor
  · intro hf E1 E2 E3 E4
    intro s1 u s2 s3 s4 s5
    have e1 : s1 = goto .unpack s := by simp [s1, workerThreadStep, GPU_CALL, h, hf]
    have f1 := envs_frame E1 s1
    have pu : u.pc = .unpack := by rw [f1.pc (by simp [e1, goto, PC.isSleep])]; simp [e1, goto]
    have e2 : s2 = goto .consumeClear
        { logCall .unpackMyBuffer (unpackMyBuffer u) with contactPairArr_isFresh := true } := by
      simp [s2, workerThreadStep, GPU_CALL, pu]
    have f2 := envs_frame E2 s2
    have p2 : (envs E2 s2).pc = .consumeClear := by
      rw [f2.pc (by simp [e2, goto, PC.isSleep])]; simp [e2, goto]
    have e3 : s3 = goto .consumeStamp { envs E2 s2 with pSchedSupport :=
        { (envs E2 s2).pSchedSupport with dynamicOwned_Prod2ConsBuffer_isFresh := false } } := by
      simp [s3, workerThreadStep, GPU_CALL, p2]
    have f3 := envs_frame E3 s3
    have p3 : (envs E3 s3).pc = .consumeStamp := by
      rw [f3.pc (by simp [e3, goto, PC.isSleep])]; simp [e3, goto]
    have e4 : s4 = goto .calc { envs E3 s3 with pSchedSupport :=
        { (envs E3 s3).pSchedSupport with
          stampLastUpdateOfDynamic := ((envs E3 s3).cycle : Int) } } := by
      simp [s4, workerThreadStep, GPU_CALL, p3]
    have f4 := envs_frame E4 s4
    have cu : u.cycle = s.cycle := by rw [f1.cycle, e1]; rfl
    have lu : u.callLog = s.callLog := by rw [f1.callLog, e1]; rfl
    have c3 : (envs E3 s3).cycle = s.cycle := by
      rw [f3.cycle, e3]; simp only [goto]; rw [f2.cycle, e2]
      simp [goto, logCall, (unpackMyBuffer_frame u).2.2.2.2.2.2.1, cu]
    refine ⟨by simp [e1, goto], by simp [e1, goto], by simp [e3, goto], ?_, ?_, ?_, ?_, ?_⟩
    · rw [f4.pc (by simp [e4, goto, PC.isSleep])]; simp [e4, goto]
    · rw [f4.callLog, e4]; simp only [goto]; rw [f3.callLog, e3]; simp only [goto]
      rw [f2.callLog, e2]
      simp [goto, logCall, (unpackMyBuffer_frame u).2.2.2.2.2.2.2, lu]
    · rw [f4.stampLast, e4]; simp [goto, c3]
    · rw [f4.numContacts, e4]; simp only [goto]; rw [f3.numContacts, e3]; simp only [goto]
      rw [f2.numContacts, e2]; simp [goto, logCall]
    · rw [f4.data, e4]; simp only [goto]; rw [f3.data, e3]; simp only [goto]
      rw [f2.data, e2]; simp [goto, logCall]
  · intro hf E s1
    have e1 : workerThreadStep K false s = goto .calc s := by simp [workerThreadStep, GPU_CALL, h, hf]
    have f1 := envs_frame E (workerThreadStep K false s)
    have hd := f1.data
    rw [e1] at f1 hd
    have hs1 : s1 = envs E (goto .calc s) := by simp [s1, e1]
    rw [hs1]
    refine ⟨?_, ?_, ?_, ?_, ?_, ?_⟩
    · rw [f1.pc (by simp [goto, PC.isSleep])]; simp [goto]
    · rw [f1.callLog]; simp [goto]
    · simpa [dTOwned, goto] using congrArg DEMDataDT.idGeometryA hd
    · simpa [dTOwned, goto] using congrArg DEMDataDT.idGeometryB hd
    · rw [f1.numContacts]; simp [goto]
    · rw [f1.stampLast]; simp [goto]

/-- Claim C3, witness: the freshness test with nothing fresh goes straight to the force
computation. -/
theorem C3_consume_witness :
    (goto PC.consumeCheck (idle 1 2)).pc = PC.consumeCheck ∧
    (envs [] (workerThreadStep idKernels false (goto PC.consumeCheck (idle 1 2)))).pc = PC.calc :=
  ⟨rfl, ((C3_consume_exactly_when_fresh idKernels (goto PC.consumeCheck (idle 1 2)) rfl).2
    rfl []).1⟩

/-- Claim C4. Let dT stand at the republish test of a cycle (l. 541, after
`integrateClumpMotions`), with any environment events `E1 .. E3` between its next steps and
no device fault. If `kinematicOwned_Cons2ProdBuffer_isFresh` is true: no `sendToTheirBuffer`,
the device arrays, the flag and `nKinematicUpdates` are unchanged. If it is false:
`sendToTheirBuffer` runs once, in a state where the flag is still false, the flag is true
right after dT sets it, and `nKinematicUpdates` has grown by one when the stamp increment is
reached. -/
theorem C4_republish_exactly_when_not_fresh (K : Kernels) (s : DEMDynamicThread) (h : s.pc = PC.republishCheck) :
    (s.pSchedSupport.kinematicOwned_Cons2ProdBuffer_isFresh = true →
      let s1 := workerThreadStep K false s
      s1.pc = PC.stampInc ∧ s1.callLog = s.callLog ∧ s1.granData = s.granData ∧
      s1.pSchedSupport.kinematicOwned_Cons2ProdBuffer_isFresh = true ∧
      s1.pSchedSupport.nKinematicUpdates = s.pSchedSupport.nKinematicUpdates) ∧
    (s.pSchedSupport.kinematicOwned_Cons2ProdBuffer_isFresh = false →
      ∀ E1 E2 E3 : List EnvEvent,
        let u := envs E1 (workerThreadStep K false s)
        let s2 := workerThreadStep K false u
        let s3 := workerThreadStep K false (envs E2 s2)
        let s4 := workerThreadStep K false (envs E3 s3)
        u.pc = PC.repSend ∧ u.pSchedSupport.kinematicOwned_Cons2ProdBuffer_isFresh = false ∧
        s2.granData = (sendToTheirBuffer u).granData ∧
        s3.pSchedSupport.kinematicOwned_Cons2ProdBuffer_isFresh = true ∧
        s4.pc = PC.stampInc ∧ s4.callLog = s.callLog ++ [Call.sendToTheirBuffer] ∧
        s4.pSchedSupport.nKinematicUpdates = s.pSchedSupport.nKinematicUpdates + 1) := by
  constructor
  · intro hf
    simp [workerThreadStep, GPU_CALL, h, hf, goto]
  · intro hf E1 E2 E3 u s2 s3 s4
    have e1 : workerThreadStep K false s = goto .repSend s := by simp [workerThreadStep, GPU_CALL, h, hf]
    have f1 := envs_frame E1 (workerThreadStep K false s)
    have hu : u = envs E1 (goto .repSend s) := by simp [u, e1]
    rw [e1] at f1
    rw [← hu] at f1
    have pu : u.pc = .repSend := f1.pc rfl
    have ku : u.pSchedSupport.kinematicOwned_Cons2ProdBuffer_isFresh = false := f1.kinFresh hf
    have e2 : s2 = goto .repFlag (logCall .sendToTheirBuffer (sendToTheirBuffer u)) := by
      simp [s2, workerThreadStep, GPU_CALL, pu]
    have f2 := envs_frame E2 s2
    have p2 : (envs E2 s2).pc = .repFlag := by rw [f2.pc (by rw [e2]; rfl), e2]; rfl
    have e3 : s3 = goto .repCount { envs E2 s2 with pSchedSupport :=
        { (envs E2 s2).pSchedSupport with kinematicOwned_Cons2ProdBuffer_isFresh := true } } := by
      simp [s3, workerThreadStep, GPU_CALL, p2]
    have f3 := envs_frame E3 s3
    have p3 : (envs E3 s3).pc = .repCount := by rw [f3.pc (by rw [e3]; rfl), e3]; rfl
    have e4 : s4 = goto .stampInc { envs E3 s3 with pSchedSupport :=
        { (envs E3 s3).pSchedSupport with
          nKinematicUpdates := (envs E3 s3).pSchedSupport.nKinematicUpdates + 1 } } := by
      simp [s4, workerThreadStep, GPU_CALL, p3]
    refine ⟨pu, ku, by rw [e2]; rfl, by rw [e3]; rfl, by rw [e4]; rfl, ?_, ?_⟩
    · rw [e4]; show (envs E3 s3).callLog = _
      rw [f3.callLog, e3]; show (envs E2 s2).callLog = _
      rw [f2.callLog, e2]; show (sendToTheirBuffer u).callLog ++ _ = _
      rw [(sendToTheirBuffer_frame u).2.2.2.2.2.2.2.2, f1.callLog]; rfl
    · rw [e4]; show (envs E3 s3).pSchedSupport.nKinematicUpdates + 1 = _
      rw [f3.nKU, e3]; show (envs E2 s2).pSchedSupport.nKinematicUpdates + 1 = _
      rw [f2.nKU, e2]; show (sendToTheirBuffer u).pSchedSupport.nKinematicUpdates + 1 = _
      rw [(sendToTheirBuffer_frame u).2.1, f1.nKU]; rfl

/-- Claim C4, witness: the republish test with kT's mailbox empty. -/
theorem C4_republish_witness :
    (goto PC.republishCheck (idle 1 2)).pc = PC.republishCheck ∧
    (envs [] (workerThreadStep idKernels false (goto PC.republishCheck (idle 1 2)))).pc =
      PC.repSend :=
  ⟨rfl, ((C4_republish_exactly_when_not_fresh idKernels (goto PC.republishCheck (idle 1 2))
    rfl).2 rfl [] [] []).1⟩

/-- Claim C5. Let a user call begin (first statement after the start-wait) with a budget of
`N = nDynamicCycles` cycles. Under every schedule that gives no second start signal: the
force and integration calls logged are at every moment a prefix of `N` times
force-then-integration; `userCallDone` keeps the value it had when the call began as long as
the call is in progress (or has stopped on a device fault), and `isUserCallDone` is true once
dT is back at the loop head or the start-wait (or has returned); there, and already at
l. 574, the log holds all `N` pairs (`N` calls of each kind) and `currentStampOfDynamic` has
grown by `N`; dT is at no other program point. With `dynamicShouldJoin` false, the schedule in which kT always delivers
runs the call to that end: dT is blocked in the start-wait with `isUserCallDone` true.
The log records calls that are made: in any state, an event extends the log by
`calculateForces` exactly if it is a step of dT at l. 527 without device fault, and that step
is `calculateForces` applied to the state, followed by the move to l. 529; it extends the log
by `integrateClumpMotions` exactly if it is a step of dT at l. 529 without device fault, and
that step is `integrateClumpMotions` applied to the state, followed by
`contactPairArr_isFresh = false`; and an event that logs neither leaves the device arrays as
they are, or as `sendToTheirBuffer`, `unpackMyBuffer`, an event of the environment or a failed
GPU call leaves them. Along every schedule the number of steps at which dT runs
`calculateForces`, and the number at which it runs `integrateClumpMotions`, is the number of
such entries in the log: the `N` entries of each kind are `N` calls made, and no call is made
without an entry. -/
theorem C5_user_call_runs_its_budget (K : Kernels) (s0 : DEMDynamicThread)
    (hpc : s0.pc = PC.bootSend) (hstart : s0.pSchedSupport.dynamicStarted = false)
    (hlog : s0.callLog = []) :
    (∀ sch : List Event, (∀ ev ∈ sch, ev ≠ Event.env EnvEvent.startThread) →
      kernelCalls (exec K sch s0).callLog <+: cyclesLog s0.nDynamicCycles ∧
      (PC.inCall (exec K sch s0).pc = true ∨ (exec K sch s0).pc = PC.faulted →
        (exec K sch s0).userCallDone = s0.userCallDone) ∧
      ((exec K sch s0).pc = PC.loopHead ∨ (exec K sch s0).pc = PC.startCheck ∨
          (exec K sch s0).pc = PC.startSleep ∨ (exec K sch s0).pc = PC.exited →
        isUserCallDone (exec K sch s0) = true) ∧
      ((exec K sch s0).pc = PC.callDone ∨ (exec K sch s0).pc = PC.loopHead ∨
          (exec K sch s0).pc = PC.startCheck ∨ (exec K sch s0).pc = PC.startSleep ∨
          (exec K sch s0).pc = PC.exited →
        kernelCalls (exec K sch s0).callLog = cyclesLog s0.nDynamicCycles ∧
        (exec K sch s0).callLog.count Call.calculateForces = s0.nDynamicCycles ∧
        (exec K sch s0).callLog.count Call.integrateClumpMotions = s0.nDynamicCycles ∧
        (exec K sch s0).pSchedSupport.currentStampOfDynamic =
          s0.pSchedSupport.currentStampOfDynamic + s0.nDynamicCycles) ∧
      (exec K sch s0).pc ≠ PC.startClear ∧ (exec K sch s0).pc ≠ PC.joinCheck ∧
      forcesRun K sch s0 = (exec K sch s0).callLog.count Call.calculateForces ∧
      integrationsRun K sch s0 = (exec K sch s0).callLog.count Call.integrateClumpMotions) ∧
    (s0.pSchedSupport.dynamicShouldJoin = false →
      ∃ k, (exec K (fairSchedule k) s0).pc = PC.startSleep ∧
        isUserCallDone (exec K (fairSchedule k) s0) = true) ∧
    (∀ (ev : Event) (s : DEMDynamicThread),
      ((step K ev s).callLog = s.callLog ++ [Call.calculateForces] ↔
        ev = Event.dT false ∧ s.pc = PC.calc) ∧
      (ev = Event.dT false ∧ s.pc = PC.calc →
        step K ev s = goto PC.integ (logCall Call.calculateForces (calculateForces K s))) ∧
      ((step K ev s).callLog = s.callLog ++ [Call.integrateClumpMotions] ↔
        ev = Event.dT false ∧ s.pc = PC.integ) ∧
      (ev = Event.dT false ∧ s.pc = PC.integ →
        step K ev s = goto PC.doneCheck
          { logCall Call.integrateClumpMotions (integrateClumpMotions K s) with
            contactPairArr_isFresh := false }) ∧
      ((step K ev s).callLog ≠ s.callLog ++ [Call.calculateForces] →
        (step K ev s).callLog ≠ s.callLog ++ [Call.integrateClumpMotions] →
        (step K ev s).granData = s.granData ∨
        (step K ev s).granData = (sendToTheirBuffer s).granData ∨
        (step K ev s).granData = (unpackMyBuffer s).granData ∨
        (∃ e, ev = Event.env e ∧ (step K ev s).granData = (envStep e s).granData) ∨
        (step K ev s).pc = PC.faulted)) := by
  have h0 : CallInv s0.pSchedSupport.currentStampOfDynamic s0.userCallDone
      s0.nDynamicCycles s0 := by
    refine ⟨rfl, hstart, ?_⟩
    rw [hpc]
    simp [hlog, kernelCalls]
  refine ⟨?_, ?_, fun ev s => kernelCall_applied K ev s⟩
  · intro sch hsch
    have hI := callInv_exec K _ _ _ sch s0 hsch h0
    have hr : forcesRun K sch s0 = (exec K sch s0).callLog.count Call.calculateForces ∧
        integrationsRun K sch s0 =
          (exec K sch s0).callLog.count Call.integrateClumpMotions := by
      obtain ⟨a, b⟩ := kernelRuns_exec K _ _ _ sch s0 hsch h0
      rw [a, b, hlog]
      simp
    generalize exec K sch s0 = s at hI hr
    have hk : s.pc = PC.callDone ∨ s.pc = PC.loopHead ∨ s.pc = PC.startCheck ∨
        s.pc = PC.startSleep ∨ s.pc = PC.exited →
        kernelCalls s.callLog = cyclesLog s0.nDynamicCycles ∧
        s.pSchedSupport.currentStampOfDynamic =
          s0.pSchedSupport.currentStampOfDynamic + s0.nDynamicCycles := by
      obtain ⟨_, _, hI⟩ := hI
      rintro (hp | hp | hp | hp | hp) <;> rw [hp] at hI <;> exact ⟨hI.1, hI.2.1⟩
    refine ⟨callInv_kernelCalls_initial _ _ _ s hI, ?_, ?_, ?_, ?_, ?_, hr.1, hr.2⟩
    · obtain ⟨_, _, hI⟩ := hI
      cases hp : s.pc <;> rw [hp] at hI <;> simp only at hI <;>
        simp_all [PC.inCall]
    · obtain ⟨_, _, hI⟩ := hI
      cases hp : s.pc <;> rw [hp] at hI <;> simp only at hI <;>
        simp_all [isUserCallDone]
    · intro hp
      refine ⟨(hk hp).1, ?_, ?_, (hk hp).2⟩
      · rw [← (kernelCalls_count s.callLog).1, (hk hp).1]
        exact (cyclesLog_count _).1
      · rw [← (kernelCalls_count s.callLog).2, (hk hp).1]
        exact (cyclesLog_count _).2
    · obtain ⟨_, _, hI⟩ := hI
      intro hp
      rw [hp] at hI
      exact hI
    · obtain ⟨_, _, hI⟩ := hI
      intro hp
      rw [hp] at hI
      exact hI
  · intro hj
    obtain ⟨k, hk⟩ := fairSchedule_reaches_startSleep K _ _ _ s0 h0 (by rw [hpc]; rfl) hj
    refine ⟨k, hk, ?_⟩
    have hI := callInv_exec K _ _ _ (fairSchedule k) s0 (fairSchedule_noStart k) h0
    obtain ⟨_, _, hI⟩ := hI
    rw [hk] at hI
    exact hI.2.2

/-- Claim C5, witness: a call of two cycles runs to completion. -/
theorem C5_user_call_witness :
    (goto PC.bootSend (idle 1 2)).pc = PC.bootSend ∧
    ∃ k, (exec idKernels (fairSchedule k) (goto PC.bootSend (idle 1 2))).pc = PC.startSleep ∧
      isUserCallDone (exec idKernels (fairSchedule k) (goto PC.bootSend (idle 1 2))) = true :=
  ⟨rfl, (C5_user_call_runs_its_budget idKernels (goto PC.bootSend (idle 1 2))
    rfl rfl rfl).2.1 rfl⟩

/-- Claim C6. Let dT write with `sendToTheirBuffer` from the state `d1` and again from a state
`d2` whose kT-owned buffer is still what the first write left (kT has not drained), with the
same number of clumps and arrays that hold them. After the second write every one of the
first `nClumpBodies` entries of the eight buffer arrays is the entry of `d2`, and the whole
buffer is what a single write of `d2` into the buffer that preceded `d1` gives: nothing of
`d1` is left. In `workerThread` the bootstrap write (l. 494-498) is made whatever the
freshness flag is, and the flag it then sets is a single boolean. -/
theorem C6_second_write_replaces_first (K : Kernels) (d1 d2 : DEMDynamicThread)
    (hn : d2.simParams.nClumpBodies = d1.simParams.nClumpBodies)
    (hb : d2.granData.kTOwnedBuffer = (sendToTheirBuffer d1).granData.kTOwnedBuffer)
    (h1 : d1.granData.clumpState.holds d1.simParams.nClumpBodies)
    (h2 : d2.granData.clumpState.holds d2.simParams.nClumpBodies) :
    (∀ i, i < d2.simParams.nClumpBodies →
      (sendToTheirBuffer d2).granData.kTOwnedBuffer.sameAt d2.granData.clumpState i) ∧
    (sendToTheirBuffer d2).granData.kTOwnedBuffer =
      d1.granData.kTOwnedBuffer.write d2.granData.clumpState d2.simParams.nClumpBodies ∧
    (∀ s : DEMDynamicThread, s.pc = PC.bootSend →
      (workerThreadStep K false s).granData.kTOwnedBuffer =
        s.granData.kTOwnedBuffer.write s.granData.clumpState s.simParams.nClumpBodies ∧
      (workerThreadStep K false
        (workerThreadStep K false s)).pSchedSupport.kinematicOwned_Cons2ProdBuffer_isFresh =
          true) := by
  refine ⟨?_, ?_, ?_⟩
  · intro i hi
    rw [sendToTheirBuffer_buffer]
    exact Snapshot.write_sameAt _ _ _ _ h2 hi
  · rw [sendToTheirBuffer_buffer, hb, sendToTheirBuffer_buffer, hn]
    exact Snapshot.write_twice _ _ _ _ h1
  · intro s hs
    simp [workerThreadStep, GPU_CALL, hs, goto, logCall, sendToTheirBuffer_buffer]

/-- Claim C6, witness: two clumps written, moved and written again. -/
theorem C6_second_write_witness :
    twoClumpsMoved.granData.kTOwnedBuffer = (sendToTheirBuffer twoClumps).granData.kTOwnedBuffer ∧
    (sendToTheirBuffer twoClumpsMoved).granData.kTOwnedBuffer =
      twoClumps.granData.kTOwnedBuffer.write twoClumpsMoved.granData.clumpState
        twoClumpsMoved.simParams.nClumpBodies :=
  ⟨rfl, (C6_second_write_replaces_first idKernels twoClumps twoClumpsMoved rfl rfl
    (by decide) (by decide)).2.1⟩

/-- Claim C7. If the eight position/orientation arrays of dT hold `nClumpBodies` entries,
then after `sendToTheirBuffer` entry `i` of each kT-owned buffer array equals entry `i` of the
corresponding array of dT for every `i < nClumpBodies`, and putting the old content of the
kT-owned buffer back gives the state before the call: nothing else of dT (positions,
orientations, velocities, accelerations, contact data, flags, stamps, counters) changed. -/
theorem C7_send_copies_snapshot_only (s : DEMDynamicThread) (h : s.granData.clumpState.holds s.simParams.nClumpBodies) :
    (∀ i, i < s.simParams.nClumpBodies →
      (sendToTheirBuffer s).granData.kTOwnedBuffer.sameAt s.granData.clumpState i) ∧
    { sendToTheirBuffer s with
      granData := (sendToTheirBuffer s).granData.withKTOwnedBuffer s.granData.kTOwnedBuffer } = s := by
  obtain ⟨h1, h2, h3, h4, h5, h6, h7, h8⟩ := h
  simp only [DEMDataDT.clumpState] at h1 h2 h3 h4 h5 h6 h7 h8
  constructor
  · intro i hi
    simp only [Snapshot.sameAt, sendToTheirBuffer, DEMDataDT.kTOwnedBuffer, DEMDataDT.clumpState]
    exact ⟨cudaMemcpy_getElem? _ _ _ _ h1 hi, cudaMemcpy_getElem? _ _ _ _ h2 hi,
      cudaMemcpy_getElem? _ _ _ _ h3 hi, cudaMemcpy_getElem? _ _ _ _ h4 hi,
      cudaMemcpy_getElem? _ _ _ _ h5 hi, cudaMemcpy_getElem? _ _ _ _ h6 hi,
      cudaMemcpy_getElem? _ _ _ _ h7 hi, cudaMemcpy_getElem? _ _ _ _ h8 hi⟩
  · simp [sendToTheirBuffer, DEMDataDT.withKTOwnedBuffer, DEMDataDT.kTOwnedBuffer]

/-- Claim C7, witness: the snapshot of two clumps. -/
theorem C7_send_witness :
    twoClumps.granData.clumpState.holds twoClumps.simParams.nClumpBodies ∧
    { sendToTheirBuffer twoClumps with
      granData := (sendToTheirBuffer twoClumps).granData.withKTOwnedBuffer
        twoClumps.granData.kTOwnedBuffer } = twoClumps :=
  ⟨by decide, (C7_send_copies_snapshot_only twoClumps (by decide)).2⟩

/-- Claim C9. Let dT be inside one of its three waits (testing the predicate or blocked).
Whatever event comes next, dT is still inside that wait afterwards unless the event is a step
of dT taken at the test with the predicate true (`dynamicStarted` for the start-wait,
`dynamicOwned_Prod2ConsBuffer_isFresh` for the data-wait and the drift-wait), in which case
dT is at the first statement after the wait. Hence under any schedule, with any number of
wakeups, along which the predicate stays false, dT stays inside the wait. -/
theorem C9_wait_passes_only_on_predicate (K : Kernels) (w : Wait) (s : DEMDynamicThread)
    (h : inWait w s) :
    (∀ ev : Event, inWait w (step K ev s) ∨
      ((∃ fault, ev = Event.dT fault) ∧ s.pc = w.check ∧ w.predicate s = true ∧
        (step K ev s).pc = w.past)) ∧
    (∀ sch : List Event, (∀ k, w.predicate (exec K (sch.take k) s) = false) →
      inWait w (exec K sch s)) :=
  ⟨fun ev => wait_step K w ev s h, fun sch hp => wait_blocked K w sch s h hp⟩

/-- Claim C9, witness: a wakeup without the start signal leaves dT inside the start-wait. -/
theorem C9_wait_witness :
    inWait Wait.start blockedAtStart ∧
    (inWait Wait.start (step idKernels (Event.env EnvEvent.notify) blockedAtStart) ∨
      ((∃ fault, Event.env EnvEvent.notify = Event.dT fault) ∧
        blockedAtStart.pc = Wait.start.check ∧ Wait.start.predicate blockedAtStart = true ∧
        (step idKernels (Event.env EnvEvent.notify) blockedAtStart).pc = Wait.start.past)) :=
  ⟨by decide, (C9_wait_passes_only_on_predicate idKernels Wait.start blockedAtStart
    (by decide)).1 (Event.env EnvEvent.notify)⟩

/-- Claim C10, counterexample. dT is blocked in the start-wait, in the data-wait and in the
drift-wait; the driver sets `dynamicShouldJoin` and notifies, dT is woken twice and given five
steps: it is blocked in the same wait again each time, it has not exited. -/
theorem C10_join_alone_does_not_release_counterexample :
    blockedAtStart.pc = PC.startSleep ∧
    (exec idKernels joinAndNotify blockedAtStart).pSchedSupport.dynamicShouldJoin = true ∧
    (exec idKernels joinAndNotify blockedAtStart).pc = PC.startSleep ∧
    blockedAtData.pc = PC.dataSleep ∧
    (exec idKernels joinAndNotify blockedAtData).pc = PC.dataSleep ∧
    blockedAtDrift.pc = PC.driftSleep ∧
    (exec idKernels joinAndNotify blockedAtDrift).pc = PC.driftSleep := by
  decide

/-- Claim C10, amended. A dT inside the start-wait is released to exit by `dynamicShouldJoin`
together with the start signal: after the driver sets `dynamicShouldJoin` and calls
`startThread`, three steps of dT, with any environment events in between, end in the exit of
`workerThread` and the log of calls is untouched. `dynamicShouldJoin` is not read inside any
wait loop: under every schedule made of the driver setting `dynamicShouldJoin`, wakeups and
steps of dT, a dT inside a wait whose predicate is false stays inside that wait with the
predicate false. -/
theorem C10_join_released_by_start_signal (K : Kernels) (s : DEMDynamicThread) :
    (inWait Wait.start s → ∀ E1 E2 E3 : List EnvEvent,
      let a := envs E1 (envStep EnvEvent.startThread (envStep EnvEvent.shouldJoin s))
      let b := envs E2 (workerThreadStep K false a)
      let c := envs E3 (workerThreadStep K false b)
      (workerThreadStep K false c).pc = PC.exited ∧
      (workerThreadStep K false c).callLog = s.callLog) ∧
    (∀ (w : Wait) (sch : List Event), inWait w s → w.predicate s = false →
      (∀ ev ∈ sch, Event.isJoinNotifyOrStep ev = true) →
      inWait w (exec K sch s) ∧ w.predicate (exec K sch s) = false) := by
  constructor
  · intro h E1 E2 E3 a b c
    let s1 := envStep EnvEvent.startThread (envStep EnvEvent.shouldJoin s)
    have p1 : s1.pc = PC.startCheck := by
      rcases h with h | h <;> simp only [Wait.check, Wait.sleep] at h <;>
        simp [s1, envStep, startThread, h]
    have j1 : s1.pSchedSupport.dynamicShouldJoin = true := by
      simp [s1, envStep, startThread]
    have t1 : s1.pSchedSupport.dynamicStarted = true := by
      simp [s1, envStep, startThread]
    have l1 : s1.callLog = s.callLog := by
      simp [s1, envStep, startThread]
    have fa : EnvFrame s1 a := envs_frame E1 s1
    have pa : a.pc = PC.startCheck := by rw [fa.pc (by rw [p1]; rfl), p1]
    have ea : workerThreadStep K false a = goto PC.startClear a := by
      simp [workerThreadStep, GPU_CALL, pa, fa.started t1]
    have fb : EnvFrame (workerThreadStep K false a) b := envs_frame E2 _
    rw [ea] at fb
    have pb : b.pc = PC.startClear := fb.pc rfl
    have eb : workerThreadStep K false b = goto PC.joinCheck
        { b with pSchedSupport := { b.pSchedSupport with dynamicStarted := false } } := by
      simp [workerThreadStep, GPU_CALL, pb]
    have fc : EnvFrame (workerThreadStep K false b) c := envs_frame E3 _
    rw [eb] at fc
    have pc' : c.pc = PC.joinCheck := fc.pc rfl
    have jc : c.pSchedSupport.dynamicShouldJoin = true :=
      fc.join (fb.join (fa.join j1))
    have lc : c.callLog = s.callLog := by
      rw [fc.callLog]; show b.callLog = _
      rw [fb.callLog]; show a.callLog = _
      rw [fa.callLog, l1]
    simp [workerThreadStep, GPU_CALL, pc', jc, goto, lc]
  · intro w sch h hp hs
    exact join_blocked K w sch s h hp hs

/-- Claim C10, witness: the shutdown of a dT blocked in the start-wait. -/
theorem C10_join_witness :
    inWait Wait.start blockedAtStart ∧
    (workerThreadStep idKernels false (envs [] (workerThreadStep idKernels false
      (envs [] (workerThreadStep idKernels false (envs [] (envStep EnvEvent.startThread
        (envStep EnvEvent.shouldJoin blockedAtStart)))))))).pc = PC.exited :=
  ⟨by decide, ((C10_join_released_by_start_signal idKernels blockedAtStart).1 (by decide)
    [] [] []).1⟩

set_option maxRecDepth 20000

/-- Claim C11, counterexample. After a user call of 3 cycles in which dT was held back once
and published its state once, `resetUserCallStat` leaves `nTimesDynamicHeldBack = 1` and
`nKinematicUpdates = 1`, not the initial value 0 the counters had when the thread was
created; the stamps and flags are reset. -/
theorem C11_counters_survive_reset_counterexample :
    (idle 1 3).pSchedSupport.nTimesDynamicHeldBack = 0 ∧
    (idle 1 3).pSchedSupport.nKinematicUpdates = 0 ∧
    isUserCallDone (exec idKernels heldRun (idle 1 3)) = true ∧
    (resetUserCallStat (exec idKernels heldRun (idle 1 3))).pSchedSupport.nTimesDynamicHeldBack
      = 1 ∧
    (resetUserCallStat (exec idKernels heldRun (idle 1 3))).pSchedSupport.nKinematicUpdates
      = 1 ∧
    (resetUserCallStat (exec idKernels heldRun (idle 1 3))).pSchedSupport.currentStampOfDynamic
      = 0 ∧
    (resetUserCallStat
      (exec idKernels heldRun (idle 1 3))).pSchedSupport.stampLastUpdateOfDynamic = -1 := by
  decide

/-- Claim C11, amended. `resetUserCallStat` puts the stamps at their initial values
(`currentStampOfDynamic = 0`, `stampLastUpdateOfDynamic = -1`), clears `userCallDone`,
`dynamicDone` and `dynamicOwned_Prod2ConsBuffer_isFresh`, sets `contactPairArr_isFresh`, and
leaves `nKinematicUpdates` and `nTimesDynamicHeldBack` as they are. Under every schedule the
two counters and `currentStampOfDynamic` never decrease; and in a user call that begins with
`stampLastUpdateOfDynamic` at most 0, as the reset leaves it, `stampLastUpdateOfDynamic` never
decreases either. -/
theorem C11_reset_stamps_counters_accumulate (K : Kernels) (s : DEMDynamicThread) :
    ((resetUserCallStat s).pSchedSupport.currentStampOfDynamic = 0 ∧
      (resetUserCallStat s).pSchedSupport.stampLastUpdateOfDynamic = -1 ∧
      isUserCallDone (resetUserCallStat s) = false ∧
      (resetUserCallStat s).pSchedSupport.dynamicDone = false ∧
      (resetUserCallStat s).pSchedSupport.dynamicOwned_Prod2ConsBuffer_isFresh = false ∧
      (resetUserCallStat s).contactPairArr_isFresh = true ∧
      (resetUserCallStat s).pSchedSupport.nKinematicUpdates =
        s.pSchedSupport.nKinematicUpdates ∧
      (resetUserCallStat s).pSchedSupport.nTimesDynamicHeldBack =
        s.pSchedSupport.nTimesDynamicHeldBack) ∧
    (∀ sch : List Event,
      s.pSchedSupport.nKinematicUpdates ≤ (exec K sch s).pSchedSupport.nKinematicUpdates ∧
      s.pSchedSupport.nTimesDynamicHeldBack ≤
        (exec K sch s).pSchedSupport.nTimesDynamicHeldBack ∧
      s.pSchedSupport.currentStampOfDynamic ≤
        (exec K sch s).pSchedSupport.currentStampOfDynamic) ∧
    (s.pc = PC.bootSend → s.pSchedSupport.dynamicStarted = false →
      s.pSchedSupport.stampLastUpdateOfDynamic ≤ 0 →
      ∀ sch : List Event, (∀ ev ∈ sch, ev ≠ Event.env EnvEvent.startThread) →
        ∀ k, s.pSchedSupport.stampLastUpdateOfDynamic ≤
            (exec K (sch.take k) s).pSchedSupport.stampLastUpdateOfDynamic ∧
          (exec K (sch.take k) s).pSchedSupport.stampLastUpdateOfDynamic ≤
            (exec K sch s).pSchedSupport.stampLastUpdateOfDynamic) := by
  refine ⟨⟨rfl, rfl, rfl, rfl, rfl, rfl, rfl, rfl⟩, fun sch => exec_accumulates K sch s, ?_⟩
  intro hpc hstart hlast sch hsch k
  have h0 : StampInv s := by
    refine ⟨hstart, ?_⟩
    rw [hpc]
    exact hlast
  have h1 := stampInv_exec K (sch.take k) s
    (fun ev hev => hsch ev (List.mem_of_mem_take hev)) h0
  have h2 := stampInv_exec K (sch.drop k) (exec K (sch.take k) s)
    (fun ev hev => hsch ev (List.mem_of_mem_drop hev)) h1.1
  rw [← exec_append, List.take_append_drop] at h2
  exact ⟨h1.2, h2.2⟩

/-- Claim C11, witness: the user call of 3 cycles of the counterexample, from its first
statement; the stamp of the last update after 20 events is between its start value and its
final value. -/
theorem C11_reset_witness :
    (goto PC.bootSend (idle 1 3)).pc = PC.bootSend ∧
    (goto PC.bootSend (idle 1 3)).pSchedSupport.stampLastUpdateOfDynamic ≤ 0 ∧
    (goto PC.bootSend (idle 1 3)).pSchedSupport.stampLastUpdateOfDynamic ≤
      (exec idKernels ((heldRun.drop 5).take 20)
        (goto PC.bootSend (idle 1 3))).pSchedSupport.stampLastUpdateOfDynamic ∧
    (exec idKernels ((heldRun.drop 5).take 20)
        (goto PC.bootSend (idle 1 3))).pSchedSupport.stampLastUpdateOfDynamic ≤
      (exec idKernels (heldRun.drop 5)
        (goto PC.bootSend (idle 1 3))).pSchedSupport.stampLastUpdateOfDynamic :=
  ⟨rfl, by decide,
    (C11_reset_stamps_counters_accumulate idKernels (goto PC.bootSend (idle 1 3))).2.2
      rfl rfl (by decide) (heldRun.drop 5) (by decide) 20⟩

/-- Claim C12, counterexample. Maximum drift 1, statistics as reset. In a user call of
K = 3 cycles in which kT is silent during cycle 1, dT is held back once, and
`nTimesDynamicHeldBack` is 1 when the call is done, not K - 1 = 2. In a user call of K = 2
cycles in which kT delivers before each cycle, dT is never held back, and the counter is 0, not
K - 1 = 1. -/
theorem C12_held_back_is_not_budget_minus_one_counterexample :
    (exec idKernels heldRun (idle 1 3)).pSchedSupport.dynamicMaxFutureDrift = 1 ∧
    isUserCallDone (exec idKernels heldRun (idle 1 3)) = true ∧
    (exec idKernels heldRun (idle 1 3)).pSchedSupport.nTimesDynamicHeldBack = 1 ∧
    (exec idKernels heldRun (idle 1 3)).pSchedSupport.nTimesDynamicHeldBack ≠ 3 - 1 ∧
    isUserCallDone (exec idKernels promptRun (idle 1 2)) = true ∧
    (exec idKernels promptRun (idle 1 2)).pSchedSupport.nTimesDynamicHeldBack = 0 ∧
    (exec idKernels promptRun (idle 1 2)).pSchedSupport.nTimesDynamicHeldBack ≠ 2 - 1 := by
  decide

/-- Claim C12, amended. Take a user call of K = `nDynamicCycles` cycles from its first
statement, with `currentStampOfDynamic = 0` as the reset leaves it and maximum drift 1, under
any schedule that gives no second start signal and along which the look-ahead bound of
`dynamicShouldWait` is not exceeded. When the call is done, `nTimesDynamicHeldBack` has not
decreased and has grown by at most K / 2: dT is held back at most every other cycle, because
a held-back dT waits for fresh data and consumes it in the next cycle. So the growth is at
most K - 1 for K >= 1, and equals K - 1 only if K is 1 or 2. -/
theorem C12_held_back_at_most_half_the_budget (K : Kernels) (sch : List Event) (s0 : DEMDynamicThread)
    (hpc : s0.pc = PC.bootSend)
    (hstart : s0.pSchedSupport.dynamicStarted = false)
    (hcur : s0.pSchedSupport.currentStampOfDynamic = 0)
    (hD : s0.pSchedSupport.dynamicMaxFutureDrift = 1)
    (hsch : ∀ ev ∈ sch, ev ≠ Event.env EnvEvent.startThread)
    (hl : ∀ k, k ≤ sch.length → withinLookAhead (exec K (sch.take k) s0))
    (hdone : (exec K sch s0).pc = PC.callDone ∨ (exec K sch s0).pc = PC.loopHead ∨
      (exec K sch s0).pc = PC.startCheck ∨ (exec K sch s0).pc = PC.startSleep ∨
      (exec K sch s0).pc = PC.exited) :
    s0.pSchedSupport.nTimesDynamicHeldBack ≤
      (exec K sch s0).pSchedSupport.nTimesDynamicHeldBack ∧
    2 * ((exec K sch s0).pSchedSupport.nTimesDynamicHeldBack -
      s0.pSchedSupport.nTimesDynamicHeldBack) ≤ s0.nDynamicCycles ∧
    (1 ≤ s0.nDynamicCycles →
      (exec K sch s0).pSchedSupport.nTimesDynamicHeldBack -
        s0.pSchedSupport.nTimesDynamicHeldBack ≤ s0.nDynamicCycles - 1) := by
  have h0 : HeldInv s0.pSchedSupport.nTimesDynamicHeldBack s0.nDynamicCycles s0 := by
    refine ⟨hD, rfl, hstart, ?_⟩
    rw [hpc]
    exact ⟨hcur, rfl⟩
  have hI := heldInv_exec K _ _ sch s0 hsch hl h0
  generalize exec K sch s0 = s at hI hdone
  obtain ⟨_, _, _, hI⟩ := hI
  have hb : 2 * (s.pSchedSupport.nTimesDynamicHeldBack -
      s0.pSchedSupport.nTimesDynamicHeldBack) ≤ s0.nDynamicCycles ∧
      s0.pSchedSupport.nTimesDynamicHeldBack ≤ s.pSchedSupport.nTimesDynamicHeldBack := by
    rcases hdone with hp | hp | hp | hp | hp <;> rw [hp] at hI <;> exact hI
  refine ⟨hb.2, hb.1, fun h1 => ?_⟩
  omega
/-- Claim C12, witness: the user call of 3 cycles of the counterexample, from its first
statement; the counter grows by 1, and twice that is within 3. -/
theorem C12_held_back_witness :
    (goto PC.bootSend (idle 1 3)).pSchedSupport.dynamicMaxFutureDrift = 1 ∧
    isUserCallDone (exec idKernels (heldRun.drop 5) (goto PC.bootSend (idle 1 3))) = true ∧
    2 * ((exec idKernels (heldRun.drop 5)
        (goto PC.bootSend (idle 1 3))).pSchedSupport.nTimesDynamicHeldBack -
      (goto PC.bootSend (idle 1 3)).pSchedSupport.nTimesDynamicHeldBack) ≤
        (goto PC.bootSend (idle 1 3)).nDynamicCycles :=
  ⟨rfl, by decide,
    (C12_held_back_at_most_half_the_budget idKernels (heldRun.drop 5)
      (goto PC.bootSend (idle 1 3)) rfl rfl rfl rfl (by decide) (by decide) (by decide)).2.1⟩

/-- Claim C13. Let the five contact-event arrays have the same length L, as
`allocateManagedArrays` makes them, and let the dT-owned buffer hold the n pairs it announces.
After `unpackMyBuffer` each of `idGeometryA`, `idGeometryB`, `contactForces`,
`contactPointGeometryA`, `contactPointGeometryB` has length max(L, n). If n does not exceed L,
`contactEventArraysResize` is not invoked: the result is the state with the count stored and
the two copies made, nothing else. And after any sequence of deliveries by kT, each followed
by an unpack, the length is at least L and the five arrays still have the same length. -/
theorem C13_contact_storage_grows_only (s : DEMDynamicThread)
    (ha : contactArraysAligned s.granData) (hb : bufferHoldsPairs s.granData) :
    ((unpackMyBuffer s).granData.idGeometryA.length =
        max s.granData.idGeometryA.length s.granData.nContactPairs_buffer ∧
      (unpackMyBuffer s).granData.idGeometryB.length =
        max s.granData.idGeometryA.length s.granData.nContactPairs_buffer ∧
      (unpackMyBuffer s).granData.contactForces.length =
        max s.granData.idGeometryA.length s.granData.nContactPairs_buffer ∧
      (unpackMyBuffer s).granData.contactPointGeometryA.length =
        max s.granData.idGeometryA.length s.granData.nContactPairs_buffer ∧
      (unpackMyBuffer s).granData.contactPointGeometryB.length =
        max s.granData.idGeometryA.length s.granData.nContactPairs_buffer) ∧
    (s.granData.nContactPairs_buffer ≤ s.granData.idGeometryA.length →
      unpackMyBuffer s =
        { s with
          numContacts := s.granData.nContactPairs_buffer
          granData := { s.granData with
            idGeometryA := cudaMemcpy s.granData.idGeometryA s.granData.idGeometryA_buffer
              s.granData.nContactPairs_buffer
            idGeometryB := cudaMemcpy s.granData.idGeometryB s.granData.idGeometryB_buffer
              s.granData.nContactPairs_buffer } }) ∧
    (∀ ds, deliveriesHold ds →
      s.granData.idGeometryA.length ≤ (unpackAll ds s).granData.idGeometryA.length ∧
      contactArraysAligned (unpackAll ds s).granData) := by
  obtain ⟨e, a1, a2, a3, a4⟩ := unpackMyBuffer_lengths s ha hb
  refine ⟨⟨e, ?_, ?_, ?_, ?_⟩, unpackMyBuffer_no_resize s, fun ds hd => unpackAll_lengths ds s ha hd⟩
  · rw [a1, e]
  · rw [a2, e]
  · rw [a3, e]
  · rw [a4, e]
/-- Claim C13, witness: two pairs arrive while the contact arrays are empty; the arrays grow
to length 2. -/
theorem C13_contact_storage_witness :
    contactArraysAligned pendingPairs.granData ∧ bufferHoldsPairs pendingPairs.granData ∧
    (unpackMyBuffer pendingPairs).granData.contactForces.length =
      max pendingPairs.granData.idGeometryA.length pendingPairs.granData.nContactPairs_buffer :=
  ⟨by decide, by decide,
    (C13_contact_storage_grows_only pendingPairs (by decide) (by decide)).1.2.2.1⟩

/-- Claim C14. Let the five contact-event arrays have the same length and let the dT-owned
buffer hold the n pairs it announces, n being smaller or larger than the current length of the
contact arrays. After `unpackMyBuffer` the contact count of the solver is n; for every
i < n, entry i of `idGeometryA` is entry i of `idGeometryA_buffer` and entry i of
`idGeometryB` is entry i of `idGeometryB_buffer`; and the two arrays written hold at least n
entries. `unpackMyBuffer` is the store of the count, the resize and the two copies, in that
order; in the state the copies are made in, after the resize, the count is n and
`idGeometryA` and `idGeometryB` already hold at least n entries, so every index the copies
write is inside the arrays, and the copies leave the lengths as the resize made them. The
resize loses nothing: every entry below the old length is the same in the resized
`idGeometryA` and `idGeometryB`, the contact forces and the contact points below the old
length are the same after `unpackMyBuffer`, and so are the entries of `idGeometryA` and
`idGeometryB` from n up to the old length. -/
theorem C14_unpack_delivers_all_pairs (s : DEMDynamicThread)
    (ha : contactArraysAligned s.granData) (hb : bufferHoldsPairs s.granData) :
    (unpackMyBuffer s).numContacts = s.granData.nContactPairs_buffer ∧
    (∀ i, i < s.granData.nContactPairs_buffer →
      (∃ a, (unpackMyBuffer s).granData.idGeometryA[i]? = some a ∧
        s.granData.idGeometryA_buffer[i]? = some a) ∧
      (∃ b, (unpackMyBuffer s).granData.idGeometryB[i]? = some b ∧
        s.granData.idGeometryB_buffer[i]? = some b)) ∧
    s.granData.nContactPairs_buffer ≤ (unpackMyBuffer s).granData.idGeometryA.length ∧
    s.granData.nContactPairs_buffer ≤ (unpackMyBuffer s).granData.idGeometryB.length ∧
    unpackMyBuffer s = unpackCopyB (unpackCopyA (unpackResize (unpackCount s))) ∧
    (unpackResize (unpackCount s)).numContacts = s.granData.nContactPairs_buffer ∧
    s.granData.nContactPairs_buffer ≤ (unpackResize (unpackCount s)).granData.idGeometryA.length ∧
    s.granData.nContactPairs_buffer ≤ (unpackResize (unpackCount s)).granData.idGeometryB.length ∧
    (unpackMyBuffer s).granData.idGeometryA.length =
      (unpackResize (unpackCount s)).granData.idGeometryA.length ∧
    (unpackMyBuffer s).granData.idGeometryB.length =
      (unpackResize (unpackCount s)).granData.idGeometryB.length ∧
    (∀ i, i < s.granData.idGeometryA.length →
      (unpackResize (unpackCount s)).granData.idGeometryA[i]? = s.granData.idGeometryA[i]? ∧
      (unpackResize (unpackCount s)).granData.idGeometryB[i]? = s.granData.idGeometryB[i]? ∧
      (unpackMyBuffer s).granData.contactForces[i]? = s.granData.contactForces[i]? ∧
      (unpackMyBuffer s).granData.contactPointGeometryA[i]? =
        s.granData.contactPointGeometryA[i]? ∧
      (unpackMyBuffer s).granData.contactPointGeometryB[i]? =
        s.granData.contactPointGeometryB[i]? ∧
      (s.granData.nContactPairs_buffer ≤ i →
        (unpackMyBuffer s).granData.idGeometryA[i]? = s.granData.idGeometryA[i]? ∧
        (unpackMyBuffer s).granData.idGeometryB[i]? = s.granData.idGeometryB[i]?)) := by
  obtain ⟨e, a1, _⟩ := unpackMyBuffer_lengths s ha hb
  obtain ⟨r0, rA, rB, _, _, _⟩ := unpackResize_holds s ha
  obtain ⟨f1, f2, f3, f4, f5⟩ := unpackCopy_frame (unpackResize (unpackCount s))
  have hst := unpackMyBuffer_stages s
  have hbuf : (unpackResize (unpackCount s)).granData.idGeometryA_buffer =
      s.granData.idGeometryA_buffer ∧
      (unpackResize (unpackCount s)).granData.idGeometryB_buffer =
      s.granData.idGeometryB_buffer := by
    simp only [unpackResize, unpackCount, contactEventArraysResize]
    split <;> exact ⟨rfl, rfl⟩
  have lA : (unpackMyBuffer s).granData.idGeometryA.length =
      (unpackResize (unpackCount s)).granData.idGeometryA.length := by
    rw [hst, f4, cudaMemcpy_length _ _ _ (by rw [hbuf.1, r0]; exact hb.1) (by rw [r0]; exact rA)]
  have lB : (unpackMyBuffer s).granData.idGeometryB.length =
      (unpackResize (unpackCount s)).granData.idGeometryB.length := by
    rw [hst, f5, cudaMemcpy_length _ _ _ (by rw [hbuf.2, r0]; exact hb.2) (by rw [r0]; exact rB)]
  refine ⟨unpackMyBuffer_numContacts s, ?_, by rw [lA]; exact rA, by rw [lB]; exact rB, hst, r0,
    rA, rB, lA, lB, ?_⟩
  · intro i hi
    obtain ⟨p1, p2⟩ := unpackMyBuffer_pairs s hb i hi
    have h1 : i < s.granData.idGeometryA_buffer.length := lt_of_lt_of_le hi hb.1
    have h2 : i < s.granData.idGeometryB_buffer.length := lt_of_lt_of_le hi hb.2
    exact ⟨⟨_, p1.trans (List.getElem?_eq_getElem h1), List.getElem?_eq_getElem h1⟩,
      ⟨_, p2.trans (List.getElem?_eq_getElem h2), List.getElem?_eq_getElem h2⟩⟩
  · intro i hi
    obtain ⟨k1, k2, k3, k4, k5⟩ := unpackResize_keeps s ha i hi
    refine ⟨k1, k2, by rw [hst, f1]; exact k3, by rw [hst, f2]; exact k4,
      by rw [hst, f3]; exact k5, fun hge => ⟨?_, ?_⟩⟩
    · rw [hst, f4, r0, cudaMemcpy_getElem?_ge _ _ _ _ (by rw [hbuf.1]; exact hb.1) hge]
      exact k1
    · rw [hst, f5, r0, cudaMemcpy_getElem?_ge _ _ _ _ (by rw [hbuf.2]; exact hb.2) hge]
      exact k2

/-- Claim C14, witness: two pairs arrive while the contact arrays are empty; the arrays the
copies are made into hold two entries. -/
theorem C14_unpack_witness :
    contactArraysAligned pendingPairs.granData ∧ bufferHoldsPairs pendingPairs.granData ∧
    pendingPairs.granData.idGeometryA.length < pendingPairs.granData.nContactPairs_buffer ∧
    pendingPairs.granData.nContactPairs_buffer ≤
      (unpackResize (unpackCount pendingPairs)).granData.idGeometryA.length :=
  ⟨by decide, by decide, by decide,
    (C14_unpack_delivers_all_pairs pendingPairs (by decide) (by decide)).2.2.2.2.2.2.1⟩

/-- Claim C15, counterexample. Let `voxelID_t` have 64 bits, with 32, 32 and 0 bits for the
three directions, a sum that does not exceed the width. The voxel (5, 6, 0) is packed as
5 + (6 << 32) = 25769803781, and X and Y are decoded as 5 and 6. The third component is
decoded with a shift by nvXp2 + nvYp2 = 64, the full width, which C++ leaves undefined; with
the count taken modulo the width, as the shift instruction of x86-64 takes it, the result is
the whole index 25769803781 and not 0. -/
theorem C15_shift_by_full_width_counterexample :
    32 + 32 + 0 ≤ 64 ∧ 5 < 2 ^ 32 ∧ 6 < 2 ^ 32 ∧ 0 < 2 ^ 0 ∧
    voxelIDAdd 64 32 32 0 5 6 0 = 5 + (6 <<< 32) + (0 <<< (32 + 32)) ∧
    voxelIDAdd 64 32 32 0 5 6 0 = 25769803781 ∧
    voxelIDX 64 32 (voxelIDAdd 64 32 32 0 5 6 0) = 5 ∧
    voxelIDY 64 32 32 (voxelIDAdd 64 32 32 0 5 6 0) = 6 ∧
    voxelIDZ 64 32 32 (voxelIDAdd 64 32 32 0 5 6 0) = 25769803781 ∧
    voxelIDZ 64 32 32 (voxelIDAdd 64 32 32 0 5 6 0) ≠ 0 ∧
    ¬ (32 + 32 < 64) := by
  decide

/-- Claim C15, amended. Let `voxelID_t` have `w` bits, `nvXp2 + nvYp2 + nvZp2 <= w` and
`nvXp2 + nvYp2 < w` (no shift count reaches the width), and let X < 2^nvXp2, Y < 2^nvYp2,
Z < 2^nvZp2. The three additions of `populateManagedArrays` on a slot holding 0 leave
`X + (Y << nvXp2) + (Z << (nvXp2 + nvYp2))` in it, without wrap-around, and the decoding of
`WriteCsvAsSpheres` gives back X, Y and Z. -/
theorem C15_voxel_index_round_trip (w nvXp2 nvYp2 nvZp2 X Y Z : Nat)
    (hw : nvXp2 + nvYp2 + nvZp2 ≤ w) (hxy : nvXp2 + nvYp2 < w)
    (hX : X < 2 ^ nvXp2) (hY : Y < 2 ^ nvYp2) (hZ : Z < 2 ^ nvZp2) :
    voxelIDAdd w nvXp2 nvYp2 0 X Y Z = X + (Y <<< nvXp2) + (Z <<< (nvXp2 + nvYp2)) ∧
    voxelIDX w nvXp2 (voxelIDAdd w nvXp2 nvYp2 0 X Y Z) = X ∧
    voxelIDY w nvXp2 nvYp2 (voxelIDAdd w nvXp2 nvYp2 0 X Y Z) = Y ∧
    voxelIDZ w nvXp2 nvYp2 (voxelIDAdd w nvXp2 nvYp2 0 X Y Z) = Z :=
  voxelIndex_round_trip w nvXp2 nvYp2 nvZp2 X Y Z hw hxy hX hY hZ

/-- Claim C15, witness: 64 bits, 22, 21 and 21 bits for the three directions, the voxel
(1, 2, 3). -/
theorem C15_voxel_index_witness :
    22 + 21 + 21 ≤ 64 ∧ 22 + 21 < 64 ∧ 1 < 2 ^ 22 ∧ 2 < 2 ^ 21 ∧ 3 < 2 ^ 21 ∧
    voxelIDZ 64 22 21 (voxelIDAdd 64 22 21 0 1 2 3) = 3 :=
  ⟨by decide, by decide, by decide, by decide, by decide,
    (C15_voxel_index_round_trip 64 22 21 21 1 2 3 (by decide) (by decide) (by decide) (by decide)
      (by decide)).2.2.2⟩

/-- Claim C16, counterexample. First, whatever the width `ws` of `subVoxelPos_t`: with voxel
size 1, sub-voxel length 1/2^(ws+1) and the coordinate 5/2, the voxel number is 2 and
floor((c - 2 * V) / l) is 2^ws, which `subVoxelPos_t` cannot hold; the value stored is 0, and
the coordinate rebuilt from voxel 2 and sub-voxel position 0 is 1/2 below `c`, not less than
`l` below it. Second, with the 16 voxels of size 1 per direction and the sub-voxel length 1/8
of `sampleAllocated`, the coordinate 17 lies outside the domain: `populateManagedArrays` adds the voxel number 17 to
the packed index, `WriteCsvAsSpheres` decodes X as 17 & 15 = 1, and the coordinate rebuilt
from it is 16 below `c`. -/
theorem C16_encoding_wraps_counterexample :
    (∀ ws : Nat, (0 : ℚ) ≤ 5 / 2 ∧ (0 : ℚ) < 1 ∧ (0 : ℚ) < 1 / 2 ^ (ws + 1) ∧
      voxelNum 64 1 (5 / 2) = 2 ∧
      ⌊((5 : ℚ) / 2 - ((2 : Nat) : ℚ) * 1) / (1 / 2 ^ (ws + 1))⌋₊ = 2 ^ ws ∧
      subVoxelPos 64 ws 1 (1 / 2 ^ (ws + 1)) (5 / 2) = 0 ∧
      ¬ ((5 : ℚ) / 2 - rebuiltCoord 1 (1 / 2 ^ (ws + 1)) 2 0 < 1 / 2 ^ (ws + 1))) ∧
    (sampleAllocated.simParams.voxelSize = 1 ∧ sampleAllocated.simParams.l = 1 / 8 ∧
      sampleAllocated.simParams.nvXp2 = 4 ∧
      ∃ d1, loadClumpPosition 64 16 sampleAllocated.simParams 0 (17, 0, 0)
          sampleAllocated.granData = some d1 ∧
        d1.voxelID[0]? = some 17 ∧ d1.locX[0]? = some 0 ∧
        voxelIDX 64 sampleAllocated.simParams.nvXp2 17 = 1 ∧
        ¬ ((17 : ℚ) - rebuiltCoord sampleAllocated.simParams.voxelSize sampleAllocated.simParams.l
            (voxelIDX 64 sampleAllocated.simParams.nvXp2 17) 0 < sampleAllocated.simParams.l)) := by
  have v2 : voxelNum 64 1 (5 / 2) = 2 := by
    unfold voxelNum
    rw [toUnsigned_eq_floor 64 _ (by norm_num) (by norm_num)]
    rw [Nat.floor_eq_iff (by norm_num)]
    norm_num
  have v17 : voxelNum 64 1 17 = 17 := by
    unfold voxelNum
    rw [toUnsigned_eq_floor 64 _ (by norm_num) (by norm_num)]
    rw [Nat.floor_eq_iff (by norm_num)]
    norm_num
  have v0 : voxelNum 64 1 0 = 0 := by
    unfold voxelNum
    rw [toUnsigned_eq_floor 64 _ (by norm_num) (by norm_num)]
    simp
  have s17 : subVoxelPos 64 16 1 (1 / 8) 17 = 0 := by
    unfold subVoxelPos
    rw [v17, toUnsigned_eq_floor 16 _ (by norm_num) (by norm_num)]
    norm_num
  have hV : sampleAllocated.simParams.voxelSize = 1 := rfl
  have hl : sampleAllocated.simParams.l = 1 / 8 := rfl
  have hX : sampleAllocated.simParams.nvXp2 = 4 := rfl
  have hY : sampleAllocated.simParams.nvYp2 = 4 := rfl
  refine ⟨fun ws => ?_, hV, hl, hX, ?_⟩
  · have hp : (0 : ℚ) < 1 / 2 ^ (ws + 1) := by positivity
    have e : ((5 : ℚ) / 2 - ((2 : Nat) : ℚ) * 1) / (1 / 2 ^ (ws + 1)) = ((2 ^ ws : Nat) : ℚ) := by
      push_cast
      rw [pow_succ]
      field_simp
      ring
    refine ⟨by norm_num, by norm_num, hp, v2, ?_, ?_, ?_⟩
    · rw [e, Nat.floor_natCast]
    · unfold subVoxelPos toUnsigned
      rw [v2, e, if_pos (by positivity)]
      have : ⌊((2 ^ ws : Nat) : ℚ)⌋ = ((2 ^ ws : Nat) : ℤ) := Int.floor_natCast _
      rw [this]
      push_cast
      rw [Int.emod_self]
      rfl
    · unfold rebuiltCoord
      have h1 : (1 : ℚ) / 2 ^ (ws + 1) ≤ 1 / 2 := by
        rw [pow_succ]
        have : (1 : ℚ) ≤ 2 ^ ws := one_le_pow₀ (by norm_num)
        exact one_div_le_one_div_of_le (by norm_num) (by linarith)
      push_cast
      intro h
      linarith
  · obtain ⟨d1, e, a, b, _, _⟩ := loadClumpPosition_entries 64 16 sampleAllocated.simParams 0
      (17, 0, 0) sampleAllocated.granData 0 (by decide) (by decide) (by decide) (by decide)
    simp only [hV, hl, hX, hY] at a b ⊢
    refine ⟨d1, e, ?_, ?_, by decide, ?_⟩
    · rw [a, v17, v0]
      decide
    · rw [b]; exact congrArg some s17
    · have e1 : voxelIDX 64 4 17 = 1 := by decide
      rw [e1]
      unfold rebuiltCoord
      norm_num

/-- Claim C16, amended. In exact arithmetic, let the voxel size `V` and the sub-voxel length
`l` be positive with `V <= l * 2^ws` (every sub-voxel position fits `subVoxelPos_t`, of `ws`
bits), let `nvXp2 + nvYp2 + nvZp2` not exceed the width `w` of `voxelID_t` with
`nvXp2 + nvYp2 < w`, and let each coordinate `c` of a clump, measured from the domain origin,
lie inside the domain: `0 <= c < V * 2^nv` for its direction. Then the statements of
`populateManagedArrays` for clump `i`, run on a voxel slot holding 0, succeed, and with the
voxel number decoded from the packed index as in `WriteCsvAsSpheres` and the sub-voxel
position stored, in each direction: the voxel number is floor(c / V), the sub-voxel position
`loc` is floor((c - voxelNum * V) / l), the rebuilt position `voxelNum * V + loc * l`
satisfies `0 <= c - (voxelNum * V + loc * l) < l`, and `loc * l < V`. -/
theorem C16_position_encoding_error (w ws : Nat) (p : DEMSimParams) (i : Nat) (c : float3)
    (d : DEMDataDT) (hV : 0 < p.voxelSize) (hl : 0 < p.l)
    (hw : p.nvXp2 + p.nvYp2 + p.nvZp2 ≤ w) (hxy : p.nvXp2 + p.nvYp2 < w)
    (hfit : p.voxelSize ≤ p.l * 2 ^ ws)
    (hx : 0 ≤ c.1 ∧ c.1 < p.voxelSize * 2 ^ p.nvXp2)
    (hy : 0 ≤ c.2.1 ∧ c.2.1 < p.voxelSize * 2 ^ p.nvYp2)
    (hz : 0 ≤ c.2.2 ∧ c.2.2 < p.voxelSize * 2 ^ p.nvZp2)
    (hslot : d.voxelID[i]? = some 0)
    (hlen : i < d.locX.length ∧ i < d.locY.length ∧ i < d.locZ.length) :
    ∃ d1 id lx ly lz, loadClumpPosition w ws p i c d = some d1 ∧
      d1.voxelID[i]? = some id ∧ d1.locX[i]? = some lx ∧ d1.locY[i]? = some ly ∧
      d1.locZ[i]? = some lz ∧
      encodesWithin p.voxelSize p.l c.1 (voxelIDX w p.nvXp2 id) lx ∧
      encodesWithin p.voxelSize p.l c.2.1 (voxelIDY w p.nvXp2 p.nvYp2 id) ly ∧
      encodesWithin p.voxelSize p.l c.2.2 (voxelIDZ w p.nvXp2 p.nvYp2 id) lz := by
  obtain ⟨d1, e, a, bx, by1, bz⟩ := loadClumpPosition_entries w ws p i c d 0 hlen.1 hlen.2.1
    hlen.2.2 hslot
  obtain ⟨nx, ex⟩ := axis_encoding w ws p.nvXp2 p.voxelSize p.l c.1 hx.1 hV hl (by omega) hx.2 hfit
  obtain ⟨ny, ey⟩ := axis_encoding w ws p.nvYp2 p.voxelSize p.l c.2.1 hy.1 hV hl (by omega) hy.2
    hfit
  obtain ⟨nz, ez⟩ := axis_encoding w ws p.nvZp2 p.voxelSize p.l c.2.2 hz.1 hV hl (by omega) hz.2
    hfit
  obtain ⟨_, rx, ry, rz⟩ := voxelIndex_round_trip w p.nvXp2 p.nvYp2 p.nvZp2 _ _ _ hw hxy nx ny nz
  refine ⟨d1, _, _, _, _, e, a, bx, by1, bz, ?_, ?_, ?_⟩
  · rw [rx]; exact ex
  · rw [ry]; exact ey
  · rw [rz]; exact ez

/-- Claim C16, witness: 16 voxels of size 1 per direction, sub-voxel length 1/8, a clump at
(5/2, 0, 1) loaded into slot 1 of `sampleAllocated`. -/
theorem C16_position_encoding_witness :
    0 < sampleAllocated.simParams.voxelSize ∧ 0 < sampleAllocated.simParams.l ∧
    sampleAllocated.simParams.nvXp2 + sampleAllocated.simParams.nvYp2 +
      sampleAllocated.simParams.nvZp2 ≤ 64 ∧
    sampleAllocated.simParams.nvXp2 + sampleAllocated.simParams.nvYp2 < 64 ∧
    sampleAllocated.simParams.voxelSize ≤ sampleAllocated.simParams.l * 2 ^ 16 ∧
    ((0 : ℚ) ≤ 5 / 2 ∧
      (5 / 2 : ℚ) < sampleAllocated.simParams.voxelSize * 2 ^ sampleAllocated.simParams.nvXp2) ∧
    ((0 : ℚ) ≤ 0 ∧
      (0 : ℚ) < sampleAllocated.simParams.voxelSize * 2 ^ sampleAllocated.simParams.nvYp2) ∧
    ((0 : ℚ) ≤ 1 ∧
      (1 : ℚ) < sampleAllocated.simParams.voxelSize * 2 ^ sampleAllocated.simParams.nvZp2) ∧
    sampleAllocated.granData.voxelID[1]? = some 0 ∧
    (1 < sampleAllocated.granData.locX.length ∧ 1 < sampleAllocated.granData.locY.length ∧
      1 < sampleAllocated.granData.locZ.length) ∧
    ∃ d1 id lx ly lz,
      loadClumpPosition 64 16 sampleAllocated.simParams 1 (5 / 2, 0, 1)
        sampleAllocated.granData = some d1 ∧
      d1.voxelID[1]? = some id ∧ d1.locX[1]? = some lx ∧ d1.locY[1]? = some ly ∧
      d1.locZ[1]? = some lz ∧
      encodesWithin sampleAllocated.simParams.voxelSize sampleAllocated.simParams.l (5 / 2)
        (voxelIDX 64 sampleAllocated.simParams.nvXp2 id) lx ∧
      encodesWithin sampleAllocated.simParams.voxelSize sampleAllocated.simParams.l 0
        (voxelIDY 64 sampleAllocated.simParams.nvXp2 sampleAllocated.simParams.nvYp2 id) ly ∧
      encodesWithin sampleAllocated.simParams.voxelSize sampleAllocated.simParams.l 1
        (voxelIDZ 64 sampleAllocated.simParams.nvXp2 sampleAllocated.simParams.nvYp2 id) lz := by
  have hV : sampleAllocated.simParams.voxelSize = 1 := rfl
  have hl : sampleAllocated.simParams.l = 1 / 8 := rfl
  have hX : sampleAllocated.simParams.nvXp2 = 4 := rfl
  have hY : sampleAllocated.simParams.nvYp2 = 4 := rfl
  have hZ : sampleAllocated.simParams.nvZp2 = 4 := rfl
  have h1 : 0 < sampleAllocated.simParams.voxelSize := by rw [hV]; norm_num
  have h2 : 0 < sampleAllocated.simParams.l := by rw [hl]; norm_num
  have h5 : sampleAllocated.simParams.voxelSize ≤ sampleAllocated.simParams.l * 2 ^ 16 := by
    rw [hV, hl]; norm_num
  have h6 : (0 : ℚ) ≤ 5 / 2 ∧
      (5 / 2 : ℚ) < sampleAllocated.simParams.voxelSize * 2 ^ sampleAllocated.simParams.nvXp2 := by
    rw [hV, hX]; norm_num
  have h7 : (0 : ℚ) ≤ 0 ∧
      (0 : ℚ) < sampleAllocated.simParams.voxelSize * 2 ^ sampleAllocated.simParams.nvYp2 := by
    rw [hV, hY]; norm_num
  have h8 : (0 : ℚ) ≤ 1 ∧
      (1 : ℚ) < sampleAllocated.simParams.voxelSize * 2 ^ sampleAllocated.simParams.nvZp2 := by
    rw [hV, hZ]; norm_num
  exact ⟨h1, h2, by decide, by decide, h5, h6, h7, h8, by decide, by decide,
    C16_position_encoding_error 64 16 sampleAllocated.simParams 1 (5 / 2, 0, 1)
      sampleAllocated.granData h1 h2 (by decide) (by decide) h5 h6 h7 h8 (by decide)
      (by decide)⟩

/-- Claim C17. Let the inputs be well shaped (locations and materials listed per template
as the radii are, every clump type naming a template) and the arrays of `s` allocated for
their totals. Then `populateManagedArrays` returns a state, and in it, for every input clump
`i` of type `t` whose template has the radii `R`, the locations `Lc` and the materials `M`,
and every `j < R.length`, the sphere at the global index
k = (number of spheres of the clumps before `i`) + j has `ownerClumpBody[k] = i`,
`clumpComponentOffset[k]` = (number of components of the templates before `t`) + j,
`radiiSphere` at that offset is `R[j]`, the three `relPosSphere` entries at that offset are
the components of `Lc[j]`, and `materialTupleOffset[k] = M[j]`. -/
theorem C17_component_offset_mapping (w ws : Nat) (s : DEMDynamicThread) (inp : PopulateInputs)
    (hshape : wellShaped inp) (halloc : allocatedFor s inp) :
    ∃ s1, populateManagedArrays w ws s inp = some s1 ∧
      ∀ i t R Lc M, inp.input_clump_types[i]? = some t →
        inp.clumps_sp_radii_types[t]? = some R →
        inp.clumps_sp_location_types[t]? = some Lc →
        inp.input_clumps_sp_mat_ids[t]? = some M →
        ∀ j, j < R.length →
          s1.granData.ownerClumpBody[spheresBefore inp i + j]? = some i ∧
          s1.granData.clumpComponentOffset[spheresBefore inp i + j]? =
            some (componentsBefore inp.clumps_sp_radii_types t + j) ∧
          (∃ r, R[j]? = some r ∧
            s1.granTemplates.radiiSphere[componentsBefore inp.clumps_sp_radii_types t + j]? =
              some r) ∧
          (∃ loc, Lc[j]? = some loc ∧
            s1.granTemplates.relPosSphereX[componentsBefore inp.clumps_sp_radii_types t + j]? =
              some loc.1 ∧
            s1.granTemplates.relPosSphereY[componentsBefore inp.clumps_sp_radii_types t + j]? =
              some loc.2.1 ∧
            s1.granTemplates.relPosSphereZ[componentsBefore inp.clumps_sp_radii_types t + j]? =
              some loc.2.2) ∧
          (∃ m, M[j]? = some m ∧
            s1.granData.materialTupleOffset[spheresBefore inp i + j]? = some m) := by
  have hshape0 := hshape
  obtain ⟨sh1, sh2, sh3, sh4, sh5, sh6, sh7, sh8, sh9⟩ := hshape
  obtain ⟨a1, a2, a3, a4, a5, a6, a7, a8, a9, a10, a11, a12, a13, a14⟩ := halloc
  obtain ⟨g1, e1, m1, m2, m3, m4, m5, m6, m7, m8⟩ :=
    loadMaterial_loop inp s.granTemplates sh7 sh8 a1 a2 a3
  obtain ⟨g2, e2, r5, r6, r7, r8⟩ := loadMassMOI_loop inp g1 sh9
    (by rw [m1]; exact a4) (by rw [m2]; exact a5) (by rw [m3]; exact a6) (by rw [m4]; exact a7)
  obtain ⟨v, e3, _, cR, _⟩ := loadRadii_spec inp.clumps_sp_radii_types g2.radiiSphere 0 [0]
    (by rw [r5, m5, Nat.zero_add]; exact a8)
  have hlen : inp.clumps_sp_location_types.length = inp.clumps_sp_radii_types.length := by
    have := congrArg List.length sh1
    simpa using this
  have hcb : componentsBefore inp.clumps_sp_location_types inp.clumps_sp_location_types.length =
      componentsBefore inp.clumps_sp_radii_types inp.clumps_sp_radii_types.length := by
    rw [hlen]; exact componentsBefore_congr _ _ sh1 _
  obtain ⟨X, Y, Z, e4, _, _, _, cL, _⟩ := loadRelPos_spec inp.clumps_sp_location_types
    g2.relPosSphereX g2.relPosSphereY g2.relPosSphereZ 0
    (by rw [r6, m6, Nat.zero_add, hcb]; exact a9)
    (by rw [r7, m7, Nat.zero_add, hcb]; exact a10)
    (by rw [r8, m8, Nat.zero_add, hcb]; exact a11)
  obtain ⟨st, e5, _, hg, _, hc⟩ := loadClump_loop w ws inp
    { s with granTemplates := { g2 with
        radiiSphere := v, relPosSphereX := X, relPosSphereY := Y, relPosSphereZ := Z } }
    hshape0 a13 a14
  refine ⟨st.2, ?_, ?_⟩
  · simp only [populateManagedArrays, e1, e2, e3, e4, e5, Option.pure_def, Option.bind_eq_bind,
      Option.some_bind]
  · intro i t R Lc M ht hR hL hM j hj
    have hi : i < inp.input_clump_types.length := by
      rcases Nat.lt_or_ge i inp.input_clump_types.length with h | h
      · exact h
      · rw [List.getElem?_eq_none h] at ht; exact absurd ht (by simp)
    obtain ⟨c1, c2, c3⟩ := hc i t R M hi ht hR hM j hj
    have hbound := componentsBefore_succ_le _ t R hR
    obtain ⟨M1, hM1, hML⟩ := getElem?_length_congr _ _ sh2 _ _ hR
    obtain ⟨L1, hL1, hLL⟩ := getElem?_length_congr _ _ sh1 _ _ hR
    rw [hM] at hM1
    rw [hL] at hL1
    simp only [Option.some.injEq] at hM1 hL1
    subst hM1
    subst hL1
    have hjM : j < M.length := by omega
    have hjL : j < Lc.length := by omega
    have cRj := cR t R hR j hj
    have cLj := cL t Lc hL j Lc[j] (List.getElem?_eq_getElem hjL)
    rw [Nat.zero_add] at cRj
    rw [Nat.zero_add, componentsBefore_congr _ _ sh1 t] at cLj
    rw [hg]
    refine ⟨c3, ?_, ⟨R[j], List.getElem?_eq_getElem hj, ?_⟩,
      ⟨Lc[j], List.getElem?_eq_getElem hjL, cLj⟩,
      ⟨M[j], List.getElem?_eq_getElem hjM, ?_⟩⟩
    · rw [c2, Nat.mod_eq_of_lt (by omega)]
    · rw [← List.getElem?_eq_getElem hj]; exact cRj
    · rw [c1]; exact List.getElem?_eq_getElem hjM
/-- Claim C17, witness: the three clumps of `sampleInputs`; the second sphere of the third
clump, global index 3 + 1, is owned by clump 2. -/
theorem C17_component_offset_witness :
    wellShaped sampleInputs ∧ allocatedFor sampleAllocated sampleInputs ∧
    ∃ s1, populateManagedArrays 16 16 sampleAllocated sampleInputs = some s1 ∧
      s1.granData.ownerClumpBody[spheresBefore sampleInputs 2 + 1]? = some 2 := by
  have h1 : wellShaped sampleInputs := by decide
  have h2 : allocatedFor sampleAllocated sampleInputs := by decide
  obtain ⟨s1, e, h⟩ := C17_component_offset_mapping 16 16 sampleAllocated sampleInputs h1 h2
  exact ⟨h1, h2, s1, e, (h 2 1 [1/4, 1/3] [(1/4, 0, 0), (-1/4, 0, 0)] [1, 0] rfl rfl rfl rfl 1
    (by decide)).1⟩

/-- Claim C18. With the kernels as the spec describes them, for any contact model and any
integration kernel: let the six accumulator arrays hold `nClumpBodies` entries and let clump
`c < nClumpBodies` own neither body of any of the `numContacts` current contact pairs (the
case `numContacts = 0` included). After `calculateForces` its linear acceleration
accumulators are `h * h * G / l` per component and its angular acceleration accumulators are
zero. -/
theorem C18_zero_contact_gravity_only (C : ContactModel) (I : DEMSimParams → DEMDataDT → DEMDataDT)
    (s : DEMDynamicThread) (c : Nat) (hc : c < s.simParams.nClumpBodies)
    (hl : accumulatorsHold s.granData s.simParams.nClumpBodies)
    (hn : inNoContactPair s.granData s.numContacts c) :
    accelerationOf (calculateForces (specKernels C I) s).granData c =
      [some (s.simParams.h * s.simParams.h * s.simParams.Gx / s.simParams.l),
       some (s.simParams.h * s.simParams.h * s.simParams.Gy / s.simParams.l),
       some (s.simParams.h * s.simParams.h * s.simParams.Gz / s.simParams.l),
       some 0, some 0, some 0] := by
  obtain ⟨l1, l2, l3, l4, l5, l6⟩ := hl
  simp only [calculateForces, specKernels, cubCollectForces]
  rw [foldl_collectPair_acceleration]
  · simp only [accelerationOf, calculateNormalContactForces, prepareForceArrays,
      deviceFill_getElem? _ _ _ _ hc l1, deviceFill_getElem? _ _ _ _ hc l2,
      deviceFill_getElem? _ _ _ _ hc l3, deviceFill_getElem? _ _ _ _ hc l4,
      deviceFill_getElem? _ _ _ _ hc l5, deviceFill_getElem? _ _ _ _ hc l6]
  · intro k hk
    exact hn k (List.mem_range.mp hk)
/-- Claim C18, witness: three clumps, one contact pair between clumps 0 and 1; clump 2 ends
with gravity only. -/
theorem C18_zero_contact_witness :
    2 < contactScene.simParams.nClumpBodies ∧
    accumulatorsHold contactScene.granData contactScene.simParams.nClumpBodies ∧
    inNoContactPair contactScene.granData contactScene.numContacts 2 ∧
    accelerationOf (calculateForces (specKernels unitModel fun _ d => d) contactScene).granData 2 =
      [some (contactScene.simParams.h * contactScene.simParams.h * contactScene.simParams.Gx /
          contactScene.simParams.l),
       some (contactScene.simParams.h * contactScene.simParams.h * contactScene.simParams.Gy /
          contactScene.simParams.l),
       some (contactScene.simParams.h * contactScene.simParams.h * contactScene.simParams.Gz /
          contactScene.simParams.l),
       some 0, some 0, some 0] :=
  ⟨by decide, by decide, by decide,
    C18_zero_contact_gravity_only unitModel (fun _ d => d) contactScene 2 (by decide)
      (by decide) (by decide)⟩

/-- Claim C19, counterexample. Run a call of two cycles from thread entry up to
`calculateForces` of cycle 0 and let that call report an error. dT leaves the loop, and what
`dT.cpp` lets the driver read, the value of `isUserCallDone` and the shared scheduling object,
is exactly what it reads of the dT that stands at the same statement without a failure; it
stays so whatever the driver and kT do next, and `isUserCallDone` is false under every later
schedule. No statement of `dT.cpp` stores the error: the failure does not reach the driver
through dT. -/
theorem C19_fault_not_surfaced_counterexample :
    (exec idKernels upToForces (idle 1 2)).pc = PC.calc ∧
    (exec idKernels upToForces (idle 1 2)).cycle = 0 ∧
    (exec idKernels (upToForces ++ [Event.dT true]) (idle 1 2)).pc = PC.faulted ∧
    driverView (exec idKernels (upToForces ++ [Event.dT true]) (idle 1 2)) =
      driverView (exec idKernels upToForces (idle 1 2)) ∧
    isUserCallDone (exec idKernels (upToForces ++ [Event.dT true]) (idle 1 2)) = false ∧
    (∀ E : List EnvEvent,
      driverView (envs E (exec idKernels (upToForces ++ [Event.dT true]) (idle 1 2))) =
        driverView (envs E (exec idKernels upToForces (idle 1 2)))) ∧
    (∀ sch : List Event,
      isUserCallDone (exec idKernels sch
        (exec idKernels (upToForces ++ [Event.dT true]) (idle 1 2))) = false) := by
  have hp : (exec idKernels (upToForces ++ [Event.dT true]) (idle 1 2)).pc = PC.faulted := by
    decide
  have hv : driverView (exec idKernels (upToForces ++ [Event.dT true]) (idle 1 2)) =
      driverView (exec idKernels upToForces (idle 1 2)) := by decide
  have hu : isUserCallDone (exec idKernels (upToForces ++ [Event.dT true]) (idle 1 2)) = false := by
    decide
  refine ⟨by decide, by decide, hp, hv, hu, fun E => envs_driverView E _ _ hv, fun sch => ?_⟩
  have f := exec_faulted idKernels sch _ hp
  simp only [isUserCallDone] at hu ⊢
  rw [f.userCallDone]
  exact hu

/-- Claim C19, amended. Let dT stand at a statement of `workerThread` that makes GPU calls
(`sendToTheirBuffer` of the bootstrap or of the republish, `unpackMyBuffer`,
`calculateForces`, `integrateClumpMotions`) and let one of them report an error. The step
leaves the loop at the fault exit; putting the device arrays and the contact count back gives
the state before the step, so the flags, the stamps, the counters, the cycle number and the
log are untouched. A failed `sendToTheirBuffer` changes the kT-owned buffer only, a failed
`unpackMyBuffer` the contact count and the five contact-event arrays only, a failed kernel
call leaves the contact count. Under every later schedule dT stays at the fault exit and
every step of `workerThread` leaves the state as it is: no force computation and no
integration is run, the log is the one before the fault, the arrays of dT and the contact
count are what the failed operation left, the cycle number, the stamps and the two counters
are those before the fault, so nothing done before is rolled back; and `isUserCallDone`
keeps the value it had, the failed call is never reported as done. -/
theorem C19_fault_aborts_remaining_cycles (K : Kernels) (s : DEMDynamicThread) (sch : List Event)
    (hpc : PC.isGPUCall s.pc = true) :
    (workerThreadStep K true s).pc = PC.faulted ∧
    { workerThreadStep K true s with granData := s.granData, numContacts := s.numContacts } =
      goto PC.faulted s ∧
    (s.pc = PC.bootSend ∨ s.pc = PC.repSend →
      (workerThreadStep K true s).numContacts = s.numContacts ∧
      (workerThreadStep K true s).granData.withKTOwnedBuffer s.granData.kTOwnedBuffer =
        s.granData) ∧
    (s.pc = PC.unpack →
      { (workerThreadStep K true s).granData with
        idGeometryA := s.granData.idGeometryA
        idGeometryB := s.granData.idGeometryB
        contactForces := s.granData.contactForces
        contactPointGeometryA := s.granData.contactPointGeometryA
        contactPointGeometryB := s.granData.contactPointGeometryB } = s.granData) ∧
    (s.pc = PC.calc ∨ s.pc = PC.integ →
      (workerThreadStep K true s).numContacts = s.numContacts) ∧
    (exec K sch (workerThreadStep K true s)).pc = PC.faulted ∧
    (∀ fault, workerThreadStep K fault (exec K sch (workerThreadStep K true s)) =
      exec K sch (workerThreadStep K true s)) ∧
    (exec K sch (workerThreadStep K true s)).callLog = s.callLog ∧
    dTOwned (exec K sch (workerThreadStep K true s)).granData =
      dTOwned (workerThreadStep K true s).granData ∧
    (exec K sch (workerThreadStep K true s)).numContacts =
      (workerThreadStep K true s).numContacts ∧
    (exec K sch (workerThreadStep K true s)).cycle = s.cycle ∧
    (exec K sch (workerThreadStep K true s)).pSchedSupport.currentStampOfDynamic =
      s.pSchedSupport.currentStampOfDynamic ∧
    (exec K sch (workerThreadStep K true s)).pSchedSupport.stampLastUpdateOfDynamic =
      s.pSchedSupport.stampLastUpdateOfDynamic ∧
    (exec K sch (workerThreadStep K true s)).pSchedSupport.nKinematicUpdates =
      s.pSchedSupport.nKinematicUpdates ∧
    (exec K sch (workerThreadStep K true s)).pSchedSupport.nTimesDynamicHeldBack =
      s.pSchedSupport.nTimesDynamicHeldBack ∧
    isUserCallDone (exec K sch (workerThreadStep K true s)) = isUserCallDone s := by
  obtain ⟨hf, hs⟩ := faultStep_spec K s hpc
  have f := exec_faulted K sch (workerThreadStep K true s) hf
  have hp2 : (exec K sch (workerThreadStep K true s)).pc = PC.faulted := by
    rw [f.pc (by rw [hf]; rfl), hf]
  have g : ∀ {α : Type} (p : DEMDynamicThread → α),
      p { workerThreadStep K true s with
        granData := s.granData, numContacts := s.numContacts } = p (goto PC.faulted s) :=
    fun p => congrArg p hs
  refine ⟨hf, hs, ?_, ?_, ?_, hp2, fun fault => faulted_fixed K fault _ hp2, ?_, f.data,
    f.numContacts, ?_, ?_, ?_, ?_, ?_, ?_⟩
  · rintro (hp | hp) <;>
      simp [workerThreadStep, GPU_CALL, hp, goto, DEMDataDT.withKTOwnedBuffer,
        DEMDataDT.kTOwnedBuffer]
  · intro hp
    simp [workerThreadStep, GPU_CALL, hp, goto]
  · rintro (hp | hp) <;> simp [workerThreadStep, GPU_CALL, hp, goto]
  · rw [f.callLog]; exact g (fun t => t.callLog)
  · rw [f.cycle]; exact g (fun t => t.cycle)
  · rw [f.stampCur]; exact g (fun t => t.pSchedSupport.currentStampOfDynamic)
  · rw [f.stampLast]; exact g (fun t => t.pSchedSupport.stampLastUpdateOfDynamic)
  · rw [f.nKU]; exact g (fun t => t.pSchedSupport.nKinematicUpdates)
  · rw [f.nHeld]; exact g (fun t => t.pSchedSupport.nTimesDynamicHeldBack)
  · simp only [isUserCallDone]
    rw [f.userCallDone]; exact g (fun t => t.userCallDone)

/-- Claim C19, witness: `calculateForces` fails in cycle 0 of a run from thread entry; two
more steps of dT and a delivery by kT later dT is still at the fault exit and the log holds
the bootstrap write and the unpack, no force computation. -/
theorem C19_fault_witness :
    PC.isGPUCall (exec idKernels upToForces (idle 1 2)).pc = true ∧
    (exec idKernels [Event.dT false, Event.env EnvEvent.kTFresh, Event.dT false]
      (workerThreadStep idKernels true (exec idKernels upToForces (idle 1 2)))).pc =
        PC.faulted ∧
    (exec idKernels [Event.dT false, Event.env EnvEvent.kTFresh, Event.dT false]
      (workerThreadStep idKernels true (exec idKernels upToForces (idle 1 2)))).callLog =
        [Call.sendToTheirBuffer, Call.unpackMyBuffer] :=
  ⟨by decide,
    (C19_fault_aborts_remaining_cycles idKernels (exec idKernels upToForces (idle 1 2))
      [Event.dT false, Event.env EnvEvent.kTFresh, Event.dT false] (by decide)).2.2.2.2.2.1,
    ((C19_fault_aborts_remaining_cycles idKernels (exec idKernels upToForces (idle 1 2))
      [Event.dT false, Event.env EnvEvent.kTFresh, Event.dT false]
      (by decide)).2.2.2.2.2.2.2.1).trans (by decide)⟩

/-- Claim C20. `startThread` sets `dynamicStarted`; putting the old value of the flag and
the old program point back gives the state before the call, so no other field changed (the
freshness flags, the stamps, the counters, `dynamicDone`, `userCallDone`, the arrays), and the
program point changes only for a dT blocked in the start-wait, which is woken. If dT is inside
the start-wait with `dynamicShouldJoin` false, then after `startThread` its next three steps,
with any events of kT between them, take it to the first statement of a user call with
`dynamicStarted` cleared and an empty log; and under every later schedule without another
`startThread`, `dynamicStarted` stays false, dT never begins another user call, and the kernel
calls logged are a prefix of the `nDynamicCycles` cycles of that one call. -/
theorem C20_start_signal_begins_one_call (K : Kernels) (s : DEMDynamicThread) :
    ((startThread s).pSchedSupport.dynamicStarted = true ∧
      { startThread s with
        pSchedSupport := { (startThread s).pSchedSupport with
          dynamicStarted := s.pSchedSupport.dynamicStarted }
        pc := s.pc } = s ∧
      ((startThread s).pc = s.pc ∨
        (s.pc = PC.startSleep ∧ (startThread s).pc = PC.startCheck))) ∧
    (inWait Wait.start s → s.pSchedSupport.dynamicShouldJoin = false →
      ∀ E1 E2 E3 : List EnvEvent,
        (∀ e ∈ E1, EnvEvent.isKT e = true) → (∀ e ∈ E2, EnvEvent.isKT e = true) →
        (∀ e ∈ E3, EnvEvent.isKT e = true) →
        let a := envs E1 (startThread s)
        let b := envs E2 (workerThreadStep K false a)
        let c := envs E3 (workerThreadStep K false b)
        let d := workerThreadStep K false c
        d.pc = PC.bootSend ∧ d.pSchedSupport.dynamicStarted = false ∧ d.callLog = [] ∧
        ∀ sch : List Event, (∀ ev ∈ sch, ev ≠ Event.env EnvEvent.startThread) →
          (exec K sch d).pSchedSupport.dynamicStarted = false ∧
          (exec K sch d).pc ≠ PC.startClear ∧ (exec K sch d).pc ≠ PC.joinCheck ∧
          kernelCalls (exec K sch d).callLog <+: cyclesLog s.nDynamicCycles) := by
  constructor
  · refine ⟨by simp [startThread], by simp [startThread], ?_⟩
    by_cases hp : s.pc = PC.startSleep
    · right; exact ⟨hp, by simp [startThread, hp]⟩
    · left; simp [startThread, hp]
  · intro hw hj E1 E2 E3 h1 h2 h3 a b c d
    have p0 : (startThread s).pc = PC.startCheck := by
      rcases hw with h | h <;> simp only [Wait.check, Wait.sleep] at h <;>
        simp [startThread, h]
    have j0 : (startThread s).pSchedSupport.dynamicShouldJoin = false := by
      simp [startThread, hj]
    have fa : EnvFrame (startThread s) a := envs_frame E1 _
    have ka := envs_kT_frame E1 (startThread s) h1
    have pa : a.pc = PC.startCheck := by rw [fa.pc (by rw [p0]; rfl), p0]
    have ea : workerThreadStep K false a = goto PC.startClear a := by
      simp [workerThreadStep, pa, fa.started (by simp [startThread])]
    have fb : EnvFrame (workerThreadStep K false a) b := envs_frame E2 _
    have kb := envs_kT_frame E2 (workerThreadStep K false a) h2
    rw [ea] at fb
    have pb : b.pc = PC.startClear := fb.pc rfl
    have eb : workerThreadStep K false b = goto PC.joinCheck
        { b with pSchedSupport := { b.pSchedSupport with dynamicStarted := false } } := by
      simp [workerThreadStep, pb]
    have fc : EnvFrame (workerThreadStep K false b) c := envs_frame E3 _
    have kc := envs_kT_frame E3 (workerThreadStep K false b) h3
    rw [eb] at fc
    have hpcc : c.pc = PC.joinCheck := fc.pc rfl
    have jc : c.pSchedSupport.dynamicShouldJoin = false :=
      kc.2.trans ((by rw [eb]; rfl : _ = b.pSchedSupport.dynamicShouldJoin).trans
        (kb.2.trans ((by rw [ea]; rfl : _ = a.pSchedSupport.dynamicShouldJoin).trans
          (ka.2.trans j0))))
    have sc : c.pSchedSupport.dynamicStarted = false :=
      kc.1.trans (by rw [eb]; rfl)
    have nc : c.nDynamicCycles = s.nDynamicCycles := by
      rw [fc.nDynamicCycles]; show b.nDynamicCycles = _
      rw [fb.nDynamicCycles]; show a.nDynamicCycles = _
      rw [fa.nDynamicCycles]; rfl
    have ed : d = goto PC.bootSend { c with callLog := [] } := by
      simp [d, workerThreadStep, hpcc, jc]
    have hI : CallInv d.pSchedSupport.currentStampOfDynamic d.userCallDone
        s.nDynamicCycles d := by
      rw [ed]
      refine ⟨nc, sc, ?_⟩
      simp [goto, kernelCalls]
    refine ⟨by rw [ed]; rfl, by rw [ed]; exact sc, by rw [ed]; rfl, ?_⟩
    intro sch hsch
    have hE := callInv_exec K _ _ _ sch d hsch hI
    refine ⟨hE.2.1, ?_, ?_, callInv_kernelCalls_initial _ _ _ _ hE⟩
    · intro hp
      have := hE.2.2
      rw [hp] at this
      exact this
    · intro hp
      have := hE.2.2
      rw [hp] at this
      exact this
/-- Claim C20, witness: a dT blocked in the start-wait gets the start signal and takes three
steps; it is at the first statement of the user call. -/
theorem C20_start_signal_witness :
    inWait Wait.start blockedAtStart ∧
    blockedAtStart.pSchedSupport.dynamicShouldJoin = false ∧
    (workerThreadStep idKernels false (workerThreadStep idKernels false
      (workerThreadStep idKernels false (startThread blockedAtStart)))).pc = PC.bootSend :=
  ⟨by decide, rfl,
    ((C20_start_signal_begins_one_call idKernels blockedAtStart).2 (by decide) rfl [] [] []
      (by decide) (by decide) (by decide)).1⟩

/-- Claim C21. Let dT stand at the test of `dynamicStarted` (l. 482) with `dynamicStarted`
and `dynamicShouldJoin` both true. Its next three steps leave the worker loop, and the state
they produce is the state before with `dynamicStarted` false and the program point at the
return of `workerThread`: nothing else changed. With any events of the driver and of kT
between and after those steps dT still ends at the return and stays there; and under every
schedule the log of calls (so no `sendToTheirBuffer` and no cycle), the loop variable,
`userCallDone`, the arrays of dT, `nKinematicUpdates`, `nTimesDynamicHeldBack` and the two
stamps are those before, `kinematicOwned_Cons2ProdBuffer_isFresh` is never set, and dT is at
no program point other than l. 482, 486, 487 or the return. -/
theorem C21_shutdown_at_start_wait_does_no_work (K : Kernels) (s : DEMDynamicThread)
    (hpc : s.pc = PC.startCheck) (hstart : s.pSchedSupport.dynamicStarted = true)
    (hjoin : s.pSchedSupport.dynamicShouldJoin = true) :
    (∀ f1 f2 f3 : Bool,
      workerThreadStep K f3 (workerThreadStep K f2 (workerThreadStep K f1 s)) =
        { s with
          pc := PC.exited
          pSchedSupport := { s.pSchedSupport with dynamicStarted := false } }) ∧
    (∀ (E0 E1 E2 : List EnvEvent) (sch : List Event),
      (exec K sch (workerThreadStep K false (envs E2 (workerThreadStep K false
        (envs E1 (workerThreadStep K false (envs E0 s))))))).pc = PC.exited) ∧
    (∀ sch : List Event,
      (exec K sch s).callLog = s.callLog ∧ (exec K sch s).cycle = s.cycle ∧
      isUserCallDone (exec K sch s) = isUserCallDone s ∧
      dTOwned (exec K sch s).granData = dTOwned s.granData ∧
      (exec K sch s).pSchedSupport.nKinematicUpdates = s.pSchedSupport.nKinematicUpdates ∧
      (exec K sch s).pSchedSupport.nTimesDynamicHeldBack =
        s.pSchedSupport.nTimesDynamicHeldBack ∧
      (exec K sch s).pSchedSupport.stampLastUpdateOfDynamic =
        s.pSchedSupport.stampLastUpdateOfDynamic ∧
      (exec K sch s).pSchedSupport.currentStampOfDynamic =
        s.pSchedSupport.currentStampOfDynamic ∧
      (s.pSchedSupport.kinematicOwned_Cons2ProdBuffer_isFresh = false →
        (exec K sch s).pSchedSupport.kinematicOwned_Cons2ProdBuffer_isFresh = false) ∧
      ((exec K sch s).pc = PC.startCheck ∨ (exec K sch s).pc = PC.startClear ∨
        (exec K sch s).pc = PC.joinCheck ∨ (exec K sch s).pc = PC.exited)) := by
  have h0 : ShutdownInv s s := by
    refine ⟨hjoin, ⟨rfl, rfl, rfl, rfl, rfl, rfl, rfl, rfl, rfl, rfl, rfl, fun h => h⟩, ?_⟩
    rw [hpc]; exact hstart
  refine ⟨?_, ?_, ?_⟩
  · intro f1 f2 f3
    simp [workerThreadStep, hpc, hstart, hjoin, goto]
  · intro E0 E1 E2 sch
    apply exec_exited
    have fa := envs_frame E0 s
    have pa : (envs E0 s).pc = PC.startCheck := by rw [fa.pc (by rw [hpc]; rfl), hpc]
    have ea : workerThreadStep K false (envs E0 s) = goto PC.startClear (envs E0 s) := by
      simp [workerThreadStep, pa, fa.started hstart]
    rw [ea]
    have fb := envs_frame E1 (goto PC.startClear (envs E0 s))
    have pb : (envs E1 (goto PC.startClear (envs E0 s))).pc = PC.startClear := fb.pc rfl
    have jb : (envs E1 (goto PC.startClear (envs E0 s))).pSchedSupport.dynamicShouldJoin = true :=
      fb.join (fa.join hjoin)
    generalize envs E1 (goto PC.startClear (envs E0 s)) = b at fb pb jb
    have eb : workerThreadStep K false b = goto PC.joinCheck
        { b with pSchedSupport := { b.pSchedSupport with dynamicStarted := false } } := by
      simp [workerThreadStep, pb]
    rw [eb]
    have fc := envs_frame E2 (goto PC.joinCheck
        { b with pSchedSupport := { b.pSchedSupport with dynamicStarted := false } })
    have pcc := fc.pc rfl
    have jc := fc.join (show (goto PC.joinCheck { b with pSchedSupport :=
      { b.pSchedSupport with dynamicStarted := false } }).pSchedSupport.dynamicShouldJoin = true
      from jb)
    generalize envs E2 (goto PC.joinCheck
        { b with pSchedSupport := { b.pSchedSupport with dynamicStarted := false } }) = c
      at fc pcc jc
    have hc : c.pc = PC.joinCheck := pcc
    simp [workerThreadStep, hc, jc, goto]
  · intro sch
    obtain ⟨_, ⟨a1, a2, a3, a4, a5, a6, a7, a8, a9, a10, a11, a12⟩, hp⟩ :=
      shutdownInv_exec K s sch s h0
    refine ⟨a1, a2, a3, a6, a7, a8, a9, a10, a12, ?_⟩
    generalize (exec K sch s).pc = p at hp
    cases p <;> simp only at hp <;> simp

/-- Claim C21, witness: a dT blocked in the start-wait gets the start signal, then the
driver asks it to join; three steps later `workerThread` has returned. -/
theorem C21_shutdown_witness :
    shutdownRequested.pc = PC.startCheck ∧
    shutdownRequested.pSchedSupport.dynamicStarted = true ∧
    shutdownRequested.pSchedSupport.dynamicShouldJoin = true ∧
    workerThreadStep idKernels false (workerThreadStep idKernels false
        (workerThreadStep idKernels false shutdownRequested)) =
      { shutdownRequested with
        pc := PC.exited
        pSchedSupport := { shutdownRequested.pSchedSupport with dynamicStarted := false } } :=
  ⟨by decide, by decide, by decide,
    (C21_shutdown_at_start_wait_does_no_work idKernels shutdownRequested (by decide)
      (by decide) (by decide)).1 false false false⟩

/-- Claim C22. Take a user call from its first statement, under any schedule without a
second start signal. From the head of cycle `c` to the force computation of that cycle,
`currentStampOfDynamic` is its value at the start of the call plus `c`. The step at l. 524
sets `stampLastUpdateOfDynamic` to the loop variable `c`, whatever `currentStampOfDynamic` is,
so that right after it `currentStampOfDynamic - stampLastUpdateOfDynamic` is the value
`currentStampOfDynamic` had at the start of the call; if that value was 0, as
`resetUserCallStat` leaves it, then `currentStampOfDynamic = c` and the difference is 0. -/
theorem C22_stamp_relative_to_call_start (K : Kernels) (sch : List Event) (s0 : DEMDynamicThread)
    (hpc : s0.pc = PC.bootSend) (hstart : s0.pSchedSupport.dynamicStarted = false)
    (hlog : s0.callLog = [])
    (hsch : ∀ ev ∈ sch, ev ≠ Event.env EnvEvent.startThread) :
    ((exec K sch s0).pc = PC.cycleHead ∨ (exec K sch s0).pc = PC.consumeCheck ∨
        (exec K sch s0).pc = PC.unpack ∨ (exec K sch s0).pc = PC.consumeClear ∨
        (exec K sch s0).pc = PC.consumeStamp ∨ (exec K sch s0).pc = PC.calc →
      (exec K sch s0).pSchedSupport.currentStampOfDynamic =
        s0.pSchedSupport.currentStampOfDynamic + (exec K sch s0).cycle) ∧
    ((exec K sch s0).pc = PC.consumeStamp → ∀ fault : Bool,
      (workerThreadStep K fault (exec K sch s0)).pSchedSupport.stampLastUpdateOfDynamic =
        (exec K sch s0).cycle ∧
      (workerThreadStep K fault (exec K sch s0)).pSchedSupport.currentStampOfDynamic =
        s0.pSchedSupport.currentStampOfDynamic + (exec K sch s0).cycle ∧
      drift (workerThreadStep K fault (exec K sch s0)) =
        s0.pSchedSupport.currentStampOfDynamic ∧
      (s0.pSchedSupport.currentStampOfDynamic = 0 →
        (workerThreadStep K fault (exec K sch s0)).pSchedSupport.currentStampOfDynamic =
          (exec K sch s0).cycle ∧
        drift (workerThreadStep K fault (exec K sch s0)) = 0)) ∧
    (resetUserCallStat s0).pSchedSupport.currentStampOfDynamic = 0 := by
  have h0 : CallInv s0.pSchedSupport.currentStampOfDynamic s0.userCallDone
      s0.nDynamicCycles s0 := by
    refine ⟨rfl, hstart, ?_⟩
    rw [hpc]
    exact ⟨by rw [hlog]; rfl, rfl, rfl⟩
  have hI := callInv_exec K _ _ _ sch s0 hsch h0
  generalize exec K sch s0 = s at hI
  obtain ⟨_, _, hI⟩ := hI
  refine ⟨?_, ?_, rfl⟩
  · intro hp
    rcases hp with hp | hp | hp | hp | hp | hp <;> rw [hp] at hI <;> simp only at hI
    · exact hI.2.2.1
    · exact hI.2.2.1
    · exact hI.2.2.1
    · exact hI.2.2.1
    · exact hI.2.2.1
    · exact hI.2.2.1
  · intro hp fault
    rw [hp] at hI
    simp only at hI
    have hc := hI.2.2.1
    have e : workerThreadStep K fault s = goto PC.calc { s with pSchedSupport :=
        { s.pSchedSupport with stampLastUpdateOfDynamic := (s.cycle : Int) } } := by
      simp [workerThreadStep, hp]
    rw [e]
    refine ⟨rfl, hc, ?_, ?_⟩
    · simp only [drift, goto]
      rw [hc]; omega
    · intro h00
      constructor
      · show s.pSchedSupport.currentStampOfDynamic = _
        rw [hc, h00]; omega
      · simp only [drift, goto]
        rw [hc, h00]; omega

/-- Claim C22, witness: the call of 3 cycles of `heldRun`, stopped at l. 524 of cycle 2; the
step sets the stamp of the last update to 2 and leaves the drift 0. -/
theorem C22_stamp_witness :
    (exec idKernels ((heldRun.drop 5).take 34) (goto PC.bootSend (idle 1 3))).pc =
      PC.consumeStamp ∧
    (exec idKernels ((heldRun.drop 5).take 34) (goto PC.bootSend (idle 1 3))).cycle = 2 ∧
    (workerThreadStep idKernels false (exec idKernels ((heldRun.drop 5).take 34)
      (goto PC.bootSend (idle 1 3)))).pSchedSupport.stampLastUpdateOfDynamic =
        (exec idKernels ((heldRun.drop 5).take 34) (goto PC.bootSend (idle 1 3))).cycle ∧
    drift (workerThreadStep idKernels false (exec idKernels ((heldRun.drop 5).take 34)
      (goto PC.bootSend (idle 1 3)))) = 0 := by
  have h := (C22_stamp_relative_to_call_start idKernels ((heldRun.drop 5).take 34)
    (goto PC.bootSend (idle 1 3)) rfl rfl rfl (by decide)).2.1 (by decide) false
  exact ⟨by decide, by decide, h.1, (h.2.2.2 rfl).2⟩

/-- Claim C23. Take a user call of `N = nDynamicCycles` cycles from its first statement,
with `dynamicDone` false, under any schedule without a second start signal. In every cycle
`dynamicDone` is false up to the test of l. 537; the step at l. 537, which follows
`integrateClumpMotions` and leads to the republish test, leaves `dynamicDone` true exactly
if the cycle is `N - 1`; from there to the end of the cycle `dynamicDone` is true exactly in
cycle `N - 1`, so it is false throughout cycles `0..N-2`; once the loop is left
`dynamicDone` is true exactly if `N >= 1`; and at the head of a cycle still to be run it is
false. For `N = 0` the schedule in which kT always
delivers ends the call with `isUserCallDone` true and `dynamicDone` still false. -/
theorem C23_dynamicDone_set_in_last_cycle (K : Kernels) (s0 : DEMDynamicThread)
    (hpc : s0.pc = PC.bootSend) (hstart : s0.pSchedSupport.dynamicStarted = false)
    (hlog : s0.callLog = []) (hdone : s0.pSchedSupport.dynamicDone = false) :
    (∀ sch : List Event, (∀ ev ∈ sch, ev ≠ Event.env EnvEvent.startThread) →
      (PC.uptoDoneCheck (exec K sch s0).pc = true →
        (exec K sch s0).cycle < s0.nDynamicCycles ∧
        (exec K sch s0).pSchedSupport.dynamicDone = false) ∧
      (PC.pastDoneCheck (exec K sch s0).pc = true →
        (exec K sch s0).cycle < s0.nDynamicCycles ∧
        ((exec K sch s0).pSchedSupport.dynamicDone = true ↔
          (exec K sch s0).cycle + 1 = s0.nDynamicCycles)) ∧
      ((exec K sch s0).pc = PC.doneCheck → ∀ fault : Bool,
        (workerThreadStep K fault (exec K sch s0)).pc = PC.republishCheck ∧
        ((workerThreadStep K fault (exec K sch s0)).pSchedSupport.dynamicDone = true ↔
          (exec K sch s0).cycle + 1 = s0.nDynamicCycles)) ∧
      ((exec K sch s0).pc = PC.callDone ∨ (exec K sch s0).pc = PC.loopHead ∨
          (exec K sch s0).pc = PC.startCheck ∨ (exec K sch s0).pc = PC.startSleep ∨
          (exec K sch s0).pc = PC.exited →
        ((exec K sch s0).pSchedSupport.dynamicDone = true ↔ 0 < s0.nDynamicCycles)) ∧
      ((exec K sch s0).pc = PC.cycleHead → (exec K sch s0).cycle < s0.nDynamicCycles →
        (exec K sch s0).pSchedSupport.dynamicDone = false)) ∧
    (∀ s : DEMDynamicThread, s.pc = PC.integ →
      (workerThreadStep K false s).pc = PC.doneCheck ∧
      (workerThreadStep K false s).callLog = s.callLog ++ [Call.integrateClumpMotions]) ∧
    (s0.nDynamicCycles = 0 → s0.pSchedSupport.dynamicShouldJoin = false →
      ∃ k, (exec K (fairSchedule k) s0).pc = PC.startSleep ∧
        isUserCallDone (exec K (fairSchedule k) s0) = true ∧
        (exec K (fairSchedule k) s0).pSchedSupport.dynamicDone = false) := by
  have h0 : DoneInv s0.nDynamicCycles s0 := by
    refine ⟨rfl, hstart, ?_⟩
    rw [hpc]
    exact hdone
  have c0 : CallInv s0.pSchedSupport.currentStampOfDynamic s0.userCallDone
      s0.nDynamicCycles s0 := by
    refine ⟨rfl, hstart, ?_⟩
    rw [hpc]
    exact ⟨by rw [hlog]; rfl, rfl, rfl⟩
  refine ⟨?_, ?_, ?_⟩
  · intro sch hsch
    have hI := doneInv_exec K _ sch s0 hsch h0
    generalize exec K sch s0 = s at hI
    obtain ⟨hN, _, hI⟩ := hI
    refine ⟨?_, ?_, ?_, ?_, ?_⟩
    · intro hp
      cases hq : s.pc <;> rw [hq] at hp hI <;> simp only [PC.uptoDoneCheck] at hp hI <;>
        first
          | exact hI
          | exact absurd hp (by decide)
    · intro hp
      cases hq : s.pc <;> rw [hq] at hp hI <;> simp only [PC.pastDoneCheck] at hp hI <;>
        first
          | exact hI
          | exact absurd hp (by decide)
    · intro hp fault
      rw [hp] at hI
      simp only at hI
      by_cases hc : s.cycle = s.nDynamicCycles - 1
      · simp [workerThreadStep, hp, hc, goto]
        omega
      · simp [workerThreadStep, hp, hc, goto, hI.2]
        omega
    · intro hp
      rcases hp with hp | hp | hp | hp | hp <;> rw [hp] at hI <;> exact hI
    · intro hp hc
      rw [hp] at hI
      exact hI.2.1 hc
  · intro s hp
    simp [workerThreadStep, GPU_CALL, hp, goto, logCall, integrateClumpMotions]
  · intro hN hj
    obtain ⟨k, hk⟩ := fairSchedule_reaches_startSleep K _ _ _ s0 c0 (by rw [hpc]; rfl) hj
    refine ⟨k, hk, ?_, ?_⟩
    · have hI := callInv_exec K _ _ _ (fairSchedule k) s0 (fairSchedule_noStart k) c0
      obtain ⟨_, _, hI⟩ := hI
      rw [hk] at hI
      exact hI.2.2
    · have hI := doneInv_exec K _ (fairSchedule k) s0 (fairSchedule_noStart k) h0
      obtain ⟨_, _, hI⟩ := hI
      rw [hk] at hI
      simp only at hI
      cases hd : (exec K (fairSchedule k) s0).pSchedSupport.dynamicDone
      · rfl
      · exact absurd (hI.mp hd) (by omega)

/-- Claim C23, witness: the call of 3 cycles of `heldRun`, stopped at the republish test of
cycle 2, the last one: `dynamicDone` is true there exactly because 2 + 1 = 3. -/
theorem C23_dynamicDone_witness :
    (goto PC.bootSend (idle 1 3)).pSchedSupport.dynamicDone = false ∧
    PC.pastDoneCheck (exec idKernels ((heldRun.drop 5).take 38)
      (goto PC.bootSend (idle 1 3))).pc = true ∧
    ((exec idKernels ((heldRun.drop 5).take 38)
        (goto PC.bootSend (idle 1 3))).pSchedSupport.dynamicDone = true ↔
      (exec idKernels ((heldRun.drop 5).take 38) (goto PC.bootSend (idle 1 3))).cycle + 1 =
        (goto PC.bootSend (idle 1 3)).nDynamicCycles) :=
  ⟨rfl, by decide,
    ((((C23_dynamicDone_set_in_last_cycle idKernels (goto PC.bootSend (idle 1 3))
      rfl rfl rfl rfl).1 ((heldRun.drop 5).take 38) (by decide)).2.1) (by decide)).2⟩

/-- Claim C24. Take a user call of `N = nDynamicCycles` cycles from its first statement,
under any schedule without a second start signal, up to a state in which the call is over.
`nKinematicUpdates` has grown by 1 + r, where r is the number of times dT found
`kinematicOwned_Cons2ProdBuffer_isFresh` false at the test of l. 541, made once per cycle
after the integration; r is at most `N`, so the growth is at least 1 and at most `N + 1`. -/
theorem C24_kinematic_updates_count (K : Kernels) (sch : List Event) (s0 : DEMDynamicThread)
    (hpc : s0.pc = PC.bootSend) (hstart : s0.pSchedSupport.dynamicStarted = false)
    (hlog : s0.callLog = [])
    (hsch : ∀ ev ∈ sch, ev ≠ Event.env EnvEvent.startThread)
    (hdone : (exec K sch s0).pc = PC.callDone ∨ (exec K sch s0).pc = PC.loopHead ∨
      (exec K sch s0).pc = PC.startCheck ∨ (exec K sch s0).pc = PC.startSleep ∨
      (exec K sch s0).pc = PC.exited) :
    (exec K sch s0).pSchedSupport.nKinematicUpdates =
      s0.pSchedSupport.nKinematicUpdates + 1 + republishCount K sch s0 ∧
    republishCount K sch s0 ≤ s0.nDynamicCycles ∧
    s0.pSchedSupport.nKinematicUpdates + 1 ≤ (exec K sch s0).pSchedSupport.nKinematicUpdates ∧
    (exec K sch s0).pSchedSupport.nKinematicUpdates ≤
      s0.pSchedSupport.nKinematicUpdates + (s0.nDynamicCycles + 1) := by
  have h0 : CallInv s0.pSchedSupport.currentStampOfDynamic s0.userCallDone
      s0.nDynamicCycles s0 := by
    refine ⟨rfl, hstart, ?_⟩
    rw [hpc]
    exact ⟨by rw [hlog]; rfl, rfl, rfl⟩
  have hf : (exec K sch s0).pc ≠ PC.faulted := by
    rcases hdone with h | h | h | h | h <;> rw [h] <;> decide
  have h1 := publish_exec K _ _ _ sch s0 hsch h0 hf
  have h2 := republishCount_le K _ _ _ sch s0 hsch h0
  have p0 : publishPending s0 = 1 := by simp [publishPending, hpc]
  have p1 : publishPending (exec K sch s0) = 0 := by
    rcases hdone with h | h | h | h | h <;> simp [publishPending, h]
  have l0 : republishLeft s0 = s0.nDynamicCycles := by simp [republishLeft, hpc]
  rw [p0, p1] at h1
  rw [l0] at h2
  refine ⟨by omega, h2, by omega, by omega⟩

/-- Claim C24, witness: a call of one cycle in which kT drains its mailbox before the cycle;
dT republishes once and the counter grows by 2. -/
theorem C24_kinematic_updates_witness :
    (exec idKernels (drainRun.drop 5) (goto PC.bootSend (idle 1 1))).pc = PC.startSleep ∧
    republishCount idKernels (drainRun.drop 5) (goto PC.bootSend (idle 1 1)) = 1 ∧
    (exec idKernels (drainRun.drop 5)
        (goto PC.bootSend (idle 1 1))).pSchedSupport.nKinematicUpdates =
      (goto PC.bootSend (idle 1 1)).pSchedSupport.nKinematicUpdates + 1 +
        republishCount idKernels (drainRun.drop 5) (goto PC.bootSend (idle 1 1)) :=
  ⟨by decide, by decide,
    (C24_kinematic_updates_count idKernels (drainRun.drop 5) (goto PC.bootSend (idle 1 1))
      rfl rfl rfl (by decide) (by decide)).1⟩

/-- Claim C25. Take a user call of `N = nDynamicCycles` cycles from its first statement,
under any schedule without a second start signal. `nTimesDynamicHeldBack` has grown by
exactly the number of times `dynamicShouldWait()` returned true at l. 561, a test made once at
the end of every cycle, the last one included; that number is at most `N`. When the test is
true the step increments the counter and enters the drift-wait. While dT is in the drift-wait
it is inside a cycle, `userCallDone` is what it was when the call began, and along any
schedule on which `dynamicOwned_Prod2ConsBuffer_isFresh` stays false dT stays in the wait and
`userCallDone` stays unset. -/
theorem C25_held_back_count (K : Kernels) (sch : List Event) (s0 : DEMDynamicThread)
    (hpc : s0.pc = PC.bootSend) (hstart : s0.pSchedSupport.dynamicStarted = false)
    (hlog : s0.callLog = [])
    (hsch : ∀ ev ∈ sch, ev ≠ Event.env EnvEvent.startThread) :
    (exec K sch s0).pSchedSupport.nTimesDynamicHeldBack =
      s0.pSchedSupport.nTimesDynamicHeldBack + heldBackCount K sch s0 ∧
    heldBackCount K sch s0 ≤ s0.nDynamicCycles ∧
    ((exec K sch s0).pc = PC.driftCheck →
      (exec K sch s0).pSchedSupport.dynamicShouldWait = true → ∀ fault : Bool,
        inWait Wait.drift (workerThreadStep K fault (exec K sch s0)) ∧
        (workerThreadStep K fault (exec K sch s0)).pSchedSupport.nTimesDynamicHeldBack =
          (exec K sch s0).pSchedSupport.nTimesDynamicHeldBack + 1) ∧
    (inWait Wait.drift (exec K sch s0) →
      (exec K sch s0).cycle < s0.nDynamicCycles ∧
      (exec K sch s0).userCallDone = s0.userCallDone ∧
      ∀ sch2 : List Event,
        (∀ k, (exec K (sch2.take k)
          (exec K sch s0)).pSchedSupport.dynamicOwned_Prod2ConsBuffer_isFresh = false) →
        inWait Wait.drift (exec K sch2 (exec K sch s0)) ∧
        (exec K sch2 (exec K sch s0)).userCallDone = s0.userCallDone) := by
  have h0 : CallInv s0.pSchedSupport.currentStampOfDynamic s0.userCallDone
      s0.nDynamicCycles s0 := by
    refine ⟨rfl, hstart, ?_⟩
    rw [hpc]
    exact ⟨by rw [hlog]; rfl, rfl, rfl⟩
  have h2 := heldBackCount_le K _ _ _ sch s0 hsch h0
  have l0 : driftChecksLeft s0 = s0.nDynamicCycles := by simp [driftChecksLeft, hpc]
  rw [l0] at h2
  have hI := callInv_exec K _ _ _ sch s0 hsch h0
  refine ⟨heldBack_exec K sch s0, h2, ?_, ?_⟩
  · intro hp hw fault
    simp [workerThreadStep, hp, hw, goto, inWait, Wait.check]
  · intro hw
    have hu : (exec K sch s0).cycle < s0.nDynamicCycles ∧
        (exec K sch s0).userCallDone = s0.userCallDone := by
      obtain ⟨_, _, hI⟩ := hI
      rcases hw with h | h <;> simp only [Wait.check, Wait.sleep] at h <;> rw [h] at hI <;>
        exact ⟨hI.1, hI.2.2.2⟩
    refine ⟨hu.1, hu.2, fun sch2 hp => ?_⟩
    have hp1 : ∀ k, Wait.drift.predicate (exec K (sch2.take k) (exec K sch s0)) = false := hp
    exact ⟨wait_blocked K Wait.drift sch2 _ hw hp1,
      (wait_blocked_userCallDone K Wait.drift sch2 _ hw hp1).trans hu.2⟩

/-- Claim C25, witness: maximum drift 0 and a call of one cycle; dT is held back at the end of
cycle 0, the last one, and is blocked in the drift-wait with `userCallDone` false. -/
theorem C25_held_back_count_witness :
    inWait Wait.drift (exec idKernels (lastCycleHeldRun.drop 5) (goto PC.bootSend (idle 0 1))) ∧
    (exec idKernels (lastCycleHeldRun.drop 5) (goto PC.bootSend (idle 0 1))).cycle + 1 =
      (goto PC.bootSend (idle 0 1)).nDynamicCycles ∧
    heldBackCount idKernels (lastCycleHeldRun.drop 5) (goto PC.bootSend (idle 0 1)) = 1 ∧
    (exec idKernels (lastCycleHeldRun.drop 5)
        (goto PC.bootSend (idle 0 1))).pSchedSupport.nTimesDynamicHeldBack =
      (goto PC.bootSend (idle 0 1)).pSchedSupport.nTimesDynamicHeldBack +
        heldBackCount idKernels (lastCycleHeldRun.drop 5) (goto PC.bootSend (idle 0 1)) ∧
    (exec idKernels (lastCycleHeldRun.drop 5) (goto PC.bootSend (idle 0 1))).userCallDone =
      (goto PC.bootSend (idle 0 1)).userCallDone := by
  have h := C25_held_back_count idKernels (lastCycleHeldRun.drop 5)
    (goto PC.bootSend (idle 0 1)) rfl rfl rfl (by decide)
  exact ⟨by decide, by decide, by decide, h.1, (h.2.2.2 (by decide)).2.1⟩

/-- Claim C26. After `allocateManagedArrays` the five contact-event arrays `idGeometryA`,
`idGeometryB`, `contactForces`, `contactPointGeometryA`, `contactPointGeometryB` have the same
length, and that length is at least the contact count of the solver if the count was within
the allocated `nClumpBodies * 4` (it is 0 before the first unpack). After every later sequence
of deliveries by kT, each followed by `unpackMyBuffer`, they still have the same length and
that length is at least the contact count. Every single `unpackMyBuffer` on aligned arrays,
with a buffer that holds the pairs it announces, gives aligned arrays that hold the new
count; and `contactEventArraysResize` gives all five arrays the length it is called with,
which holds the contact count whenever the argument is at least the count, as at its only
call (l. 351). -/
theorem C26_contact_arrays_aligned (s : DEMDynamicThread) (nClumpBodies nSpheresGM nClumpTopo nClumpComponents
    nMatTuples : Nat) (hn : s.numContacts ≤ nClumpBodies * 4 % 2 ^ 64) :
    contactArraysHoldCount
      (allocateManagedArrays s nClumpBodies nSpheresGM nClumpTopo nClumpComponents nMatTuples) ∧
    (∀ ds, deliveriesHold ds →
      contactArraysHoldCount (unpackAll ds
        (allocateManagedArrays s nClumpBodies nSpheresGM nClumpTopo nClumpComponents
          nMatTuples))) ∧
    (∀ t : DEMDynamicThread, contactArraysAligned t.granData → bufferHoldsPairs t.granData →
      contactArraysHoldCount (unpackMyBuffer t)) ∧
    (∀ (t : DEMDynamicThread) (m : Nat),
      contactArraysAligned (contactEventArraysResize t m).granData ∧
      (contactEventArraysResize t m).granData.idGeometryA.length = m ∧
      (t.numContacts ≤ m → contactArraysHoldCount (contactEventArraysResize t m))) := by
  have h0 : contactArraysHoldCount
      (allocateManagedArrays s nClumpBodies nSpheresGM nClumpTopo nClumpComponents
        nMatTuples) := by
    refine ⟨allocateManagedArrays_aligned s _ _ _ _ _, ?_⟩
    simp only [allocateManagedArrays, trackedVectorResize_length]
    exact hn
  refine ⟨h0, fun ds hd => unpackAll_holdCount ds _ h0 hd,
    fun t ha hb => unpackMyBuffer_holdCount t ha hb, fun t m => ?_⟩
  obtain ⟨a, l, c⟩ := contactEventArraysResize_aligned t m
  exact ⟨a, l, fun hm => ⟨a, by rw [c, l]; exact hm⟩⟩

/-- Claim C26, witness: storage for three clumps allocated on a solver without contacts. -/
theorem C26_contact_arrays_witness :
    (idle 1 0).numContacts ≤ 3 * 4 % 2 ^ 64 ∧
    contactArraysHoldCount (allocateManagedArrays (idle 1 0) 3 5 2 3 2) :=
  ⟨by decide, (C26_contact_arrays_aligned (idle 1 0) 3 5 2 3 2 (by decide)).1⟩

/-- Claim C27. Let `P = NUM_BODIES_PER_BLOCK` be positive and fit `unsigned int`, the type
it is handed to `dim3` in. Let the clump count `b` and the contact count `n` be those of a
solver state: the eight position and orientation arrays hold `b` entries, the contact-event
arrays hold `n` entries, and a vector holds fewer than 2^63 elements. Then
`blocks_needed_for_prep` is the least `B` with `B * P >= max(b, n)`,
`blocks_needed_for_contacts` the least `B` with `B * P >= n`, and `blocks_needed_for_clumps`
the least `B` with `B * P >= b`; with `n = 0` the contact-force grid has 0 blocks. The value
handed to each launch, `dim3(B)`, is that `B` as long as the count does not exceed
`(2^32 - 1) * P`. -/
theorem C27_grid_is_ceiling_division (P : Nat) (s : DEMDynamicThread) (hP : 0 < P)
    (hP32 : P < 2 ^ 32)
    (hclumps : s.granData.clumpState.holds s.simParams.nClumpBodies)
    (hcontacts : contactArraysHoldCount s) (hmax : withinMaxSize s.granData) :
    (max s.simParams.nClumpBodies s.numContacts ≤ blocks_needed_for_prep P s * P ∧
      ∀ B, max s.simParams.nClumpBodies s.numContacts ≤ B * P →
        blocks_needed_for_prep P s ≤ B) ∧
    (s.numContacts ≤ blocks_needed_for_contacts P s * P ∧
      ∀ B, s.numContacts ≤ B * P → blocks_needed_for_contacts P s ≤ B) ∧
    (s.simParams.nClumpBodies ≤ blocks_needed_for_clumps P s * P ∧
      ∀ B, s.simParams.nClumpBodies ≤ B * P → blocks_needed_for_clumps P s ≤ B) ∧
    (s.numContacts = 0 →
      blocks_needed_for_contacts P s = 0 ∧ dim3 (blocks_needed_for_contacts P s) = 0) ∧
    (max s.simParams.nClumpBodies s.numContacts ≤ (2 ^ 32 - 1) * P →
      dim3 (blocks_needed_for_prep P s) = blocks_needed_for_prep P s) ∧
    (s.numContacts ≤ (2 ^ 32 - 1) * P →
      dim3 (blocks_needed_for_contacts P s) = blocks_needed_for_contacts P s) ∧
    (s.simParams.nClumpBodies ≤ (2 ^ 32 - 1) * P →
      dim3 (blocks_needed_for_clumps P s) = blocks_needed_for_clumps P s) := by
  have hb : s.simParams.nClumpBodies + P ≤ 2 ^ 64 := by
    have h1 : s.simParams.nClumpBodies ≤ s.granData.voxelID.length := hclumps.1
    have h2 := hmax.2
    omega
  have hn : s.numContacts + P ≤ 2 ^ 64 := by
    have h1 := hcontacts.2
    have h2 := hmax.1
    omega
  clear hclumps hcontacts hmax
  have e : threads_needed_for_prep s = max s.simParams.nClumpBodies s.numContacts := by
    clear hb hn
    unfold threads_needed_for_prep
    by_cases h : s.simParams.nClumpBodies > s.numContacts
    · rw [if_pos h, Nat.max_eq_left (Nat.le_of_lt h)]
    · rw [if_neg h, Nat.max_eq_right (Nat.le_of_not_gt h)]
  have hm : max s.simParams.nClumpBodies s.numContacts + P ≤ 2 ^ 64 := by omega
  refine ⟨?_, blocksNeeded_least P _ hP hn, blocksNeeded_least P _ hP hb, ?_, ?_, ?_, ?_⟩
  · unfold blocks_needed_for_prep
    rw [e]
    exact blocksNeeded_least P _ hP hm
  · intro h0
    have z : blocks_needed_for_contacts P s = 0 := by
      unfold blocks_needed_for_contacts
      rw [h0]
      exact blocksNeeded_zero P hP (by omega)
    rw [z]
    exact ⟨rfl, rfl⟩
  · intro hg
    unfold blocks_needed_for_prep
    rw [e]
    exact dim3_blocksNeeded P _ hP hm hg
  · intro hg
    exact dim3_blocksNeeded P _ hP hn hg
  · intro hg
    exact dim3_blocksNeeded P _ hP hb hg

/-- Claim C27, witness: 3 clumps, 5 contacts, blocks of 2: three blocks cover the
preparation. -/
theorem C27_grid_witness :
    0 < 2 ∧ 2 < 2 ^ 32 ∧ fivePairs.granData.clumpState.holds fivePairs.simParams.nClumpBodies ∧
    contactArraysHoldCount fivePairs ∧ withinMaxSize fivePairs.granData ∧
    fivePairs.simParams.nClumpBodies = 3 ∧ fivePairs.numContacts = 5 ∧
    max fivePairs.simParams.nClumpBodies fivePairs.numContacts ≤
      blocks_needed_for_prep 2 fivePairs * 2 :=
  ⟨by decide, by decide, by decide, by decide, by decide, by decide, by decide,
    (C27_grid_is_ceiling_division 2 fivePairs (by decide) (by decide) (by decide) (by decide)
      (by decide)).1.1⟩

/-- Claim C28, counterexample. The arrays are allocated for the totals of `sampleInputs`
(3 clumps, 5 spheres, 2 templates, 3 template components), every clump type is below the
number of templates, and the input lists are long enough and of matching shape; but the
material tables were allocated for `nMatTuples = 0` while the inputs list 3 material entries.
`populateManagedArrays` fails: the first checked write, `EProxy.at(0)`, is out of range.
With the tables allocated for two materials it fails just the same when `mat_g` is shorter
than `mat_k`, when the moments of inertia are fewer than the masses, when the masses
outnumber the templates, and when a template lists more locations than radii. -/
theorem C28_material_tables_counterexample :
    sampleInputs.input_clump_types.length = 3 ∧
    spheresBefore sampleInputs 3 = 5 ∧
    sampleInputs.clumps_sp_radii_types.length = 2 ∧
    componentsBefore sampleInputs.clumps_sp_radii_types 2 = 3 ∧
    (∀ t ∈ sampleInputs.input_clump_types, t < 2) ∧
    wellShaped sampleInputs ∧
    populateManagedArrays 16 16 (allocateManagedArrays (idle 1 0) 3 5 2 3 0) sampleInputs = none ∧
    populateManagedArrays 16 16 (allocateManagedArrays (idle 1 0) 3 5 2 3 2)
      { sampleInputs with mat_g := [1, 2] } = none ∧
    populateManagedArrays 16 16 (allocateManagedArrays (idle 1 0) 3 5 2 3 2)
      { sampleInputs with clumps_moi_types := [(1, 1, 1)] } = none ∧
    populateManagedArrays 16 16 (allocateManagedArrays (idle 1 0) 3 5 2 3 2)
      { sampleInputs with
        clumps_mass_types := [1, 2, 3]
        clumps_moi_types := [(1, 1, 1), (2, 3, 4), (5, 6, 7)] } = none ∧
    populateManagedArrays 16 16 (allocateManagedArrays (idle 1 0) 3 5 2 3 2)
      { sampleInputs with
        clumps_sp_location_types :=
          [[(0, 0, 0)], [(1/4, 0, 0), (-1/4, 0, 0), (0, 0, 0)]] } = none := by
  decide

/-- Claim C28, amended. Let the inputs be well shaped (locations and materials listed per
template as the radii are, every clump type below the number of templates, position, velocity
and family lists as long as the list of clump types, `mat_g` and `mat_CoR` as long as `mat_k`,
moments of inertia as long as the masses), let the masses not outnumber the templates, let the
material tables allocated for `nMatTuples` hold the `mat_k.size()` entries, and let the total
component count fit `unsigned int`. If the arrays were allocated by `allocateManagedArrays`
for the number of input clumps, the total component count over the input clumps, the number
of templates and the total component count over the templates, then `populateManagedArrays`
returns: no checked access fails. And whatever the arrays are, a clump whose type index is at
least the number of templates makes `populateManagedArrays` fail. -/
theorem C28_populate_bounds_safe (w ws : Nat) (s0 : DEMDynamicThread) (inp : PopulateInputs) (nMatTuples : Nat)
    (hshape : wellShaped inp)
    (hmass : inp.clumps_mass_types.length ≤ inp.clumps_sp_radii_types.length)
    (hmat : inp.mat_k.length ≤ ((1 + nMatTuples) * nMatTuples % 2 ^ 32) / 2)
    (hcomp : componentsBefore inp.clumps_sp_radii_types inp.clumps_sp_radii_types.length <
      2 ^ 32) :
    (∃ s1, populateManagedArrays w ws
      (allocateManagedArrays s0 inp.input_clump_types.length
        (spheresBefore inp inp.input_clump_types.length) inp.clumps_sp_radii_types.length
        (componentsBefore inp.clumps_sp_radii_types inp.clumps_sp_radii_types.length)
        nMatTuples) inp = some s1) ∧
    (∀ (s : DEMDynamicThread) (inp2 : PopulateInputs) (i t : Nat),
      inp2.input_clump_types[i]? = some t → inp2.clumps_sp_radii_types.length ≤ t →
      populateManagedArrays w ws s inp2 = none) :=
  ⟨populateManagedArrays_some w ws _ inp hshape
      (allocateManagedArrays_allocatedFor s0 inp nMatTuples hmass hmat hcomp),
    fun s inp2 i t ht hR => populateManagedArrays_none w ws s inp2 i t ht hR⟩

/-- Claim C28, witness: `sampleInputs` on storage allocated for its totals and two
materials. -/
theorem C28_populate_witness :
    wellShaped sampleInputs ∧
    (∃ s1, populateManagedArrays 16 16
      (allocateManagedArrays (idle 1 0) sampleInputs.input_clump_types.length
        (spheresBefore sampleInputs sampleInputs.input_clump_types.length)
        sampleInputs.clumps_sp_radii_types.length
        (componentsBefore sampleInputs.clumps_sp_radii_types
          sampleInputs.clumps_sp_radii_types.length) 2) sampleInputs = some s1) :=
  ⟨by decide, (C28_populate_bounds_safe 16 16 (idle 1 0) sampleInputs 2 (by decide) (by decide)
    (by decide) (by decide)).1⟩

/-- Claim C29, counterexample. With `nMatTuples = 65536` the product
`(1 + nMatTuples) * nMatTuples` wraps around in `unsigned int`, and each material-pair table
gets 32768 entries, not 65536 * 65537 / 2 = 2147516416. -/
theorem C29_material_table_length_counterexample :
    materialTableLengths (allocateManagedArrays (idle 1 0) 0 0 0 0 65536).granTemplates =
      [32768, 32768, 32768] ∧
    65536 * (65536 + 1) / 2 = 2147516416 := by
  constructor
  · simp only [materialTableLengths, allocateManagedArrays, trackedVectorResize_length]
    decide
  · decide

/-- Claim C29, amended. Let the per-clump arrays be empty, `nClumpBodies * 4` be below 2^64
and `(1 + nMatTuples) * nMatTuples` below 2^32, so that neither product wraps. After
`allocateManagedArrays`, for every clump index `i < nClumpBodies`: `oriQ0[i] = 1`,
`oriQ1[i] = oriQ2[i] = oriQ3[i] = 0`, and the velocity, the angular velocity, both
acceleration accumulators, the voxel index and the sub-voxel position are 0; each of the five
contact-event arrays and of the two contact transfer buffers has length `4 * nClumpBodies`;
and each of the three material-pair tables has length `nMatTuples * (nMatTuples + 1) / 2`. -/
theorem C29_initial_clump_state (s : DEMDynamicThread) (nClumpBodies nSpheresGM nClumpTopo nClumpComponents
    nMatTuples : Nat) (hempty : storageEmpty s.granData)
    (hB : nClumpBodies * 4 < 2 ^ 64) (hM : (1 + nMatTuples) * nMatTuples < 2 ^ 32) :
    (∀ i, i < nClumpBodies →
      (clumpArraysQ (allocateManagedArrays s nClumpBodies nSpheresGM nClumpTopo
          nClumpComponents nMatTuples).granData).map (fun v => v[i]?) =
        [some 1, some 0, some 0, some 0, some 0, some 0, some 0, some 0, some 0, some 0,
         some 0, some 0, some 0, some 0, some 0, some 0] ∧
      (clumpArraysN (allocateManagedArrays s nClumpBodies nSpheresGM nClumpTopo
          nClumpComponents nMatTuples).granData).map (fun v => v[i]?) =
        [some 0, some 0, some 0, some 0]) ∧
    contactArrayLengths (allocateManagedArrays s nClumpBodies nSpheresGM nClumpTopo
        nClumpComponents nMatTuples).granData = List.replicate 7 (4 * nClumpBodies) ∧
    materialTableLengths (allocateManagedArrays s nClumpBodies nSpheresGM nClumpTopo
        nClumpComponents nMatTuples).granTemplates =
      List.replicate 3 (nMatTuples * (nMatTuples + 1) / 2) := by
  obtain ⟨hq, hn⟩ := hempty
  simp only [clumpArraysQ, clumpArraysN, List.mem_cons, List.mem_singleton, forall_eq_or_imp,
    forall_eq, List.not_mem_nil, false_implies, implies_true, and_true] at hq hn
  obtain ⟨q1, q2, q3, q4, q5, q6, q7, q8, q9, q10, q11, q12, q13, q14, q15, q16⟩ := hq
  obtain ⟨n1, n2, n3, n4⟩ := hn
  refine ⟨fun i hi => ⟨?_, ?_⟩, ?_, ?_⟩
  · simp only [clumpArraysQ, allocateManagedArrays, List.map_cons, List.map_nil, q1, q2, q3, q4,
      q5, q6, q7, q8, q9, q10, q11, q12, q13, q14, q15, q16,
      trackedVectorResize_nil_getElem? _ _ _ hi]
  · simp only [clumpArraysN, allocateManagedArrays, List.map_cons, List.map_nil, n1, n2, n3, n4,
      trackedVectorResize_nil_getElem? _ _ _ hi]
  · have e1 : nClumpBodies * 4 % 2 ^ 64 = 4 * nClumpBodies := by
      rw [Nat.mod_eq_of_lt hB, Nat.mul_comm]
    simp only [contactArrayLengths, allocateManagedArrays, trackedVectorResize_length, e1]
    rfl
  · have e2 : (1 + nMatTuples) * nMatTuples % 2 ^ 32 / 2 = nMatTuples * (nMatTuples + 1) / 2 := by
      rw [Nat.mod_eq_of_lt hM, Nat.add_comm 1 nMatTuples, Nat.mul_comm]
    simp only [materialTableLengths, allocateManagedArrays, trackedVectorResize_length, e2]
    rfl

/-- Claim C29, witness: storage for three clumps and two materials allocated on an empty
dynamic thread: 12 contact slots. -/
theorem C29_initial_state_witness :
    storageEmpty (idle 1 0).granData ∧ 3 * 4 < 2 ^ 64 ∧ (1 + 2) * 2 < 2 ^ 32 ∧
    contactArrayLengths (allocateManagedArrays (idle 1 0) 3 5 2 3 2).granData =
      List.replicate 7 (4 * 3) :=
  ⟨by decide, by decide, by decide,
    (C29_initial_clump_state (idle 1 0) 3 5 2 3 2 (by decide) (by decide) (by decide)).2.1⟩

end DEMDynamicThread

end sgps
